import Mathlib

/-! # Keyboard filter driver (kbfiltr.c / kbfiltr.h): shallow embedding

The driver sits between the keyboard class driver and the port driver.  The
embedding below follows `src/kbfiltr.c` function by function.

Conventions of the embedding

* Pointers (`PVOID`, `PDEVICE_OBJECT`, function pointers) are natural numbers,
  `NULL` is `0`.
* `USHORT` / `ULONG` fields are natural numbers; `LARGE_INTEGER.QuadPart` and
  `LONG` are integers, with the two's complement wrap written out where the
  source narrows or subtracts (`toLONGLONG`, `toLONG`).
* `KeQuerySystemTime` reads an external clock.  The clock is a sequence of
  readings `clock : Nat → Int` (in 100 ns units) together with the number
  `tick` of readings already taken; every call returns `clock tick` and
  advances `tick`.
* The spin lock `RecentKeysLock` only brackets the ring accesses; the model is
  sequential, so acquiring and releasing it has no effect and is left out.
* `DebugPrint` has no effect on the driver state and is left out.
-/

namespace KbFiltr

/-! ## Data model (kbfiltr.h) -/

abbrev PVOID := Nat

abbrev NULL : PVOID := 0

/-- Number of slots of the recent-key ring, `#define MAX_RECENT_KEYS 16`. -/
abbrev MAX_RECENT_KEYS : Nat := 16

/-- Threshold of the duplicate detection, `#define LAG_MITIGATION_THRESHOLD_MS 300`. -/
abbrev LAG_MITIGATION_THRESHOLD_MS : Int := 300

/-- Modelled from the spec: the flag that signals a key release.  It is the
constant `KEY_BREAK` of the WDK header `ntddkbd.h`, which is not among the
sources; its WDK value is 1. -/
abbrev KEY_BREAK : Nat := 1

/-- The ring slot, `struct _RECENT_KEY_INPUT`. -/
structure RECENT_KEY_INPUT where
  MakeCode : Nat
  Flags : Nat
  Timestamp : Int
deriving DecidableEq

/-- Modelled from the spec: one key transition event (a code and a flags
word).  It is the structure `KEYBOARD_INPUT_DATA` of the WDK header
`ntddkbd.h`, which is not among the sources; the fields are those of the WDK. -/
structure KEYBOARD_INPUT_DATA where
  UnitId : Nat
  MakeCode : Nat
  Flags : Nat
  Reserved : Nat
  ExtraInformation : Nat
deriving DecidableEq

/-- Modelled from the spec: the (context, callback-pointer) pair of the
upstream consumer.  It is the structure `CONNECT_DATA` of the WDK header
`kbdmou.h`, which is not among the sources. -/
structure CONNECT_DATA where
  ClassDeviceObject : PVOID
  ClassService : PVOID
deriving DecidableEq

/-- Modelled from the spec: size in bytes of the capability descriptor
`KEYBOARD_ATTRIBUTES` of the WDK header `ntddkbd.h`, which is not among the
sources (2 + 4 * 2 bytes, 2 of padding, 4, and 2 * 6 bytes). -/
abbrev sizeof_KEYBOARD_ATTRIBUTES : Nat := 28

/-- The per-device filter state, `struct _DEVICE_EXTENSION`.  The cached
keyboard attributes are kept as the bytes of the `KEYBOARD_ATTRIBUTES` value;
the spin lock `RecentKeysLock` is left out. -/
structure DEVICE_EXTENSION where
  DeviceObject : PVOID
  TargetDeviceObject : PVOID
  EnableCount : Int
  UpperConnectData : CONNECT_DATA
  UpperContext : PVOID
  UpperInitializationRoutine : PVOID
  UpperIsrHook : PVOID
  IsrWritePort : PVOID
  QueueKeyboardPacket : PVOID
  CallContext : PVOID
  KeyboardAttributes : List Nat
  RecentKeys : Fin MAX_RECENT_KEYS → RECENT_KEY_INPUT
  RecentKeyIndex : Nat
deriving DecidableEq

/-! ## Machine arithmetic -/

/-- Two's complement wrap of an integer to 64 bits (`LONGLONG`). -/
def toLONGLONG (x : Int) : Int := (x + 2 ^ 63) % 2 ^ 64 - 2 ^ 63

/-- Two's complement wrap of an integer to 32 bits, the cast `(LONG)`. -/
def toLONG (x : Int) : Int := (x + 2 ^ 31) % 2 ^ 32 - 2 ^ 31

/-- The clock read of `KeQuerySystemTime`: the reading number `tick` of the
clock, and the advanced reading count. -/
def KeQuerySystemTime (clock : Nat → Int) (tick : Nat) : Int × Nat :=
  (clock tick, tick + 1)

/-! ## The recent-key ring and the duplicate check (kbfiltr.c, 596-709) -/

/-- The millisecond difference computed in the loop body of
`KbFilter_IsRecentDuplicateKey`:
`timeDiff.QuadPart = currentTime.QuadPart - recentKey->Timestamp.QuadPart;`
`LONG timeDiffMs = (LONG)(timeDiff.QuadPart / 10000);`
The 64-bit subtraction wraps, the division truncates towards zero, and the
cast keeps the low 32 bits. -/
def timeDiffMs (currentTime : Int) (recentKey : RECENT_KEY_INPUT) : Int :=
  let timeDiff := toLONGLONG (currentTime - recentKey.Timestamp)
  toLONG (Int.tdiv timeDiff 10000)

/-- The scan `for (i = 0; i < MAX_RECENT_KEYS; i++)` of
`KbFilter_IsRecentDuplicateKey`, over the indices still to be visited; the
result is the final value of `isDuplicate`. -/
def dupLoop (DevExt : DEVICE_EXTENSION) (InputData : KEYBOARD_INPUT_DATA)
    (currentTime : Int) : List (Fin MAX_RECENT_KEYS) → Bool
  | [] => false
  | i :: rest =>
    let recentKey := DevExt.RecentKeys i
    -- Skip empty slots
    if recentKey.MakeCode = 0 then
      dupLoop DevExt InputData currentTime rest
    -- Check if this is the same key
    else if recentKey.MakeCode = InputData.MakeCode then
      -- If within threshold, it is a duplicate
      if timeDiffMs currentTime recentKey < LAG_MITIGATION_THRESHOLD_MS then
        true
      else
        dupLoop DevExt InputData currentTime rest
    else
      dupLoop DevExt InputData currentTime rest

/-- The function `KbFilter_IsRecentDuplicateKey`: the returned BOOLEAN and the
clock reading count after the call. -/
def KbFilter_IsRecentDuplicateKey (DevExt : DEVICE_EXTENSION)
    (InputData : KEYBOARD_INPUT_DATA) (clock : Nat → Int) (tick : Nat) : Bool × Nat :=
  -- Only filter key-down events (make codes)
  if InputData.Flags &&& KEY_BREAK ≠ 0 then
    (false, tick)
  else
    let (currentTime, tick) := KeQuerySystemTime clock tick
    (dupLoop DevExt InputData currentTime (List.finRange MAX_RECENT_KEYS), tick)

/-- The function `KbFilter_AddRecentKey`: the device extension and the clock
reading count after the call.  The slot written is `RecentKeys[RecentKeyIndex]`.
The definition follows the function for a cursor inside the array (below
`MAX_RECENT_KEYS`), which is where `KbFilter_AddDevice` puts it and where every
call leaves it; for a cursor outside the array the store of the C function is
out of bounds and has no defined result, and the definition then leaves the
slots as they are. -/
def KbFilter_AddRecentKey (DevExt : DEVICE_EXTENSION)
    (InputData : KEYBOARD_INPUT_DATA) (clock : Nat → Int) (tick : Nat) :
    DEVICE_EXTENSION × Nat :=
  -- Only track key-down events (make codes)
  if InputData.Flags &&& KEY_BREAK ≠ 0 then
    (DevExt, tick)
  else
    let (currentTime, tick) := KeQuerySystemTime clock tick
    -- Add to circular buffer, then move to the next slot
    ({ DevExt with
        RecentKeys := fun j =>
          if j.val = DevExt.RecentKeyIndex then
            { MakeCode := InputData.MakeCode, Flags := InputData.Flags,
              Timestamp := currentTime }
          else DevExt.RecentKeys j
        RecentKeyIndex := (DevExt.RecentKeyIndex + 1) % MAX_RECENT_KEYS },
     tick)

/-! ## The service callback (kbfiltr.c, 711-813) -/

/-- One call made through the stored upstream pointer
`devExt->UpperConnectData.ClassService`: the routine called, its first
argument, and the batch `[InputDataStart, InputDataEnd)` handed to it. -/
structure UpstreamCall where
  routine : PVOID
  context : PVOID
  batch : List KEYBOARD_INPUT_DATA
deriving DecidableEq

/-- The state carried by the loop of `KbFilter_ServiceCallback`: the device
extension, the clock reading count, the contents written so far to the
temporary buffer (`[outputStart, outputCurrent)`), and `filteredCount`. -/
structure LoopState where
  devExt : DEVICE_EXTENSION
  tick : Nat
  output : List KEYBOARD_INPUT_DATA
  filteredCount : Nat
deriving DecidableEq

/-- The loop `for (currentInput = InputDataStart; currentInput < InputDataEnd;
currentInput++)` of `KbFilter_ServiceCallback`, over the events still to be
examined. -/
def serviceLoop (clock : Nat → Int) : LoopState → List KEYBOARD_INPUT_DATA → LoopState
  | s, [] => s
  | s, currentInput :: rest =>
    -- Check if this is a lag-induced duplicate
    let r := KbFilter_IsRecentDuplicateKey s.devExt currentInput clock s.tick
    if r.1 then
      -- Skip this input
      serviceLoop clock { s with tick := r.2 } rest
    else
      -- Copy the input to the output buffer, then add to recent keys tracking
      let a := KbFilter_AddRecentKey s.devExt currentInput clock r.2
      serviceLoop clock
        { devExt := a.1, tick := a.2,
          output := s.output ++ [currentInput],
          filteredCount := s.filteredCount + 1 } rest

/-- What `KbFilter_ServiceCallback` leaves behind: the device extension, the
clock reading count, the value of `*InputDataConsumed` on return, and the calls
made to the upstream consumer, in order. -/
structure ServiceResult where
  devExt : DEVICE_EXTENSION
  tick : Nat
  InputDataConsumed : Nat
  upstreamCalls : List UpstreamCall
deriving DecidableEq

/-- The function `KbFilter_ServiceCallback`.

* `service routine context batch consumed` is the value the routine behind the
  pointer `routine` leaves in `*InputDataConsumed` when called with `context`
  and `batch`, `consumed` being the value found there on entry.
* `allocated` says whether `ExAllocatePoolWithTag` returned a buffer
  (`outputStart != NULL`).
* `batch` is `[InputDataStart, InputDataEnd)` and `InputDataConsumed` the value
  of `*InputDataConsumed` on entry.  The local `originalCount` is the length
  of `batch`; it sizes the allocation and is printed, nothing else.
* The upstream call hands over `[outputStart, outputStart + filteredCount)`,
  the first `filteredCount` entries of the temporary buffer.
* The upstream routine is foreign code: it is taken not to touch the device
  extension of this layer.  The call goes through the stored pointer whatever
  its value; a null stored pointer is not told apart. -/
def KbFilter_ServiceCallback
    (service : PVOID → PVOID → List KEYBOARD_INPUT_DATA → Nat → Nat)
    (clock : Nat → Int) (allocated : Bool)
    (devExt : DEVICE_EXTENSION) (tick : Nat)
    (batch : List KEYBOARD_INPUT_DATA) (InputDataConsumed : Nat) : ServiceResult :=
  if !allocated then
    -- If allocation fails, pass through all inputs unfiltered
    { devExt := devExt, tick := tick,
      InputDataConsumed :=
        service devExt.UpperConnectData.ClassService
          devExt.UpperConnectData.ClassDeviceObject batch InputDataConsumed,
      upstreamCalls :=
        [{ routine := devExt.UpperConnectData.ClassService,
           context := devExt.UpperConnectData.ClassDeviceObject,
           batch := batch }] }
  else
    -- Process each input packet
    let s := serviceLoop clock
      { devExt := devExt, tick := tick, output := [], filteredCount := 0 } batch
    -- Call the upper service with filtered inputs
    if s.filteredCount > 0 then
      { devExt := s.devExt, tick := s.tick,
        InputDataConsumed :=
          service s.devExt.UpperConnectData.ClassService
            s.devExt.UpperConnectData.ClassDeviceObject
            (s.output.take s.filteredCount) InputDataConsumed,
        upstreamCalls :=
          [{ routine := s.devExt.UpperConnectData.ClassService,
             context := s.devExt.UpperConnectData.ClassDeviceObject,
             batch := s.output.take s.filteredCount }] }
    else
      { devExt := s.devExt, tick := s.tick, InputDataConsumed := 0, upstreamCalls := [] }

/-- The device extension as `KbFilter_AddDevice` leaves it: zeroed by
`RtlZeroMemory`, then `DeviceObject` and `TargetDeviceObject` set, the ring
cursor set to 0 and the ring zeroed again. -/
def KbFilter_AddDevice (deviceObject targetDeviceObject : PVOID) : DEVICE_EXTENSION :=
  { DeviceObject := deviceObject
    TargetDeviceObject := targetDeviceObject
    EnableCount := 0
    UpperConnectData := { ClassDeviceObject := NULL, ClassService := NULL }
    UpperContext := NULL
    UpperInitializationRoutine := NULL
    UpperIsrHook := NULL
    IsrWritePort := NULL
    QueueKeyboardPacket := NULL
    CallContext := NULL
    KeyboardAttributes := List.replicate sizeof_KEYBOARD_ATTRIBUTES 0
    RecentKeys := fun _ => { MakeCode := 0, Flags := 0, Timestamp := 0 }
    RecentKeyIndex := 0 }

/-- The number of events of the batch that the loop of
`KbFilter_ServiceCallback` skips, that is, for which
`KbFilter_IsRecentDuplicateKey` returns TRUE when the loop examines them.  The
recursion is the one of `serviceLoop`; the source keeps no such counter (it
only prints `originalCount - filteredCount`). -/
def suppressedCount (clock : Nat → Int) : LoopState → List KEYBOARD_INPUT_DATA → Nat
  | _, [] => 0
  | s, currentInput :: rest =>
    let r := KbFilter_IsRecentDuplicateKey s.devExt currentInput clock s.tick
    if r.1 then
      suppressedCount clock { s with tick := r.2 } rest + 1
    else
      let a := KbFilter_AddRecentKey s.devExt currentInput clock r.2
      suppressedCount clock
        { devExt := a.1, tick := a.2,
          output := s.output ++ [currentInput],
          filteredCount := s.filteredCount + 1 } rest

/-- One iteration of the loop of `KbFilter_ServiceCallback` as seen from
outside: the event `*currentInput` examined, the answer of
`KbFilter_IsRecentDuplicateKey` for it, and the index in the temporary buffer
of the write `*outputCurrent = *currentInput` (`outputCurrent - outputStart`),
when the iteration makes one. -/
structure LoopStep where
  currentInput : KEYBOARD_INPUT_DATA
  duplicate : Bool
  writeIndex : Option Nat
deriving DecidableEq

/-- The iterations of the loop of `KbFilter_ServiceCallback`, in order.  The
recursion is the one of `serviceLoop`; the index of a write is the number of
entries written before it. -/
def serviceTrace (clock : Nat → Int) : LoopState → List KEYBOARD_INPUT_DATA → List LoopStep
  | _, [] => []
  | s, currentInput :: rest =>
    let r := KbFilter_IsRecentDuplicateKey s.devExt currentInput clock s.tick
    if r.1 then
      { currentInput := currentInput, duplicate := true, writeIndex := none } ::
        serviceTrace clock { s with tick := r.2 } rest
    else
      let a := KbFilter_AddRecentKey s.devExt currentInput clock r.2
      { currentInput := currentInput, duplicate := false,
        writeIndex := some s.output.length } ::
        serviceTrace clock
          { devExt := a.1, tick := a.2,
            output := s.output ++ [currentInput],
            filteredCount := s.filteredCount + 1 } rest

/-! ## The internal device control dispatch (kbfiltr.c, 242-456) -/

/-- Modelled from the spec: the status values of the dispatch.  `NTSTATUS` is a
signed 32-bit value and `NT_SUCCESS(s)` is `s >= 0`; the macro and the
constants below are those of the WDK headers, which are not among the
sources. -/
def NT_SUCCESS (status : Int) : Bool := decide (0 ≤ status)

/-- Modelled from the spec: the success status, `STATUS_SUCCESS` of the WDK. -/
abbrev STATUS_SUCCESS : Int := 0

/-- Modelled from the spec: the "sharing violation" status,
`STATUS_SHARING_VIOLATION` (0xC0000043) of the WDK. -/
def STATUS_SHARING_VIOLATION : Int := toLONG 0xC0000043

/-- Modelled from the spec: the "invalid parameter" status,
`STATUS_INVALID_PARAMETER` (0xC000000D) of the WDK. -/
def STATUS_INVALID_PARAMETER : Int := toLONG 0xC000000D

/-- Modelled from the spec: the "not implemented" status,
`STATUS_NOT_IMPLEMENTED` (0xC0000002) of the WDK. -/
def STATUS_NOT_IMPLEMENTED : Int := toLONG 0xC0000002

/-- Modelled from the spec: the request kinds are control codes built by the
WDK macro `CTL_CODE(DeviceType, Function, Method, Access)`; the macro and the
codes below come from the WDK headers `kbdmou.h`, `ntddkbd.h` and `ntdd8042.h`,
which are not among the sources. -/
def CTL_CODE (DeviceType Function Method Access : Nat) : Nat :=
  (DeviceType <<< 16) ||| (Access <<< 14) ||| (Function <<< 2) ||| Method

/-- Modelled from the spec: the Connect request kind (WDK value). -/
def IOCTL_INTERNAL_KEYBOARD_CONNECT : Nat := CTL_CODE 0x0b 0x0080 3 0

/-- Modelled from the spec: the Disconnect request kind (WDK value). -/
def IOCTL_INTERNAL_KEYBOARD_DISCONNECT : Nat := CTL_CODE 0x0b 0x0100 3 0

/-- Modelled from the spec: the Hook-install request kind (WDK value). -/
def IOCTL_INTERNAL_I8042_HOOK_KEYBOARD : Nat := CTL_CODE 0x0b 0x0FF0 3 0

/-- Modelled from the spec: the capability-attributes query kind (WDK value). -/
def IOCTL_KEYBOARD_QUERY_ATTRIBUTES : Nat := CTL_CODE 0x0b 0x0000 0 0

/-- Modelled from the spec: size in bytes of `CONNECT_DATA`, two pointers of
8 bytes (WDK header `kbdmou.h`, 64-bit target). -/
def sizeof_CONNECT_DATA : Nat := 16

/-- Modelled from the spec: size in bytes of `INTERNAL_I8042_HOOK_KEYBOARD`,
six pointers of 8 bytes (WDK header `ntdd8042.h`, 64-bit target). -/
def sizeof_INTERNAL_I8042_HOOK_KEYBOARD : Nat := 48

/-- Modelled from the spec: the Hook-install payload {context, init-routine,
isr-routine, write-port handle, queue-packet handle, call-context}.  It is the
structure `INTERNAL_I8042_HOOK_KEYBOARD` of the WDK header `ntdd8042.h`, which
is not among the sources. -/
structure INTERNAL_I8042_HOOK_KEYBOARD where
  Context : PVOID
  InitializationRoutine : PVOID
  IsrRoutine : PVOID
  IsrWritePort : PVOID
  QueueKeyboardPacket : PVOID
  CallContext : PVOID
deriving DecidableEq

/-- The status block of a request, `Irp->IoStatus`. -/
structure IO_STATUS_BLOCK where
  Status : Int
  Information : Nat
deriving DecidableEq

/-- The part of a request (`IRP` and its current stack location) that the
driver touches.  `Type3InputBuffer` is the memory of the caller's payload as a
sequence of pointer-sized words (every field of `CONNECT_DATA` and of
`INTERNAL_I8042_HOOK_KEYBOARD` is one pointer); `SystemBuffer` is the response
buffer `AssociatedIrp.SystemBuffer` in bytes. -/
structure IRP where
  IoControlCode : Nat
  InputBufferLength : Nat
  OutputBufferLength : Nat
  Type3InputBuffer : Nat → PVOID
  IoStatus : IO_STATUS_BLOCK
  SystemBuffer : List Nat

/-- The value `*connectData` read through the cast
`(PCONNECT_DATA) Type3InputBuffer`. -/
def readCONNECT_DATA (buffer : Nat → PVOID) : CONNECT_DATA :=
  { ClassDeviceObject := buffer 0, ClassService := buffer 1 }

/-- The payload memory after the two fields of `*connectData` are assigned. -/
def writeCONNECT_DATA (buffer : Nat → PVOID) (c : CONNECT_DATA) : Nat → PVOID :=
  Function.update (Function.update buffer 0 c.ClassDeviceObject) 1 c.ClassService

/-- The value `*hookKeyboard` read through the cast
`(PINTERNAL_I8042_HOOK_KEYBOARD) Type3InputBuffer`. -/
def readHOOK_KEYBOARD (buffer : Nat → PVOID) : INTERNAL_I8042_HOOK_KEYBOARD :=
  { Context := buffer 0, InitializationRoutine := buffer 1, IsrRoutine := buffer 2,
    IsrWritePort := buffer 3, QueueKeyboardPacket := buffer 4, CallContext := buffer 5 }

/-- The addresses of the routines of this driver that the dispatch hands out. -/
structure DriverImage where
  KbFilter_ServiceCallback : PVOID
  KbFilter_InitializationRoutine : PVOID
  KbFilter_IsrHook : PVOID
  KbFilterRequestCompletionRoutine : PVOID
deriving DecidableEq

/-- The state at the end of the `switch (ioControlCode)` of
`KbFilter_DispatchInternalDeviceControl`: the device extension, the payload
memory, and the locals `status` and `needCompletion`. -/
structure SwitchResult where
  devExt : DEVICE_EXTENSION
  buffer : Nat → PVOID
  status : Int
  needCompletion : Bool

/-- The `switch (ioControlCode)` of `KbFilter_DispatchInternalDeviceControl`.
`DeviceObject` is the routine's first argument and `devExtPtr` the pointer
`DeviceObject->DeviceExtension`. -/
def dispatchSwitch (img : DriverImage) (DeviceObject devExtPtr : PVOID)
    (devExt : DEVICE_EXTENSION) (Irp : IRP) : SwitchResult :=
  let ioControlCode := Irp.IoControlCode
  let inputBufferLength := Irp.InputBufferLength
  let buffer := Irp.Type3InputBuffer
  if ioControlCode = IOCTL_INTERNAL_KEYBOARD_CONNECT then
    -- Only allow one connection.
    if devExt.UpperConnectData.ClassService ≠ NULL then
      { devExt := devExt, buffer := buffer, status := STATUS_SHARING_VIOLATION,
        needCompletion := false }
    -- Get the input buffer from the request
    else if inputBufferLength < sizeof_CONNECT_DATA then
      { devExt := devExt, buffer := buffer, status := STATUS_INVALID_PARAMETER,
        needCompletion := false }
    else
      let connectData := readCONNECT_DATA buffer
      { devExt := { devExt with UpperConnectData := connectData },
        buffer := writeCONNECT_DATA buffer
          { ClassDeviceObject := DeviceObject,
            ClassService := img.KbFilter_ServiceCallback },
        status := STATUS_SUCCESS, needCompletion := false }
  else if ioControlCode = IOCTL_INTERNAL_KEYBOARD_DISCONNECT then
    { devExt := devExt, buffer := buffer, status := STATUS_NOT_IMPLEMENTED,
      needCompletion := false }
  else if ioControlCode = IOCTL_INTERNAL_I8042_HOOK_KEYBOARD then
    -- Get the input buffer from the request
    if inputBufferLength < sizeof_INTERNAL_I8042_HOOK_KEYBOARD then
      { devExt := devExt, buffer := buffer, status := STATUS_INVALID_PARAMETER,
        needCompletion := false }
    else
      let hookKeyboard := readHOOK_KEYBOARD buffer
      { devExt :=
          { devExt with
            UpperContext := hookKeyboard.Context
            UpperInitializationRoutine :=
              if hookKeyboard.InitializationRoutine ≠ NULL then
                hookKeyboard.InitializationRoutine
              else devExt.UpperInitializationRoutine
            UpperIsrHook :=
              if hookKeyboard.IsrRoutine ≠ NULL then hookKeyboard.IsrRoutine
              else devExt.UpperIsrHook
            IsrWritePort := hookKeyboard.IsrWritePort
            QueueKeyboardPacket := hookKeyboard.QueueKeyboardPacket
            CallContext := hookKeyboard.CallContext },
        buffer :=
          Function.update
            (Function.update (Function.update buffer 0 devExtPtr)
              1 img.KbFilter_InitializationRoutine)
            2 img.KbFilter_IsrHook,
        status := STATUS_SUCCESS, needCompletion := false }
  else if ioControlCode = IOCTL_KEYBOARD_QUERY_ATTRIBUTES then
    { devExt := devExt, buffer := buffer, status := STATUS_SUCCESS, needCompletion := true }
  else
    -- the five indicator and typematic cases, and every code without a case
    { devExt := devExt, buffer := buffer, status := STATUS_SUCCESS, needCompletion := false }

/-- One `IoCallDriver` made by the dispatch: the target device, and the
completion routine with its context when `IoSetCompletionRoutine` armed one
(`none` after `IoSkipCurrentIrpStackLocation`). -/
structure DownstreamCall where
  target : PVOID
  completion : Option (PVOID × PVOID)
deriving DecidableEq

/-- What `KbFilter_DispatchInternalDeviceControl` leaves behind: the device
extension, the request, the local `status` when the switch is left, whether
this layer called `IoCompleteRequest`, the `IoCallDriver` calls it made, and
the returned status. -/
structure DispatchResult where
  devExt : DEVICE_EXTENSION
  Irp : IRP
  status : Int
  completed : Bool
  downstreamCalls : List DownstreamCall
  returned : Int

/-- The function `KbFilter_DispatchInternalDeviceControl`.
`IoCallDriver target Irp` is the status the driver below returns for the
forwarded request. -/
def KbFilter_DispatchInternalDeviceControl (img : DriverImage)
    (IoCallDriver : PVOID → IRP → Int) (DeviceObject devExtPtr : PVOID)
    (devExt : DEVICE_EXTENSION) (Irp : IRP) : DispatchResult :=
  let sw := dispatchSwitch img DeviceObject devExtPtr devExt Irp
  let Irp := { Irp with Type3InputBuffer := sw.buffer }
  if !NT_SUCCESS sw.status then
    { devExt := sw.devExt,
      Irp := { Irp with IoStatus := { Status := sw.status, Information := 0 } },
      status := sw.status, completed := true, downstreamCalls := [],
      returned := sw.status }
  else if sw.needCompletion then
    -- Set up completion routine to capture output data
    { devExt := sw.devExt, Irp := Irp, status := sw.status, completed := false,
      downstreamCalls :=
        [{ target := sw.devExt.TargetDeviceObject,
           completion := some (img.KbFilterRequestCompletionRoutine, devExtPtr) }],
      returned := IoCallDriver sw.devExt.TargetDeviceObject Irp }
  else
    -- Simply pass the request along
    { devExt := sw.devExt, Irp := Irp, status := sw.status, completed := false,
      downstreamCalls := [{ target := sw.devExt.TargetDeviceObject, completion := none }],
      returned := IoCallDriver sw.devExt.TargetDeviceObject Irp }

/-! ## The initialization and interrupt hooks (kbfiltr.c, 458-594) -/

/-- One call made through the stored pointer `devExt->UpperInitializationRoutine`:
the routine called and the arguments it was given. -/
structure InitCall where
  routine : PVOID
  context : PVOID
  SynchFuncContext : PVOID
  ReadPort : PVOID
  WritePort : PVOID
deriving DecidableEq

/-- What `KbFilter_InitializationRoutine` leaves behind: the returned status,
the value of `*TurnTranslationOn` on return, and the calls made to the recorded
initialization routine, in order. -/
structure InitResult where
  status : Int
  TurnTranslationOn : Bool
  upperCalls : List InitCall
deriving DecidableEq

/-- The function `KbFilter_InitializationRoutine`.  `devExt` is the device
extension `InitializationContext` points to, `TurnTranslationOn` the value
found in `*TurnTranslationOn` on entry, and
`callInit routine context synch read write t` the status the routine behind the
pointer `routine` returns, with the value it leaves in `*TurnTranslationOn`,
`t` being the value found there. -/
def KbFilter_InitializationRoutine
    (callInit : PVOID → PVOID → PVOID → PVOID → PVOID → Bool → Int × Bool)
    (devExt : DEVICE_EXTENSION) (SynchFuncContext ReadPort WritePort : PVOID)
    (TurnTranslationOn : Bool) : InitResult :=
  -- We just call any other drivers in the chain if they exist
  if devExt.UpperInitializationRoutine ≠ NULL then
    let r := callInit devExt.UpperInitializationRoutine devExt.UpperContext
      SynchFuncContext ReadPort WritePort TurnTranslationOn
    let call : InitCall :=
      { routine := devExt.UpperInitializationRoutine, context := devExt.UpperContext,
        SynchFuncContext := SynchFuncContext, ReadPort := ReadPort, WritePort := WritePort }
    if !NT_SUCCESS r.1 then
      { status := r.1, TurnTranslationOn := r.2, upperCalls := [call] }
    else
      { status := r.1, TurnTranslationOn := true, upperCalls := [call] }
  else
    { status := STATUS_SUCCESS, TurnTranslationOn := true, upperCalls := [] }

/-- The memory behind the pointer arguments of an interrupt hook: the input
packet `*CurrentInput`, the output packet `*CurrentOutput` (its bytes), the
byte `*DataByte`, the flag `*ContinueProcessing` and the scan state
`*ScanState`.  A `BOOLEAN` is a truth value. -/
structure IsrFrame where
  CurrentInput : KEYBOARD_INPUT_DATA
  CurrentOutput : List Nat
  DataByte : Nat
  ContinueProcessing : Bool
  ScanState : Nat
deriving DecidableEq

/-- One call made through the stored pointer `devExt->UpperIsrHook`: the
routine called, its context, the status byte, and the memory behind the
pointer arguments on entry. -/
structure IsrCall where
  routine : PVOID
  context : PVOID
  StatusByte : Nat
  frame : IsrFrame
deriving DecidableEq

/-- What `KbFilter_IsrHook` leaves behind: the returned BOOLEAN, the memory
behind the pointer arguments on return, and the calls made to the recorded
interrupt hook, in order. -/
structure IsrResult where
  retVal : Bool
  frame : IsrFrame
  upperCalls : List IsrCall
deriving DecidableEq

/-- The function `KbFilter_IsrHook`.  `devExt` is the device extension
`IsrContext` points to, and `callIsr routine context StatusByte frame` the
BOOLEAN the routine behind the pointer `routine` returns, with the memory
behind the pointer arguments as it leaves it. -/
def KbFilter_IsrHook (callIsr : PVOID → PVOID → Nat → IsrFrame → Bool × IsrFrame)
    (devExt : DEVICE_EXTENSION) (StatusByte : Nat) (frame : IsrFrame) : IsrResult :=
  if devExt.UpperIsrHook ≠ NULL then
    let r := callIsr devExt.UpperIsrHook devExt.UpperContext StatusByte frame
    let call : IsrCall :=
      { routine := devExt.UpperIsrHook, context := devExt.UpperContext,
        StatusByte := StatusByte, frame := frame }
    if !r.1 || !r.2.ContinueProcessing then
      { retVal := r.1, frame := r.2, upperCalls := [call] }
    else
      { retVal := r.1, frame := { r.2 with ContinueProcessing := true }, upperCalls := [call] }
  else
    { retVal := true, frame := { frame with ContinueProcessing := true }, upperCalls := [] }

/-- Calls through a hook pointer as the port driver, or a filter layer below,
sees them when a second layer of this driver sits above: the pointer
`img.KbFilter_IsrHook` with the context `devExtPtr2` runs `KbFilter_IsrHook` on
the device extension `devExt2` of that layer; every other call is the foreign
routine `callIsr` describes. -/
def callIsrStacked (img : DriverImage) (devExtPtr2 : PVOID) (devExt2 : DEVICE_EXTENSION)
    (callIsr : PVOID → PVOID → Nat → IsrFrame → Bool × IsrFrame) :
    PVOID → PVOID → Nat → IsrFrame → Bool × IsrFrame :=
  fun routine context StatusByte frame =>
    if routine = img.KbFilter_IsrHook ∧ context = devExtPtr2 then
      ((KbFilter_IsrHook callIsr devExt2 StatusByte frame).retVal,
       (KbFilter_IsrHook callIsr devExt2 StatusByte frame).frame)
    else callIsr routine context StatusByte frame

/-! ## The completion routine (kbfiltr.c, 815-860) -/

/-- The function `KbFilterRequestCompletionRoutine`: the device extension
`Context` points to after the call, and the returned status.  `Irp` is the
completed request: `IoStatus` as the lower drivers left it and `SystemBuffer`
the response.  `RtlCopyMemory` copies the first `sizeof(KEYBOARD_ATTRIBUTES)`
bytes of the response. -/
def KbFilterRequestCompletionRoutine (deviceExtension : DEVICE_EXTENSION) (Irp : IRP) :
    DEVICE_EXTENSION × Int :=
  if NT_SUCCESS Irp.IoStatus.Status ∧
      Irp.IoControlCode = IOCTL_KEYBOARD_QUERY_ATTRIBUTES then
    if Irp.IoStatus.Information ≥ sizeof_KEYBOARD_ATTRIBUTES then
      ({ deviceExtension with
          KeyboardAttributes := Irp.SystemBuffer.take sizeof_KEYBOARD_ATTRIBUTES },
       STATUS_SUCCESS)
    else
      (deviceExtension, STATUS_SUCCESS)
  else
    (deviceExtension, STATUS_SUCCESS)

/-! ## Sequences of events on one device -/

/-- What can happen to an attached device, as far as the filter state goes: an
internal device control request is dispatched, the port driver delivers a
batch to `KbFilter_ServiceCallback` (with the outcome of the allocation and the
value found in `*InputDataConsumed`), or a forwarded request completes and
`KbFilterRequestCompletionRoutine` runs on it.  The two hooks only read the
device extension. -/
inductive FilterEvent where
  | request (Irp : IRP)
  | delivery (allocated : Bool) (batch : List KEYBOARD_INPUT_DATA) (consumed : Nat)
  | completion (Irp : IRP)

/-- The device extension and the clock reading count after one event. -/
def stepEvent (img : DriverImage) (IoCallDriver : PVOID → IRP → Int)
    (service : PVOID → PVOID → List KEYBOARD_INPUT_DATA → Nat → Nat)
    (clock : Nat → Int) (DeviceObject devExtPtr : PVOID)
    (st : DEVICE_EXTENSION × Nat) : FilterEvent → DEVICE_EXTENSION × Nat
  | .request Irp =>
    ((KbFilter_DispatchInternalDeviceControl img IoCallDriver DeviceObject devExtPtr
        st.1 Irp).devExt, st.2)
  | .delivery allocated batch consumed =>
    ((KbFilter_ServiceCallback service clock allocated st.1 st.2 batch consumed).devExt,
     (KbFilter_ServiceCallback service clock allocated st.1 st.2 batch consumed).tick)
  | .completion Irp =>
    ((KbFilterRequestCompletionRoutine st.1 Irp).1, st.2)

/-- The device extension and the clock reading count after a sequence of events. -/
def runEvents (img : DriverImage) (IoCallDriver : PVOID → IRP → Int)
    (service : PVOID → PVOID → List KEYBOARD_INPUT_DATA → Nat → Nat)
    (clock : Nat → Int) (DeviceObject devExtPtr : PVOID) :
    DEVICE_EXTENSION × Nat → List FilterEvent → DEVICE_EXTENSION × Nat
  | st, [] => st
  | st, ev :: rest =>
    runEvents img IoCallDriver service clock DeviceObject devExtPtr
      (stepEvent img IoCallDriver service clock DeviceObject devExtPtr st ev) rest

/-- Consecutive calls of `KbFilter_AddRecentKey`, one per event of the list, in
order: the device extension and the clock reading count after the last. -/
def addRecentKeys (clock : Nat → Int) :
    DEVICE_EXTENSION × Nat → List KEYBOARD_INPUT_DATA → DEVICE_EXTENSION × Nat
  | st, [] => st
  | st, e :: rest => addRecentKeys clock (KbFilter_AddRecentKey st.1 e clock st.2) rest

/-! ## The lookup in the words of the specification

The definitions of this section are written from the specification's sentences
about the lookup ("returns the elapsed time since the most recent non-empty
slot whose code matches", "the most recently recorded slot with code c"), not
from the source; they are what `KbFilter_IsRecentDuplicateKey` is compared
with. -/

/-- Specification side: the slots of the ring from the one recorded last
backwards.  The cursor names the slot written next, so the slot recorded last
is the one before the cursor, the one recorded before it the second before the
cursor, and so on, modulo 16. -/
def recencyOrder (RecentKeyIndex : Nat) : List (Fin MAX_RECENT_KEYS) :=
  (List.range MAX_RECENT_KEYS).map fun k =>
    ⟨(RecentKeyIndex + (MAX_RECENT_KEYS - 1 - k)) % MAX_RECENT_KEYS,
      Nat.mod_lt _ (by decide)⟩

/-- Specification side: the content of the ring in recency order. -/
def ringByRecency (DevExt : DEVICE_EXTENSION) : List RECENT_KEY_INPUT :=
  (recencyOrder DevExt.RecentKeyIndex).map DevExt.RecentKeys

/-- Specification side: the most recently recorded non-empty slot whose code is
`code`, if there is one. -/
def mostRecentSlotSpec (DevExt : DEVICE_EXTENSION) (code : Nat) : Option RECENT_KEY_INPUT :=
  (ringByRecency DevExt).find? fun k => decide (k.MakeCode ≠ 0) && decide (k.MakeCode = code)

/-- Specification side: `lookup(code, now)`, the elapsed time (in units of
100 ns) since the most recent non-empty slot whose code matches. -/
def lookupSpec (DevExt : DEVICE_EXTENSION) (code : Nat) (now : Int) : Option Int :=
  (mostRecentSlotSpec DevExt code).map fun k => now - k.Timestamp

/-- Specification side: a press is a duplicate when the most recently recorded
slot with its code exists and its elapsed time is below 300 ms (3,000,000
units of 100 ns). -/
def isDuplicateSpec (DevExt : DEVICE_EXTENSION) (code : Nat) (now : Int) : Bool :=
  match lookupSpec DevExt code now with
  | some age => decide (age < LAG_MITIGATION_THRESHOLD_MS * 10000)
  | none => false

/-! ## Concrete data used in the worked cases -/

/-- A press of the key with code 0x1E. -/
def pressA : KEYBOARD_INPUT_DATA :=
  { UnitId := 0, MakeCode := 0x1E, Flags := 0, Reserved := 0, ExtraInformation := 0 }

/-- A release of the key with code 0x1E (`KEY_BREAK` set). -/
def releaseA : KEYBOARD_INPUT_DATA :=
  { UnitId := 0, MakeCode := 0x1E, Flags := 1, Reserved := 0, ExtraInformation := 0 }

/-- A freshly added device (device object 1, target 2) whose upstream consumer
is the routine 9 with context 7. -/
def connectedDevice : DEVICE_EXTENSION :=
  { KbFilter_AddDevice 1 2 with
    UpperConnectData := { ClassDeviceObject := 7, ClassService := 9 } }

/-- The device `connectedDevice` after a press of 0x1E was recorded at time 0. -/
def deviceWithA : DEVICE_EXTENSION :=
  { connectedDevice with
    RecentKeys := fun j =>
      if j.val = 0 then { MakeCode := 0x1E, Flags := 0, Timestamp := 0 }
      else { MakeCode := 0, Flags := 0, Timestamp := 0 }
    RecentKeyIndex := 1 }

/-- A clock that stands still at time 0. -/
def clockZero : Nat → Int := fun _ => 0

/-- An upstream consumer that consumes every event delivered to it: it leaves
the length of the batch in `*InputDataConsumed`. -/
def consumeAll : PVOID → PVOID → List KEYBOARD_INPUT_DATA → Nat → Nat :=
  fun _ _ batch _ => batch.length

/-- A clock that stands still at 400 ms (4,000,000 units). -/
def clock400ms : Nat → Int := fun _ => 4000000

/-- A clock that stands still at 2^31 ms (21,474,836,480,000 units, about
24.9 days). -/
def clock2p31ms : Nat → Int := fun _ => 21474836480000

/-- The routines of the driver at the addresses 100 to 103. -/
def image : DriverImage :=
  { KbFilter_ServiceCallback := 100, KbFilter_InitializationRoutine := 101,
    KbFilter_IsrHook := 102, KbFilterRequestCompletionRoutine := 103 }

/-- A lower driver that answers every forwarded request with success. -/
def lowerSucceeds : PVOID → IRP → Int := fun _ _ => STATUS_SUCCESS

/-- A Connect request whose payload is the pair (`context`, `callback`), with
the stated input length. -/
def connectIrp (context callback : PVOID) (length : Nat) : IRP :=
  { IoControlCode := IOCTL_INTERNAL_KEYBOARD_CONNECT
    InputBufferLength := length
    OutputBufferLength := 0
    Type3InputBuffer := fun i => if i = 0 then context else if i = 1 then callback else 0
    IoStatus := { Status := 0, Information := 0 }
    SystemBuffer := [] }

/-- A Hook-install request whose payload carries the context 21, the routines
22 and 23 and the handles 24, 25 and 26, with the stated input length. -/
def hookIrp (length : Nat) : IRP :=
  { IoControlCode := IOCTL_INTERNAL_I8042_HOOK_KEYBOARD
    InputBufferLength := length
    OutputBufferLength := 0
    Type3InputBuffer := fun i => if i < 6 then 21 + i else 0
    IoStatus := { Status := 0, Information := 0 }
    SystemBuffer := [] }

/-- A Disconnect request (its payload is not looked at). -/
def disconnectIrp : IRP :=
  { IoControlCode := IOCTL_INTERNAL_KEYBOARD_DISCONNECT
    InputBufferLength := 0
    OutputBufferLength := 0
    Type3InputBuffer := fun _ => 0
    IoStatus := { Status := 0, Information := 0 }
    SystemBuffer := [] }

/-- A Hook-install request whose payload carries the stated context and
routines and the handles 24, 25 and 26, with the stated input length. -/
def hookIrpWith (context init isr : PVOID) (length : Nat) : IRP :=
  { IoControlCode := IOCTL_INTERNAL_I8042_HOOK_KEYBOARD
    InputBufferLength := length
    OutputBufferLength := 0
    Type3InputBuffer := fun i =>
      if i = 0 then context else if i = 1 then init else if i = 2 then isr
      else if i < 6 then 21 + i else 0
    IoStatus := { Status := 0, Information := 0 }
    SystemBuffer := [] }

/-- A device on which a Hook-install recorded the context 21, the
initialization routine 22 and the interrupt hook 23. -/
def hookedDevice : DEVICE_EXTENSION :=
  { KbFilter_AddDevice 1 2 with
    UpperContext := 21, UpperInitializationRoutine := 22, UpperIsrHook := 23,
    IsrWritePort := 24, QueueKeyboardPacket := 25, CallContext := 26 }

/-- A prior initialization routine that fails with the invalid-parameter status
and leaves `*TurnTranslationOn` as it found it. -/
def initFails : PVOID → PVOID → PVOID → PVOID → PVOID → Bool → Int × Bool :=
  fun _ _ _ _ _ t => (STATUS_INVALID_PARAMETER, t)

/-- A prior initialization routine that succeeds and clears `*TurnTranslationOn`. -/
def initSucceeds : PVOID → PVOID → PVOID → PVOID → PVOID → Bool → Int × Bool :=
  fun _ _ _ _ _ _ => (STATUS_SUCCESS, false)

/-- The memory behind the arguments of an interrupt hook call: an empty input
packet, no output bytes, the data byte 0x1E, `*ContinueProcessing` TRUE. -/
def frame0 : IsrFrame :=
  { CurrentInput :=
      { UnitId := 0, MakeCode := 0, Flags := 0, Reserved := 0, ExtraInformation := 0 }
    CurrentOutput := []
    DataByte := 0x1E
    ContinueProcessing := true
    ScanState := 0 }

/-- A prior interrupt hook that handles the byte itself: it replaces the data
byte by 0xFA, clears `*ContinueProcessing` and returns TRUE. -/
def isrStops : PVOID → PVOID → Nat → IsrFrame → Bool × IsrFrame :=
  fun _ _ _ frame => (true, { frame with DataByte := 0xFA, ContinueProcessing := false })

/-- A prior interrupt hook that replaces the data byte by 0x30 and lets the
processing continue. -/
def isrContinues : PVOID → PVOID → Nat → IsrFrame → Bool × IsrFrame :=
  fun _ _ _ frame => (true, { frame with DataByte := 0x30, ContinueProcessing := true })

/-- The upper of two stacked layers of this driver (device object 3, device
extension at 60, above the device 1): a fresh device after a Hook-install whose
payload carries the context 21 and the routines 22 and 23. -/
def upperLayer : DEVICE_EXTENSION :=
  (KbFilter_DispatchInternalDeviceControl image lowerSucceeds 3 60
    (KbFilter_AddDevice 3 1) (hookIrpWith 21 22 23 48)).devExt

/-- The lower of the two stacked layers (device object 1, device extension at
50): a fresh device after the Hook-install request as `upperLayer` forwarded
it, that is, with the payload `upperLayer` rewrote. -/
def lowerLayer : DEVICE_EXTENSION :=
  (KbFilter_DispatchInternalDeviceControl image lowerSucceeds 1 50
    (KbFilter_AddDevice 1 2)
    (KbFilter_DispatchInternalDeviceControl image lowerSucceeds 3 60
      (KbFilter_AddDevice 3 1) (hookIrpWith 21 22 23 48)).Irp).devExt

/-- Modelled from the spec: the set-indicators request kind, one of the
indicator and typematic kinds that are passed through (WDK value of
`IOCTL_KEYBOARD_SET_INDICATORS`, header `ntddkbd.h`). -/
def IOCTL_KEYBOARD_SET_INDICATORS : Nat := CTL_CODE 0x0b 0x0002 0 0

/-- A request of the stated kind, completed (or not yet) with the stated status
and result length, whose response buffer holds the 32 bytes 0, 1, ..., 31. -/
def controlIrp (code : Nat) (status : Int) (information : Nat) : IRP :=
  { IoControlCode := code
    InputBufferLength := 0
    OutputBufferLength := 32
    Type3InputBuffer := fun _ => 0
    IoStatus := { Status := status, Information := information }
    SystemBuffer := List.range 32 }

/-- A press of the key with code 0x30. -/
def pressB : KEYBOARD_INPUT_DATA :=
  { UnitId := 0, MakeCode := 0x30, Flags := 0, Reserved := 0, ExtraInformation := 0 }

/-- A press of code 0. -/
def pressZero : KEYBOARD_INPUT_DATA :=
  { UnitId := 0, MakeCode := 0, Flags := 0, Reserved := 0, ExtraInformation := 0 }

/-- The clock of the worked case of three presses: the first two readings (the
check and the recording of the first press) give 0 ms, the third (the check of
the second press) 150 ms, and every later one 310 ms (in 100 ns units). -/
def clockThreePresses : Nat → Int :=
  fun n => if n < 2 then 0 else if n = 2 then 1500000 else 3100000

/-- A press of the key with code 0x1E that carries the extended-key flag
`KEY_E0` (flags 2). -/
def pressAExtended : KEYBOARD_INPUT_DATA :=
  { UnitId := 0, MakeCode := 0x1E, Flags := 2, Reserved := 0, ExtraInformation := 0 }

/-- The device `connectedDevice` whose ring holds a press of 0x1E stamped
5,000,000 units (500 ms) after time 0. -/
def deviceWithFutureA : DEVICE_EXTENSION :=
  { connectedDevice with
    RecentKeys := fun j =>
      if j.val = 0 then { MakeCode := 0x1E, Flags := 0, Timestamp := 5000000 }
      else { MakeCode := 0, Flags := 0, Timestamp := 0 }
    RecentKeyIndex := 1 }

/-- A non-decreasing clock: the first reading is 0, the second 2^31 ms - 400 ms
(21,474,832,480,000 units), every later one 2^31 ms (21,474,836,480,000
units). -/
def clockLongIdle : Nat → Int :=
  fun n => if n = 0 then 0 else if n = 1 then 21474832480000 else 21474836480000

/-- The ring after two calls of `KbFilter_AddRecentKey` on a press of 0x1E from
the zero-initialised ring, with the timestamps of `clockLongIdle`, and the
clock reading count after them. -/
def ringTwoPressesA : DEVICE_EXTENSION × Nat :=
  addRecentKeys clockLongIdle (KbFilter_AddDevice 1 2, 0) [pressA, pressA]

/-! ## Auxiliary lemmas -/

theorem toLONGLONG_eq_self {x : Int} (h1 : -2 ^ 63 ≤ x) (h2 : x < 2 ^ 63) :
    toLONGLONG x = x := by
  unfold toLONGLONG
  omega

theorem toLONG_eq_self {x : Int} (h1 : -2 ^ 31 ≤ x) (h2 : x < 2 ^ 31) :
    toLONG x = x := by
  unfold toLONG
  omega

/-- Inside the window the millisecond difference is the exact quotient. -/
theorem timeDiffMs_of_small {now : Int} {k : RECENT_KEY_INPUT}
    (h0 : 0 ≤ now - k.Timestamp) (h1 : now - k.Timestamp < 2 ^ 31 * 10000) :
    timeDiffMs now k = (now - k.Timestamp) / 10000 := by
  unfold timeDiffMs
  simp only
  rw [toLONGLONG_eq_self (by omega) (by omega), Int.tdiv_eq_ediv h0 (by decide),
    toLONG_eq_self (by omega) (by omega)]

/-- The scan answers TRUE exactly when one of the visited slots is non-empty,
holds the code of the event and is within the threshold. -/
theorem dupLoop_eq_true_iff (d : DEVICE_EXTENSION) (e : KEYBOARD_INPUT_DATA) (now : Int)
    (l : List (Fin MAX_RECENT_KEYS)) :
    dupLoop d e now l = true ↔
      ∃ i ∈ l, (d.RecentKeys i).MakeCode ≠ 0 ∧ (d.RecentKeys i).MakeCode = e.MakeCode ∧
        timeDiffMs now (d.RecentKeys i) < LAG_MITIGATION_THRESHOLD_MS := by
  induction l with
  | nil => simp [dupLoop]
  | cons i rest ih =>
    simp only [dupLoop, List.mem_cons, exists_eq_or_imp]
    by_cases h0 : (d.RecentKeys i).MakeCode = 0
    · rw [if_pos h0, ih]
      exact ⟨fun h => Or.inr h, fun h => h.elim (fun h3 => absurd h0 h3.1) id⟩
    · rw [if_neg h0]
      by_cases h1 : (d.RecentKeys i).MakeCode = e.MakeCode
      · rw [if_pos h1]
        by_cases h2 : timeDiffMs now (d.RecentKeys i) < LAG_MITIGATION_THRESHOLD_MS
        · rw [if_pos h2]
          exact ⟨fun _ => Or.inl ⟨h0, h1, h2⟩, fun _ => rfl⟩
        · rw [if_neg h2, ih]
          exact ⟨fun h => Or.inr h, fun h => h.elim (fun h3 => absurd h3.2.2 h2) id⟩
      · rw [if_neg h1, ih]
        exact ⟨fun h => Or.inr h, fun h => h.elim (fun h3 => absurd h3.2.1 h1) id⟩

theorem serviceLoop_append (clock : Nat → Int) (s : LoopState)
    (xs ys : List KEYBOARD_INPUT_DATA) :
    serviceLoop clock s (xs ++ ys) = serviceLoop clock (serviceLoop clock s xs) ys := by
  induction xs generalizing s with
  | nil => rfl
  | cons x xs ih =>
    simp only [List.cons_append, serviceLoop]
    split <;> exact ih _

/-- The loop treats the output buffer and the counter as accumulators. -/
theorem serviceLoop_frame (clock : Nat → Int) (s : LoopState)
    (xs : List KEYBOARD_INPUT_DATA) :
    serviceLoop clock s xs =
      { devExt := (serviceLoop clock ⟨s.devExt, s.tick, [], 0⟩ xs).devExt,
        tick := (serviceLoop clock ⟨s.devExt, s.tick, [], 0⟩ xs).tick,
        output := s.output ++ (serviceLoop clock ⟨s.devExt, s.tick, [], 0⟩ xs).output,
        filteredCount :=
          s.filteredCount + (serviceLoop clock ⟨s.devExt, s.tick, [], 0⟩ xs).filteredCount } := by
  induction xs generalizing s with
  | nil => simp [serviceLoop]
  | cons x xs ih =>
    simp only [serviceLoop]
    split
    · rw [ih]
    · rw [ih]
      conv_rhs => rw [ih]
      simp [Nat.add_assoc]

theorem serviceLoop_length (clock : Nat → Int) (d : DEVICE_EXTENSION) (tick : Nat)
    (xs : List KEYBOARD_INPUT_DATA) :
    (serviceLoop clock ⟨d, tick, [], 0⟩ xs).output.length =
      (serviceLoop clock ⟨d, tick, [], 0⟩ xs).filteredCount := by
  induction xs generalizing d tick with
  | nil => rfl
  | cons x xs ih =>
    simp only [serviceLoop]
    split
    · exact ih _ _
    · rw [serviceLoop_frame]
      simp [ih, Nat.add_comm]

theorem serviceLoop_sublist (clock : Nat → Int) (d : DEVICE_EXTENSION) (tick : Nat)
    (xs : List KEYBOARD_INPUT_DATA) :
    (serviceLoop clock ⟨d, tick, [], 0⟩ xs).output.Sublist xs := by
  induction xs generalizing d tick with
  | nil => exact List.Sublist.refl _
  | cons x xs ih =>
    simp only [serviceLoop]
    split
    · exact List.Sublist.cons _ (ih _ _)
    · rw [serviceLoop_frame]
      simpa using List.Sublist.cons₂ x (ih _ _)

theorem serviceLoop_count (clock : Nat → Int) (s : LoopState)
    (xs : List KEYBOARD_INPUT_DATA) :
    (serviceLoop clock s xs).filteredCount + suppressedCount clock s xs =
      s.filteredCount + xs.length := by
  induction xs generalizing s with
  | nil => simp [serviceLoop, suppressedCount]
  | cons x xs ih =>
    simp only [serviceLoop, suppressedCount]
    split
    · have := ih { s with tick := (KbFilter_IsRecentDuplicateKey s.devExt x clock s.tick).2 }
      simp only [List.length_cons] at this ⊢
      omega
    · have := ih
        { devExt := (KbFilter_AddRecentKey s.devExt x clock
            (KbFilter_IsRecentDuplicateKey s.devExt x clock s.tick).2).1,
          tick := (KbFilter_AddRecentKey s.devExt x clock
            (KbFilter_IsRecentDuplicateKey s.devExt x clock s.tick).2).2,
          output := s.output ++ [x], filteredCount := s.filteredCount + 1 }
      simp only [List.length_cons] at this ⊢
      omega

/-- The callback on the path where the buffer was obtained and something was
kept: one upstream call, with the whole output buffer. -/
theorem serviceCallback_forwarded
    (service : PVOID → PVOID → List KEYBOARD_INPUT_DATA → Nat → Nat)
    (clock : Nat → Int) (d : DEVICE_EXTENSION) (tick : Nat)
    (batch : List KEYBOARD_INPUT_DATA) (consumed : Nat)
    (h : 0 < (serviceLoop clock ⟨d, tick, [], 0⟩ batch).filteredCount) :
    KbFilter_ServiceCallback service clock true d tick batch consumed =
      { devExt := (serviceLoop clock ⟨d, tick, [], 0⟩ batch).devExt,
        tick := (serviceLoop clock ⟨d, tick, [], 0⟩ batch).tick,
        InputDataConsumed :=
          service (serviceLoop clock ⟨d, tick, [], 0⟩ batch).devExt.UpperConnectData.ClassService
            (serviceLoop clock ⟨d, tick, [], 0⟩ batch).devExt.UpperConnectData.ClassDeviceObject
            (serviceLoop clock ⟨d, tick, [], 0⟩ batch).output consumed,
        upstreamCalls :=
          [{ routine :=
               (serviceLoop clock ⟨d, tick, [], 0⟩ batch).devExt.UpperConnectData.ClassService,
             context :=
               (serviceLoop clock ⟨d, tick, [], 0⟩ batch).devExt.UpperConnectData.ClassDeviceObject,
             batch := (serviceLoop clock ⟨d, tick, [], 0⟩ batch).output }] } := by
  have hlen := serviceLoop_length clock d tick batch
  unfold KbFilter_ServiceCallback
  simp only [Bool.not_true, Bool.false_eq_true, if_false]
  rw [if_pos h, ← hlen, List.take_length]

/-- The callback on the path where the buffer was obtained and nothing was
kept: no upstream call, and 0 in `*InputDataConsumed`. -/
theorem serviceCallback_nothing
    (service : PVOID → PVOID → List KEYBOARD_INPUT_DATA → Nat → Nat)
    (clock : Nat → Int) (d : DEVICE_EXTENSION) (tick : Nat)
    (batch : List KEYBOARD_INPUT_DATA) (consumed : Nat)
    (h : (serviceLoop clock ⟨d, tick, [], 0⟩ batch).filteredCount = 0) :
    KbFilter_ServiceCallback service clock true d tick batch consumed =
      { devExt := (serviceLoop clock ⟨d, tick, [], 0⟩ batch).devExt,
        tick := (serviceLoop clock ⟨d, tick, [], 0⟩ batch).tick,
        InputDataConsumed := 0, upstreamCalls := [] } := by
  unfold KbFilter_ServiceCallback
  simp only [Bool.not_true, Bool.false_eq_true, if_false]
  rw [if_neg (by omega)]

/-- The loop step on an event that is kept. -/
theorem serviceLoop_keep (clock : Nat → Int) (s : LoopState) (e : KEYBOARD_INPUT_DATA)
    (post : List KEYBOARD_INPUT_DATA) (tick1 : Nat)
    (h : KbFilter_IsRecentDuplicateKey s.devExt e clock s.tick = (false, tick1)) :
    serviceLoop clock s (e :: post) =
      serviceLoop clock
        { devExt := (KbFilter_AddRecentKey s.devExt e clock tick1).1,
          tick := (KbFilter_AddRecentKey s.devExt e clock tick1).2,
          output := s.output ++ [e], filteredCount := s.filteredCount + 1 } post := by
  simp only [serviceLoop, h, Bool.false_eq_true, if_false]

/-- From 2^31 ms up to 2^32 ms of elapsed time the cast to `LONG` wraps: the
millisecond difference comes out negative, hence below the threshold. -/
theorem timeDiffMs_wraps {now : Int} {k : RECENT_KEY_INPUT}
    (h0 : 21474836480000 ≤ now - k.Timestamp) (h1 : now - k.Timestamp < 42949672960000) :
    timeDiffMs now k = (now - k.Timestamp) / 10000 - 2 ^ 32 ∧
    timeDiffMs now k < LAG_MITIGATION_THRESHOLD_MS := by
  have h : timeDiffMs now k = (now - k.Timestamp) / 10000 - 2 ^ 32 := by
    unfold timeDiffMs
    simp only
    rw [toLONGLONG_eq_self (by omega) (by omega), Int.tdiv_eq_ediv (by omega) (by decide)]
    unfold toLONG
    omega
  refine ⟨h, ?_⟩
  rw [h]
  show _ < (300 : Int)
  omega

/-- Beyond 2^31 ms the cast to `LONG` wraps: the ring of `deviceWithA` holds a
press of 0x1E recorded at time 0, and a press of 0x1E examined 2^31 ms later
(far beyond the 300 ms threshold) gets the millisecond difference -2^31, is
reported as a duplicate, and the callback forwards nothing. -/
theorem threshold_wraps_at_2p31ms :
    timeDiffMs (clock2p31ms 0) (deviceWithA.RecentKeys 0) = -2147483648 ∧
    (KbFilter_IsRecentDuplicateKey deviceWithA pressA clock2p31ms 0).1 = true ∧
    (KbFilter_ServiceCallback consumeAll clock2p31ms true deviceWithA 0 [pressA] 5).upstreamCalls
      = [] := by
  decide

/-- The function `KbFilter_AddRecentKey` writes the ring and its cursor only. -/
theorem addRecentKey_nonring (d : DEVICE_EXTENSION) (e : KEYBOARD_INPUT_DATA)
    (clock : Nat → Int) (tick : Nat) :
    (KbFilter_AddRecentKey d e clock tick).1 =
      { d with
        RecentKeys := (KbFilter_AddRecentKey d e clock tick).1.RecentKeys
        RecentKeyIndex := (KbFilter_AddRecentKey d e clock tick).1.RecentKeyIndex } := by
  unfold KbFilter_AddRecentKey
  split <;> rfl

/-- The loop of the callback writes the ring and its cursor only. -/
theorem serviceLoop_nonring (clock : Nat → Int) (s : LoopState)
    (xs : List KEYBOARD_INPUT_DATA) :
    (serviceLoop clock s xs).devExt =
      { s.devExt with
        RecentKeys := (serviceLoop clock s xs).devExt.RecentKeys
        RecentKeyIndex := (serviceLoop clock s xs).devExt.RecentKeyIndex } := by
  induction xs generalizing s with
  | nil => rfl
  | cons x xs ih =>
    simp only [serviceLoop]
    split
    · exact ih _
    · rw [ih]
      simp only
      rw [addRecentKey_nonring]

theorem dispatch_devExt (img : DriverImage) (IoCallDriver : PVOID → IRP → Int)
    (DeviceObject devExtPtr : PVOID) (d : DEVICE_EXTENSION) (irp : IRP) :
    (KbFilter_DispatchInternalDeviceControl img IoCallDriver DeviceObject devExtPtr d irp).devExt
      = (dispatchSwitch img DeviceObject devExtPtr d irp).devExt := by
  unfold KbFilter_DispatchInternalDeviceControl
  simp only
  split
  · rfl
  · split <;> rfl

theorem dispatch_buffer (img : DriverImage) (IoCallDriver : PVOID → IRP → Int)
    (DeviceObject devExtPtr : PVOID) (d : DEVICE_EXTENSION) (irp : IRP) :
    (KbFilter_DispatchInternalDeviceControl img IoCallDriver DeviceObject devExtPtr d
        irp).Irp.Type3InputBuffer
      = (dispatchSwitch img DeviceObject devExtPtr d irp).buffer := by
  unfold KbFilter_DispatchInternalDeviceControl
  simp only
  split
  · rfl
  · split <;> rfl

theorem dispatch_status (img : DriverImage) (IoCallDriver : PVOID → IRP → Int)
    (DeviceObject devExtPtr : PVOID) (d : DEVICE_EXTENSION) (irp : IRP) :
    (KbFilter_DispatchInternalDeviceControl img IoCallDriver DeviceObject devExtPtr d irp).status
      = (dispatchSwitch img DeviceObject devExtPtr d irp).status := by
  unfold KbFilter_DispatchInternalDeviceControl
  simp only
  split
  · rfl
  · split <;> rfl

/-- A failure status of the switch leaves the device extension and the payload
as they were. -/
theorem dispatchSwitch_failure (img : DriverImage) (DeviceObject devExtPtr : PVOID)
    (d : DEVICE_EXTENSION) (irp : IRP)
    (h : NT_SUCCESS (dispatchSwitch img DeviceObject devExtPtr d irp).status = false) :
    (dispatchSwitch img DeviceObject devExtPtr d irp).devExt = d ∧
    (dispatchSwitch img DeviceObject devExtPtr d irp).buffer = irp.Type3InputBuffer := by
  unfold dispatchSwitch at h ⊢
  simp only at h ⊢
  split
  · split
    · exact ⟨rfl, rfl⟩
    · split
      · exact ⟨rfl, rfl⟩
      · rename_i h1 h2 h3
        rw [if_pos h1, if_neg h2, if_neg h3] at h
        simp [NT_SUCCESS] at h
  · split
    · exact ⟨rfl, rfl⟩
    · split
      · split
        · exact ⟨rfl, rfl⟩
        · rename_i h1 h2 h3 h4
          rw [if_neg h1, if_neg h2, if_pos h3, if_neg h4] at h
          simp [NT_SUCCESS] at h
      · split <;> exact ⟨rfl, rfl⟩

/-- While the stored callback is set, no request changes the stored pair. -/
theorem dispatchSwitch_upstream (img : DriverImage) (DeviceObject devExtPtr : PVOID)
    (d : DEVICE_EXTENSION) (irp : IRP) (hset : d.UpperConnectData.ClassService ≠ NULL) :
    (dispatchSwitch img DeviceObject devExtPtr d irp).devExt.UpperConnectData
      = d.UpperConnectData := by
  unfold dispatchSwitch
  simp only
  split
  · rfl
  · split
    · rfl
    · split
      · split <;> rfl
      · split <;> rfl

/-- While the stored callback is set, no event changes the stored pair. -/
theorem stepEvent_upstream (img : DriverImage) (IoCallDriver : PVOID → IRP → Int)
    (service : PVOID → PVOID → List KEYBOARD_INPUT_DATA → Nat → Nat)
    (clock : Nat → Int) (DeviceObject devExtPtr : PVOID)
    (st : DEVICE_EXTENSION × Nat) (ev : FilterEvent)
    (hset : st.1.UpperConnectData.ClassService ≠ NULL) :
    (stepEvent img IoCallDriver service clock DeviceObject devExtPtr st ev).1.UpperConnectData
      = st.1.UpperConnectData := by
  cases ev with
  | request irp =>
    simp only [stepEvent]
    rw [dispatch_devExt]
    exact dispatchSwitch_upstream img DeviceObject devExtPtr st.1 irp hset
  | delivery allocated batch consumed =>
    simp only [stepEvent]
    cases allocated with
    | false => rfl
    | true =>
      have hnr := serviceLoop_nonring clock ⟨st.1, st.2, [], 0⟩ batch
      by_cases h : 0 < (serviceLoop clock ⟨st.1, st.2, [], 0⟩ batch).filteredCount
      · rw [serviceCallback_forwarded service clock st.1 st.2 batch consumed h]
        simp only
        rw [hnr]
      · rw [serviceCallback_nothing service clock st.1 st.2 batch consumed (by omega)]
        simp only
        rw [hnr]
  | completion irp =>
    simp only [stepEvent]
    unfold KbFilterRequestCompletionRoutine
    split
    · split <;> rfl
    · rfl

theorem runEvents_upstream (img : DriverImage) (IoCallDriver : PVOID → IRP → Int)
    (service : PVOID → PVOID → List KEYBOARD_INPUT_DATA → Nat → Nat)
    (clock : Nat → Int) (DeviceObject devExtPtr : PVOID)
    (st : DEVICE_EXTENSION × Nat) (evs : List FilterEvent)
    (hset : st.1.UpperConnectData.ClassService ≠ NULL) :
    (runEvents img IoCallDriver service clock DeviceObject devExtPtr st evs).1.UpperConnectData
      = st.1.UpperConnectData := by
  induction evs generalizing st with
  | nil => rfl
  | cons ev rest ih =>
    have h1 := stepEvent_upstream img IoCallDriver service clock DeviceObject devExtPtr st ev hset
    simp only [runEvents]
    rw [ih _ (by rw [h1]; exact hset), h1]


theorem isRecentDuplicateKey_press (d : DEVICE_EXTENSION) (e : KEYBOARD_INPUT_DATA)
    (clock : Nat → Int) (tick : Nat) (hpress : e.Flags &&& KEY_BREAK = 0) :
    KbFilter_IsRecentDuplicateKey d e clock tick =
      (dupLoop d e (clock tick) (List.finRange MAX_RECENT_KEYS), tick + 1) := by
  unfold KbFilter_IsRecentDuplicateKey
  rw [if_neg (not_not.mpr hpress)]
  rfl

theorem isRecentDuplicateKey_release (d : DEVICE_EXTENSION) (e : KEYBOARD_INPUT_DATA)
    (clock : Nat → Int) (tick : Nat) (hbreak : e.Flags &&& KEY_BREAK ≠ 0) :
    KbFilter_IsRecentDuplicateKey d e clock tick = (false, tick) := by
  unfold KbFilter_IsRecentDuplicateKey
  exact if_pos hbreak

theorem addRecentKey_release (d : DEVICE_EXTENSION) (e : KEYBOARD_INPUT_DATA)
    (clock : Nat → Int) (tick : Nat) (hbreak : e.Flags &&& KEY_BREAK ≠ 0) :
    KbFilter_AddRecentKey d e clock tick = (d, tick) := by
  unfold KbFilter_AddRecentKey
  exact if_pos hbreak

/-- The calls of the callback on the path where the buffer was obtained. -/
theorem serviceCallback_calls (service : PVOID → PVOID → List KEYBOARD_INPUT_DATA → Nat → Nat)
    (clock : Nat → Int) (d : DEVICE_EXTENSION) (tick : Nat)
    (batch : List KEYBOARD_INPUT_DATA) (consumed : Nat)
    (c : UpstreamCall)
    (hc : c ∈ (KbFilter_ServiceCallback service clock true d tick batch consumed).upstreamCalls) :
    c.batch = (serviceLoop clock ⟨d, tick, [], 0⟩ batch).output := by
  unfold KbFilter_ServiceCallback at hc
  simp only [Bool.not_true, Bool.false_eq_true, if_false] at hc
  split at hc
  · simp only [List.mem_singleton] at hc
    rw [hc, ← serviceLoop_length]
    simp
  · simp at hc

/-! ## The claims -/

/-- C1 (as amended): for every device state and every press event (break flag
clear) with code c != 0, if some non-empty ring slot holds code c with a
timestamp t0 such that 0 <= now - t0 < 3,000,000 units of 100 ns, then
`KbFilter_IsRecentDuplicateKey` returns TRUE and, when the temporary buffer is
obtained, `KbFilter_ServiceCallback` leaves that event out of the batch it
forwards upstream: the loop passes over the event with the ring, the output
buffer and the counter unchanged, and the forwarded batch consists of the
events kept before it followed by the events kept after it.  The state `s` is
the one in which the loop examines the event, after the events `pre`. -/
theorem C1_duplicate_suppressed
    (service : PVOID → PVOID → List KEYBOARD_INPUT_DATA → Nat → Nat)
    (clock : Nat → Int) (d0 : DEVICE_EXTENSION) (tick0 : Nat)
    (pre post : List KEYBOARD_INPUT_DATA) (e : KEYBOARD_INPUT_DATA) (consumed : Nat)
    (s : LoopState) (i : Fin MAX_RECENT_KEYS)
    (hs : serviceLoop clock ⟨d0, tick0, [], 0⟩ pre = s)
    (hpress : e.Flags &&& KEY_BREAK = 0) (hcode : e.MakeCode ≠ 0)
    (hslot : (s.devExt.RecentKeys i).MakeCode = e.MakeCode)
    (hlo : 0 ≤ clock s.tick - (s.devExt.RecentKeys i).Timestamp)
    (hhi : clock s.tick - (s.devExt.RecentKeys i).Timestamp < 3000000) :
    (KbFilter_IsRecentDuplicateKey s.devExt e clock s.tick).1 = true ∧
    serviceLoop clock ⟨d0, tick0, [], 0⟩ (pre ++ e :: post) =
      serviceLoop clock { s with tick := s.tick + 1 } post ∧
    ∀ c ∈ (KbFilter_ServiceCallback service clock true d0 tick0
        (pre ++ e :: post) consumed).upstreamCalls,
      c.batch = s.output ++ (serviceLoop clock ⟨s.devExt, s.tick + 1, [], 0⟩ post).output := by
  have hdup : KbFilter_IsRecentDuplicateKey s.devExt e clock s.tick = (true, s.tick + 1) := by
    rw [isRecentDuplicateKey_press _ _ _ _ hpress]
    have : dupLoop s.devExt e (clock s.tick) (List.finRange MAX_RECENT_KEYS) = true := by
      rw [dupLoop_eq_true_iff]
      refine ⟨i, List.mem_finRange i, ?_, hslot, ?_⟩
      · rw [hslot]; exact hcode
      · rw [timeDiffMs_of_small hlo (by omega)]
        show _ < (300 : Int)
        omega
    rw [this]
  have hloop : serviceLoop clock ⟨d0, tick0, [], 0⟩ (pre ++ e :: post) =
      serviceLoop clock { s with tick := s.tick + 1 } post := by
    rw [serviceLoop_append, hs]
    simp only [serviceLoop, hdup, if_true]
  refine ⟨by rw [hdup], hloop, ?_⟩
  intro c hc
  rw [serviceCallback_calls service clock d0 tick0 _ consumed c hc, hloop, serviceLoop_frame]

/-- C1, worked case: `deviceWithA` holds a press of 0x1E recorded at time 0;
a second press of 0x1E examined at time 0 (after no other event) is a
duplicate and the callback, given its buffer, forwards nothing. -/
theorem C1_duplicate_suppressed_witness :
    (KbFilter_IsRecentDuplicateKey deviceWithA pressA clockZero 0).1 = true ∧
    (KbFilter_ServiceCallback consumeAll clockZero true deviceWithA 0
      ([] ++ pressA :: []) 5).upstreamCalls = [] := by
  have h := C1_duplicate_suppressed consumeAll clockZero deviceWithA 0 [] [] pressA 5
    ⟨deviceWithA, 0, [], 0⟩ 0 rfl (by decide) (by decide) (by decide) (by decide) (by decide)
  refine ⟨h.1, ?_⟩
  decide

/-- C1, counterexample to the claim as stated: the ring of `deviceWithA` holds
a press of 0x1E recorded 0 ms ago, the duplicate check answers TRUE for a new
press of 0x1E, and yet, when the allocation of the temporary buffer fails, the
callback forwards the batch with that press in it. -/
theorem C1_counterexample :
    pressA.Flags &&& KEY_BREAK = 0 ∧ pressA.MakeCode ≠ 0 ∧
    (deviceWithA.RecentKeys 0).MakeCode = pressA.MakeCode ∧
    0 ≤ clockZero 0 - (deviceWithA.RecentKeys 0).Timestamp ∧
    clockZero 0 - (deviceWithA.RecentKeys 0).Timestamp < 3000000 ∧
    (KbFilter_IsRecentDuplicateKey deviceWithA pressA clockZero 0).1 = true ∧
    (KbFilter_ServiceCallback consumeAll clockZero false deviceWithA 0 [pressA] 5).upstreamCalls
      = [{ routine := 9, context := 7, batch := [pressA] }] := by
  decide

/-- C2 (as amended): for every device state and every press event with code c,
if every non-empty ring slot holding code c has a timestamp at least 300 ms
(3,000,000 units) and less than 2^31 ms (21,474,836,480,000 units) before the
current time, then `KbFilter_IsRecentDuplicateKey` returns FALSE and, when the
temporary buffer is obtained, `KbFilter_ServiceCallback` keeps the event (it is
forwarded, between the events kept before and after it) and records it in the
ring slot the cursor addresses (that slot receives the code, the flags and the
time read by `KbFilter_AddRecentKey`).  The state `s` is the one in which the loop examines
the event, after the events `pre`. -/
theorem C2_threshold_kept
    (service : PVOID → PVOID → List KEYBOARD_INPUT_DATA → Nat → Nat)
    (clock : Nat → Int) (d0 : DEVICE_EXTENSION) (tick0 : Nat)
    (pre post : List KEYBOARD_INPUT_DATA) (e : KEYBOARD_INPUT_DATA) (consumed : Nat)
    (s : LoopState)
    (hs : serviceLoop clock ⟨d0, tick0, [], 0⟩ pre = s)
    (hpress : e.Flags &&& KEY_BREAK = 0)
    (hold : ∀ i : Fin MAX_RECENT_KEYS, (s.devExt.RecentKeys i).MakeCode ≠ 0 →
      (s.devExt.RecentKeys i).MakeCode = e.MakeCode →
      3000000 ≤ clock s.tick - (s.devExt.RecentKeys i).Timestamp ∧
      clock s.tick - (s.devExt.RecentKeys i).Timestamp < 21474836480000) :
    (KbFilter_IsRecentDuplicateKey s.devExt e clock s.tick).1 = false ∧
    serviceLoop clock ⟨d0, tick0, [], 0⟩ (pre ++ e :: post) =
      serviceLoop clock
        { devExt := (KbFilter_AddRecentKey s.devExt e clock (s.tick + 1)).1,
          tick := s.tick + 2,
          output := s.output ++ [e], filteredCount := s.filteredCount + 1 } post ∧
    (∀ j : Fin MAX_RECENT_KEYS, j.val = s.devExt.RecentKeyIndex →
      (KbFilter_AddRecentKey s.devExt e clock (s.tick + 1)).1.RecentKeys j =
        { MakeCode := e.MakeCode, Flags := e.Flags, Timestamp := clock (s.tick + 1) }) ∧
    ∃ c, (KbFilter_ServiceCallback service clock true d0 tick0
        (pre ++ e :: post) consumed).upstreamCalls = [c] ∧
      c.batch = s.output ++ e ::
        (serviceLoop clock
          ⟨(KbFilter_AddRecentKey s.devExt e clock (s.tick + 1)).1, s.tick + 2, [], 0⟩
          post).output := by
  have hdup : KbFilter_IsRecentDuplicateKey s.devExt e clock s.tick = (false, s.tick + 1) := by
    rw [isRecentDuplicateKey_press _ _ _ _ hpress]
    have : dupLoop s.devExt e (clock s.tick) (List.finRange MAX_RECENT_KEYS) = false := by
      rw [← Bool.not_eq_true, dupLoop_eq_true_iff]
      rintro ⟨i, _, h0, h1, h2⟩
      obtain ⟨ha, hb⟩ := hold i h0 h1
      rw [timeDiffMs_of_small (by omega) (by omega)] at h2
      change _ < (300 : Int) at h2
      omega
    rw [this]
  have hadd : (KbFilter_AddRecentKey s.devExt e clock (s.tick + 1)).2 = s.tick + 2 := by
    unfold KbFilter_AddRecentKey
    rw [if_neg (not_not.mpr hpress)]
    rfl
  have hloop : serviceLoop clock ⟨d0, tick0, [], 0⟩ (pre ++ e :: post) =
      serviceLoop clock
        { devExt := (KbFilter_AddRecentKey s.devExt e clock (s.tick + 1)).1,
          tick := s.tick + 2,
          output := s.output ++ [e], filteredCount := s.filteredCount + 1 } post := by
    rw [serviceLoop_append, hs, serviceLoop_keep clock s e post _ hdup, hadd]
  refine ⟨by rw [hdup], hloop, ?_, ?_⟩
  · intro j hj
    unfold KbFilter_AddRecentKey
    rw [if_neg (not_not.mpr hpress)]
    simp [KeQuerySystemTime, hj]
  · have hpos : 0 < (serviceLoop clock ⟨d0, tick0, [], 0⟩ (pre ++ e :: post)).filteredCount := by
      rw [hloop, serviceLoop_frame]
      simp only
      omega
    rw [serviceCallback_forwarded service clock d0 tick0 _ consumed hpos]
    refine ⟨_, rfl, ?_⟩
    simp only
    rw [hloop, serviceLoop_frame]
    simp

/-- C2, worked case: the ring of `deviceWithA` holds a press of 0x1E recorded
at time 0; a press of 0x1E examined at 400 ms is not a duplicate, is forwarded
and is recorded in slot 1. -/
theorem C2_threshold_kept_witness :
    (KbFilter_IsRecentDuplicateKey deviceWithA pressA clock400ms 0).1 = false ∧
    (KbFilter_AddRecentKey deviceWithA pressA clock400ms 1).1.RecentKeys 1 =
      { MakeCode := 0x1E, Flags := 0, Timestamp := 4000000 } ∧
    (KbFilter_ServiceCallback consumeAll clock400ms true deviceWithA 0
        ([] ++ pressA :: []) 5).upstreamCalls
      = [{ routine := 9, context := 7, batch := [pressA] }] := by
  have h := C2_threshold_kept consumeAll clock400ms deviceWithA 0 [] [] pressA 5
    ⟨deviceWithA, 0, [], 0⟩ rfl (by decide) (by decide)
  exact ⟨h.1, h.2.2.1 1 rfl, by decide⟩

/-- C2, counterexample to the claim as stated: the only slot of `deviceWithA`
holding 0x1E was recorded 400 ms before the current time, the duplicate check
answers FALSE for a new press of 0x1E, and yet, when the allocation of the
temporary buffer fails, the callback forwards the press without recording it:
the device extension, ring and cursor included, is unchanged. -/
theorem C2_counterexample :
    (∀ i : Fin MAX_RECENT_KEYS, (deviceWithA.RecentKeys i).MakeCode ≠ 0 →
      (deviceWithA.RecentKeys i).MakeCode = pressA.MakeCode →
      3000000 ≤ clock400ms 0 - (deviceWithA.RecentKeys i).Timestamp) ∧
    (KbFilter_IsRecentDuplicateKey deviceWithA pressA clock400ms 0).1 = false ∧
    (KbFilter_ServiceCallback consumeAll clock400ms false deviceWithA 0 [pressA] 5).upstreamCalls
      = [{ routine := 9, context := 7, batch := [pressA] }] ∧
    (KbFilter_ServiceCallback consumeAll clock400ms false deviceWithA 0 [pressA] 5).devExt
      = deviceWithA ∧
    deviceWithA.RecentKeyIndex = 1 ∧
    (deviceWithA.RecentKeys 1).MakeCode = 0 := by
  decide

/-- C3: for every device state (any ring contents) and every event whose flags
have the break bit set, `KbFilter_IsRecentDuplicateKey` returns FALSE (without
reading the clock), `KbFilter_AddRecentKey` leaves the device extension, hence
all 16 ring slots and the ring cursor, unchanged, and `KbFilter_ServiceCallback`
includes the event in the forwarded batch: there is exactly one upstream call
and the event is in its batch, whether or not the temporary buffer was
obtained; when it was obtained the event stands between the events kept before
it and the events kept after it, and the loop leaves the ring as it was when
the event was examined.  The state `s` is the one in which the loop examines
the event, after the events `pre`. -/
theorem C3_release_pass_through
    (service : PVOID → PVOID → List KEYBOARD_INPUT_DATA → Nat → Nat)
    (clock : Nat → Int) (d0 : DEVICE_EXTENSION) (tick0 : Nat)
    (pre post : List KEYBOARD_INPUT_DATA) (e : KEYBOARD_INPUT_DATA) (consumed : Nat)
    (s : LoopState)
    (hs : serviceLoop clock ⟨d0, tick0, [], 0⟩ pre = s)
    (hbreak : e.Flags &&& KEY_BREAK ≠ 0) :
    (∀ (d : DEVICE_EXTENSION) (tick : Nat),
      KbFilter_IsRecentDuplicateKey d e clock tick = (false, tick) ∧
      KbFilter_AddRecentKey d e clock tick = (d, tick)) ∧
    serviceLoop clock ⟨d0, tick0, [], 0⟩ (pre ++ e :: post) =
      serviceLoop clock
        { s with output := s.output ++ [e], filteredCount := s.filteredCount + 1 } post ∧
    (∀ allocated : Bool,
      ∃ c, (KbFilter_ServiceCallback service clock allocated d0 tick0
          (pre ++ e :: post) consumed).upstreamCalls = [c] ∧ e ∈ c.batch) ∧
    ∃ c, (KbFilter_ServiceCallback service clock true d0 tick0
        (pre ++ e :: post) consumed).upstreamCalls = [c] ∧
      c.batch = s.output ++ e :: (serviceLoop clock ⟨s.devExt, s.tick, [], 0⟩ post).output := by
  have hloop : serviceLoop clock ⟨d0, tick0, [], 0⟩ (pre ++ e :: post) =
      serviceLoop clock
        { s with output := s.output ++ [e], filteredCount := s.filteredCount + 1 } post := by
    rw [serviceLoop_append, hs,
      serviceLoop_keep clock s e post _ (isRecentDuplicateKey_release _ _ _ _ hbreak),
      addRecentKey_release _ _ _ _ hbreak]
  have hpos : 0 < (serviceLoop clock ⟨d0, tick0, [], 0⟩ (pre ++ e :: post)).filteredCount := by
    rw [hloop, serviceLoop_frame]
    simp only
    omega
  have hfwd : ∃ c, (KbFilter_ServiceCallback service clock true d0 tick0
        (pre ++ e :: post) consumed).upstreamCalls = [c] ∧
      c.batch = s.output ++ e :: (serviceLoop clock ⟨s.devExt, s.tick, [], 0⟩ post).output := by
    rw [serviceCallback_forwarded service clock d0 tick0 _ consumed hpos]
    refine ⟨_, rfl, ?_⟩
    simp only
    rw [hloop, serviceLoop_frame]
    simp
  refine ⟨fun d tick => ⟨isRecentDuplicateKey_release _ _ _ _ hbreak,
    addRecentKey_release _ _ _ _ hbreak⟩, hloop, ?_, hfwd⟩
  intro allocated
  cases allocated with
  | true =>
    obtain ⟨c, hc, hb⟩ := hfwd
    exact ⟨c, hc, by rw [hb]; simp⟩
  | false =>
    refine ⟨_, rfl, ?_⟩
    simp

/-- C3, worked case: a release of 0x1E delivered right after a press of 0x1E
was recorded is forwarded, and the ring of `deviceWithA` stays as it was. -/
theorem C3_release_pass_through_witness :
    KbFilter_IsRecentDuplicateKey deviceWithA releaseA clockZero 0 = (false, 0) ∧
    KbFilter_AddRecentKey deviceWithA releaseA clockZero 0 = (deviceWithA, 0) ∧
    (KbFilter_ServiceCallback consumeAll clockZero true deviceWithA 0
        ([] ++ releaseA :: []) 5).upstreamCalls
      = [{ routine := 9, context := 7, batch := [releaseA] }] := by
  have h := C3_release_pass_through consumeAll clockZero deviceWithA 0 [] [] releaseA 5
    ⟨deviceWithA, 0, [], 0⟩ rfl (by decide)
  exact ⟨(h.1 deviceWithA 0).1, (h.1 deviceWithA 0).2, by decide⟩

/-- C4: for every device state and every input batch, when the temporary buffer
is obtained, `KbFilter_ServiceCallback` makes at most one upstream call, and
the batch of that call is a subsequence of the input batch (the kept events,
unmodified and in their original relative order); so its length is at most the
input length. -/
theorem C4_order_preservation
    (service : PVOID → PVOID → List KEYBOARD_INPUT_DATA → Nat → Nat)
    (clock : Nat → Int) (d : DEVICE_EXTENSION) (tick : Nat)
    (batch : List KEYBOARD_INPUT_DATA) (consumed : Nat) :
    (KbFilter_ServiceCallback service clock true d tick batch consumed).upstreamCalls.length ≤ 1 ∧
    ∀ c ∈ (KbFilter_ServiceCallback service clock true d tick batch consumed).upstreamCalls,
      c.batch = (serviceLoop clock ⟨d, tick, [], 0⟩ batch).output ∧
      c.batch.Sublist batch ∧ c.batch.length ≤ batch.length := by
  constructor
  · by_cases h : 0 < (serviceLoop clock ⟨d, tick, [], 0⟩ batch).filteredCount
    · rw [serviceCallback_forwarded service clock d tick batch consumed h]
      simp
    · rw [serviceCallback_nothing service clock d tick batch consumed (by omega)]
      simp
  · intro c hc
    have hb := serviceCallback_calls service clock d tick batch consumed c hc
    have hsub := serviceLoop_sublist clock d tick batch
    rw [hb]
    exact ⟨rfl, hsub, hsub.length_le⟩

/-- C5 (as amended): for every batch of K events of which M are suppressed and
at least one is kept, when the upstream consumer consumes every event delivered
to it, the events-consumed value that `KbFilter_ServiceCallback` reports to its
caller is the value the upstream consumer left for the batch it was handed,
that is, the number of events forwarded: the filtered count K - M when the
temporary buffer is obtained (and K on the fail-open path, where no event is
suppressed). -/
theorem C5_consumed_count_is_filtered_count
    (service : PVOID → PVOID → List KEYBOARD_INPUT_DATA → Nat → Nat)
    (clock : Nat → Int) (d : DEVICE_EXTENSION) (tick : Nat)
    (batch : List KEYBOARD_INPUT_DATA) (consumed : Nat)
    (hkept : suppressedCount clock ⟨d, tick, [], 0⟩ batch < batch.length)
    (hall : ∀ (b : List KEYBOARD_INPUT_DATA) (x : Nat),
      service d.UpperConnectData.ClassService d.UpperConnectData.ClassDeviceObject b x
        = b.length) :
    (KbFilter_ServiceCallback service clock true d tick batch consumed).InputDataConsumed =
      batch.length - suppressedCount clock ⟨d, tick, [], 0⟩ batch ∧
    (KbFilter_ServiceCallback service clock true d tick batch consumed).upstreamCalls =
      [{ routine := d.UpperConnectData.ClassService,
         context := d.UpperConnectData.ClassDeviceObject,
         batch := (serviceLoop clock ⟨d, tick, [], 0⟩ batch).output }] ∧
    (serviceLoop clock ⟨d, tick, [], 0⟩ batch).output.length =
      batch.length - suppressedCount clock ⟨d, tick, [], 0⟩ batch ∧
    (KbFilter_ServiceCallback service clock false d tick batch consumed).InputDataConsumed =
      batch.length := by
  have hcount := serviceLoop_count clock ⟨d, tick, [], 0⟩ batch
  have hlen := serviceLoop_length clock d tick batch
  simp only at hcount
  have hpos : 0 < (serviceLoop clock ⟨d, tick, [], 0⟩ batch).filteredCount := by omega
  have hnr := serviceLoop_nonring clock ⟨d, tick, [], 0⟩ batch
  have h1 : (serviceLoop clock ⟨d, tick, [], 0⟩ batch).devExt.UpperConnectData
      = d.UpperConnectData := by rw [hnr]
  have hfw := serviceCallback_forwarded service clock d tick batch consumed hpos
  refine ⟨?_, ?_, by omega, hall batch consumed⟩
  · rw [hfw]
    simp only
    rw [h1, hall]
    omega
  · rw [hfw]
    simp only
    rw [h1]

/-- C5, worked case: two presses of 0x1E at the same time on a fresh connected
device; K = 2, M = 1, and the value reported is 1. -/
theorem C5_consumed_count_is_filtered_count_witness :
    (KbFilter_ServiceCallback consumeAll clockZero true connectedDevice 0
      [pressA, pressA] 5).InputDataConsumed =
      [pressA, pressA].length - suppressedCount clockZero ⟨connectedDevice, 0, [], 0⟩
        [pressA, pressA] :=
  (C5_consumed_count_is_filtered_count consumeAll clockZero connectedDevice 0
    [pressA, pressA] 5 (by decide) (fun _ _ => rfl)).1

/-- C5, counterexample to the claim as stated: a batch of K = 2 presses of 0x1E
at the same time on a fresh connected device; the first is kept, the second is
suppressed (M = 1), the upstream consumer consumes every event delivered to it,
and the value reported to the caller is 1 = K - M, not K = 2. -/
theorem C5_counterexample :
    [pressA, pressA].length = 2 ∧
    suppressedCount clockZero ⟨connectedDevice, 0, [], 0⟩ [pressA, pressA] = 1 ∧
    (KbFilter_ServiceCallback consumeAll clockZero true connectedDevice 0
      [pressA, pressA] 5).upstreamCalls = [{ routine := 9, context := 7, batch := [pressA] }] ∧
    consumeAll 9 7 [pressA] 5 = [pressA].length ∧
    (KbFilter_ServiceCallback consumeAll clockZero true connectedDevice 0
      [pressA, pressA] 5).InputDataConsumed = 1 := by
  decide

/-- C6: for every device state and every batch for which the temporary buffer
is obtained and every event is suppressed (the empty batch included),
`KbFilter_ServiceCallback` sets events-consumed to 0 and makes no call to the
upstream consumer. -/
theorem C6_all_suppressed
    (service : PVOID → PVOID → List KEYBOARD_INPUT_DATA → Nat → Nat)
    (clock : Nat → Int) (d : DEVICE_EXTENSION) (tick : Nat)
    (batch : List KEYBOARD_INPUT_DATA) (consumed : Nat)
    (hall : suppressedCount clock ⟨d, tick, [], 0⟩ batch = batch.length) :
    (KbFilter_ServiceCallback service clock true d tick batch consumed).InputDataConsumed = 0 ∧
    (KbFilter_ServiceCallback service clock true d tick batch consumed).upstreamCalls = [] := by
  have hcount := serviceLoop_count clock ⟨d, tick, [], 0⟩ batch
  simp only at hcount
  rw [serviceCallback_nothing service clock d tick batch consumed (by omega)]
  exact ⟨rfl, rfl⟩

/-- C6, worked cases: two presses of 0x1E right after a press of 0x1E was
recorded are both suppressed; and the empty batch. -/
theorem C6_all_suppressed_witness :
    suppressedCount clockZero ⟨deviceWithA, 0, [], 0⟩ [pressA, pressA] = 2 ∧
    ((KbFilter_ServiceCallback consumeAll clockZero true deviceWithA 0
        [pressA, pressA] 5).InputDataConsumed = 0 ∧
      (KbFilter_ServiceCallback consumeAll clockZero true deviceWithA 0
        [pressA, pressA] 5).upstreamCalls = []) ∧
    ((KbFilter_ServiceCallback consumeAll clockZero true deviceWithA 0 [] 5).InputDataConsumed = 0 ∧
      (KbFilter_ServiceCallback consumeAll clockZero true deviceWithA 0 [] 5).upstreamCalls = []) :=
  ⟨by decide,
   C6_all_suppressed consumeAll clockZero deviceWithA 0 [pressA, pressA] 5 (by decide),
   C6_all_suppressed consumeAll clockZero deviceWithA 0 [] 5 (by decide)⟩

/-- C7: for every device state and every batch, when the allocation of the
temporary buffer fails, `KbFilter_ServiceCallback` calls the upstream consumer
exactly once, with the recorded upstream routine and context and exactly the
original batch, leaves in events-consumed the value that consumer left there,
reads no clock, and leaves the device extension (ring slots and cursor
included) unchanged. -/
theorem C7_fail_open
    (service : PVOID → PVOID → List KEYBOARD_INPUT_DATA → Nat → Nat)
    (clock : Nat → Int) (d : DEVICE_EXTENSION) (tick : Nat)
    (batch : List KEYBOARD_INPUT_DATA) (consumed : Nat) :
    (KbFilter_ServiceCallback service clock false d tick batch consumed).upstreamCalls =
      [{ routine := d.UpperConnectData.ClassService,
         context := d.UpperConnectData.ClassDeviceObject, batch := batch }] ∧
    (KbFilter_ServiceCallback service clock false d tick batch consumed).InputDataConsumed =
      service d.UpperConnectData.ClassService d.UpperConnectData.ClassDeviceObject
        batch consumed ∧
    (KbFilter_ServiceCallback service clock false d tick batch consumed).devExt = d ∧
    (KbFilter_ServiceCallback service clock false d tick batch consumed).devExt.RecentKeys
      = d.RecentKeys ∧
    (KbFilter_ServiceCallback service clock false d tick batch consumed).devExt.RecentKeyIndex
      = d.RecentKeyIndex ∧
    (KbFilter_ServiceCallback service clock false d tick batch consumed).tick = tick :=
  ⟨rfl, rfl, rfl, rfl, rfl, rfl⟩

/-- C8 (as amended): for every device state reached by a successful Connect
request whose payload carried a non-null callback, every later Connect request
(after any sequence of further requests and batch deliveries, whatever its
payload and payload size, an undersized one included) yields the
sharing-violation status, is completed by this layer with result length 0
without being forwarded, leaves the device extension unchanged, so that the
stored upstream (context, callback) pair is still the one of the first Connect,
and does not rewrite the payload of the request.  Here `r1` is the outcome of
the first Connect on the state `d0`, `d` the state after the events `later`,
and `r` the outcome of the later Connect on `d`. -/
theorem C8_connect_once (img : DriverImage) (IoCallDriver : PVOID → IRP → Int)
    (service : PVOID → PVOID → List KEYBOARD_INPUT_DATA → Nat → Nat)
    (clock : Nat → Int) (DeviceObject devExtPtr : PVOID)
    (d0 d : DEVICE_EXTENSION) (tick0 : Nat) (first again : IRP) (later : List FilterEvent)
    (r1 r : DispatchResult)
    (hfirst : first.IoControlCode = IOCTL_INTERNAL_KEYBOARD_CONNECT)
    (hr1 : KbFilter_DispatchInternalDeviceControl img IoCallDriver DeviceObject devExtPtr
      d0 first = r1)
    (hok : NT_SUCCESS r1.status = true)
    (hcallback : first.Type3InputBuffer 1 ≠ NULL)
    (hlater : (runEvents img IoCallDriver service clock DeviceObject devExtPtr
      (r1.devExt, tick0) later).1 = d)
    (hagain : again.IoControlCode = IOCTL_INTERNAL_KEYBOARD_CONNECT)
    (hr : KbFilter_DispatchInternalDeviceControl img IoCallDriver DeviceObject devExtPtr
      d again = r) :
    r.status = STATUS_SHARING_VIOLATION ∧
    r.returned = STATUS_SHARING_VIOLATION ∧
    r.completed = true ∧
    r.Irp.IoStatus = { Status := STATUS_SHARING_VIOLATION, Information := 0 } ∧
    r.downstreamCalls = [] ∧
    r.devExt = d ∧
    r.devExt.UpperConnectData =
      { ClassDeviceObject := first.Type3InputBuffer 0,
        ClassService := first.Type3InputBuffer 1 } ∧
    r.Irp.Type3InputBuffer = again.Type3InputBuffer := by
  subst hr1 hlater hr
  -- the state right after the first Connect
  have hd1 : (KbFilter_DispatchInternalDeviceControl img IoCallDriver DeviceObject devExtPtr
      d0 first).devExt.UpperConnectData =
      { ClassDeviceObject := first.Type3InputBuffer 0,
        ClassService := first.Type3InputBuffer 1 } := by
    rw [dispatch_status] at hok
    rw [dispatch_devExt]
    unfold dispatchSwitch at hok ⊢
    simp only at hok ⊢
    rw [if_pos hfirst] at hok ⊢
    split
    · rename_i h
      rw [if_pos h] at hok
      simp [NT_SUCCESS, STATUS_SHARING_VIOLATION, toLONG] at hok
    · split
      · rename_i h h2
        rw [if_neg h, if_pos h2] at hok
        simp [NT_SUCCESS, STATUS_INVALID_PARAMETER, toLONG] at hok
      · rfl
  -- the state in which the later Connect arrives
  have hd : (runEvents img IoCallDriver service clock DeviceObject devExtPtr
      ((KbFilter_DispatchInternalDeviceControl img IoCallDriver DeviceObject devExtPtr
        d0 first).devExt, tick0) later).1.UpperConnectData =
      { ClassDeviceObject := first.Type3InputBuffer 0,
        ClassService := first.Type3InputBuffer 1 } := by
    rw [runEvents_upstream _ _ _ _ _ _ _ _ (by simp only; rw [hd1]; exact hcallback), hd1]
  generalize (runEvents img IoCallDriver service clock DeviceObject devExtPtr
      ((KbFilter_DispatchInternalDeviceControl img IoCallDriver DeviceObject devExtPtr
        d0 first).devExt, tick0) later).1 = d at hd ⊢
  have hset : d.UpperConnectData.ClassService ≠ NULL := by rw [hd]; exact hcallback
  have hsw : dispatchSwitch img DeviceObject devExtPtr d again =
      { devExt := d, buffer := again.Type3InputBuffer, status := STATUS_SHARING_VIOLATION,
        needCompletion := false } := by
    unfold dispatchSwitch
    simp only
    rw [if_pos hagain, if_pos hset]
  have hfail : NT_SUCCESS STATUS_SHARING_VIOLATION = false := by decide
  unfold KbFilter_DispatchInternalDeviceControl
  simp only [hsw, hfail, Bool.not_false, if_true]
  exact ⟨trivial, trivial, trivial, trivial, trivial, trivial, hd, trivial⟩

/-- C8, worked case: a fresh device is connected to the consumer (7, 9); after
a batch delivery, a second Connect with payload (11, 13) and an undersized
length of 4 bytes is rejected, and the stored pair is still (7, 9). -/
theorem C8_connect_once_witness :
    (KbFilter_DispatchInternalDeviceControl image lowerSucceeds 1 50
        (runEvents image lowerSucceeds consumeAll clockZero 1 50
          ((KbFilter_DispatchInternalDeviceControl image lowerSucceeds 1 50
            (KbFilter_AddDevice 1 2) (connectIrp 7 9 16)).devExt, 0)
          [FilterEvent.delivery true [pressA] 0]).1
        (connectIrp 11 13 4)).status = STATUS_SHARING_VIOLATION ∧
    (KbFilter_DispatchInternalDeviceControl image lowerSucceeds 1 50
        (runEvents image lowerSucceeds consumeAll clockZero 1 50
          ((KbFilter_DispatchInternalDeviceControl image lowerSucceeds 1 50
            (KbFilter_AddDevice 1 2) (connectIrp 7 9 16)).devExt, 0)
          [FilterEvent.delivery true [pressA] 0]).1
        (connectIrp 11 13 4)).devExt.UpperConnectData =
      { ClassDeviceObject := 7, ClassService := 9 } := by
  have h := C8_connect_once image lowerSucceeds consumeAll clockZero 1 50
    (KbFilter_AddDevice 1 2) _ 0 (connectIrp 7 9 16) (connectIrp 11 13 4)
    [FilterEvent.delivery true [pressA] 0] _ _ rfl rfl (by decide) (by decide) rfl rfl rfl
  exact ⟨h.1, h.2.2.2.2.2.2.1⟩

/-- C8, counterexample to the claim as stated: on a fresh device a Connect
request whose payload is (7, NULL) succeeds (it is forwarded with status
success) and stores the pair (7, NULL); the next Connect request, with payload
(11, 13), is then not rejected: it succeeds too, replaces the stored pair by
(11, 13) and rewrites its payload. -/
theorem C8_counterexample :
    (KbFilter_DispatchInternalDeviceControl image lowerSucceeds 1 50
      (KbFilter_AddDevice 1 2) (connectIrp 7 NULL 16)).status = STATUS_SUCCESS ∧
    (KbFilter_DispatchInternalDeviceControl image lowerSucceeds 1 50
      (KbFilter_AddDevice 1 2) (connectIrp 7 NULL 16)).completed = false ∧
    (KbFilter_DispatchInternalDeviceControl image lowerSucceeds 1 50
      (KbFilter_AddDevice 1 2) (connectIrp 7 NULL 16)).devExt.UpperConnectData
      = { ClassDeviceObject := 7, ClassService := NULL } ∧
    (KbFilter_DispatchInternalDeviceControl image lowerSucceeds 1 50
      (KbFilter_DispatchInternalDeviceControl image lowerSucceeds 1 50
        (KbFilter_AddDevice 1 2) (connectIrp 7 NULL 16)).devExt
      (connectIrp 11 13 16)).status = STATUS_SUCCESS ∧
    (KbFilter_DispatchInternalDeviceControl image lowerSucceeds 1 50
      (KbFilter_DispatchInternalDeviceControl image lowerSucceeds 1 50
        (KbFilter_AddDevice 1 2) (connectIrp 7 NULL 16)).devExt
      (connectIrp 11 13 16)).devExt.UpperConnectData
      = { ClassDeviceObject := 11, ClassService := 13 } ∧
    (KbFilter_DispatchInternalDeviceControl image lowerSucceeds 1 50
      (KbFilter_DispatchInternalDeviceControl image lowerSucceeds 1 50
        (KbFilter_AddDevice 1 2) (connectIrp 7 NULL 16)).devExt
      (connectIrp 11 13 16)).Irp.Type3InputBuffer 1 = image.KbFilter_ServiceCallback := by
  decide

/-- C9: for every device state whose upstream callback is unset and every
Connect request with payload length at least `sizeof(CONNECT_DATA)`, the
dispatch stores the (context, callback) pair of the payload as upstream and
changes no other field of the device extension, rewrites the payload to (the
device object of this layer, `KbFilter_ServiceCallback`) and no other word of
it, and forwards the request downstream with status success: the status is
`STATUS_SUCCESS`, the request is not completed by this layer, its status block
is not written, and it is passed once to the target device without a
completion routine, whose answer is returned.  Here `r` is the outcome of the
dispatch. -/
theorem C9_connect_success (img : DriverImage) (IoCallDriver : PVOID → IRP → Int)
    (DeviceObject devExtPtr : PVOID) (d : DEVICE_EXTENSION) (irp : IRP) (r : DispatchResult)
    (hkind : irp.IoControlCode = IOCTL_INTERNAL_KEYBOARD_CONNECT)
    (hunset : d.UpperConnectData.ClassService = NULL)
    (hlen : sizeof_CONNECT_DATA ≤ irp.InputBufferLength)
    (hr : KbFilter_DispatchInternalDeviceControl img IoCallDriver DeviceObject devExtPtr
      d irp = r) :
    r.devExt = { d with UpperConnectData :=
      { ClassDeviceObject := irp.Type3InputBuffer 0,
        ClassService := irp.Type3InputBuffer 1 } } ∧
    r.Irp.Type3InputBuffer 0 = DeviceObject ∧
    r.Irp.Type3InputBuffer 1 = img.KbFilter_ServiceCallback ∧
    (∀ i, 2 ≤ i → r.Irp.Type3InputBuffer i = irp.Type3InputBuffer i) ∧
    r.status = STATUS_SUCCESS ∧
    r.completed = false ∧
    r.Irp.IoStatus = irp.IoStatus ∧
    r.downstreamCalls = [{ target := d.TargetDeviceObject, completion := none }] ∧
    r.returned = IoCallDriver d.TargetDeviceObject r.Irp := by
  subst hr
  have hsw : dispatchSwitch img DeviceObject devExtPtr d irp =
      { devExt := { d with UpperConnectData := readCONNECT_DATA irp.Type3InputBuffer },
        buffer := writeCONNECT_DATA irp.Type3InputBuffer
          { ClassDeviceObject := DeviceObject, ClassService := img.KbFilter_ServiceCallback },
        status := STATUS_SUCCESS, needCompletion := false } := by
    unfold dispatchSwitch
    simp only
    rw [if_pos hkind, if_neg (not_not.mpr hunset), if_neg (by omega)]
  have hok : NT_SUCCESS STATUS_SUCCESS = true := by decide
  unfold KbFilter_DispatchInternalDeviceControl
  simp only [hsw, hok, Bool.not_true, Bool.false_eq_true, if_false]
  refine ⟨rfl, ?_, ?_, ?_, trivial, trivial, trivial, trivial, trivial⟩
  · simp [writeCONNECT_DATA, Function.update]
  · simp [writeCONNECT_DATA, Function.update]
  · intro i hi
    have h0 : i ≠ 0 := by omega
    have h1 : i ≠ 1 := by omega
    simp [writeCONNECT_DATA, Function.update, h0, h1]

/-- C9, worked case: the first Connect on a fresh device, with payload (7, 9),
stores (7, 9) and hands (device object 1, `KbFilter_ServiceCallback`) down. -/
theorem C9_connect_success_witness :
    (KbFilter_DispatchInternalDeviceControl image lowerSucceeds 1 50
      (KbFilter_AddDevice 1 2) (connectIrp 7 9 16)).devExt
      = { KbFilter_AddDevice 1 2 with
          UpperConnectData := { ClassDeviceObject := 7, ClassService := 9 } } ∧
    (KbFilter_DispatchInternalDeviceControl image lowerSucceeds 1 50
      (KbFilter_AddDevice 1 2) (connectIrp 7 9 16)).Irp.Type3InputBuffer 0 = 1 ∧
    (KbFilter_DispatchInternalDeviceControl image lowerSucceeds 1 50
      (KbFilter_AddDevice 1 2) (connectIrp 7 9 16)).Irp.Type3InputBuffer 1 = 100 ∧
    (KbFilter_DispatchInternalDeviceControl image lowerSucceeds 1 50
      (KbFilter_AddDevice 1 2) (connectIrp 7 9 16)).downstreamCalls
      = [{ target := 2, completion := none }] := by
  have h := C9_connect_success image lowerSucceeds 1 50 (KbFilter_AddDevice 1 2)
    (connectIrp 7 9 16) _ rfl rfl (by decide) rfl
  exact ⟨h.1, h.2.1, h.2.2.1, h.2.2.2.2.2.2.2.1⟩

/-- C10: for every device state, a Connect request on an unconnected device
with payload shorter than `sizeof(CONNECT_DATA)`, and a Hook-install request
with payload shorter than `sizeof(INTERNAL_I8042_HOOK_KEYBOARD)`, each yield
the invalid-parameter status; and every request whose status at the end of the
switch is a failure status is completed by this layer with that status and
result length 0, is returned with that status, is never forwarded downstream,
and leaves the device extension and the payload of the request unchanged.
Here `r` is the outcome of the dispatch. -/
theorem C10_precondition_failure (img : DriverImage) (IoCallDriver : PVOID → IRP → Int)
    (DeviceObject devExtPtr : PVOID) (d : DEVICE_EXTENSION) (irp : IRP) (r : DispatchResult)
    (hr : KbFilter_DispatchInternalDeviceControl img IoCallDriver DeviceObject devExtPtr
      d irp = r) :
    (irp.IoControlCode = IOCTL_INTERNAL_KEYBOARD_CONNECT →
      d.UpperConnectData.ClassService = NULL →
      irp.InputBufferLength < sizeof_CONNECT_DATA →
      r.status = STATUS_INVALID_PARAMETER) ∧
    (irp.IoControlCode = IOCTL_INTERNAL_I8042_HOOK_KEYBOARD →
      irp.InputBufferLength < sizeof_INTERNAL_I8042_HOOK_KEYBOARD →
      r.status = STATUS_INVALID_PARAMETER) ∧
    (NT_SUCCESS r.status = false →
      r.completed = true ∧
      r.Irp.IoStatus = { Status := r.status, Information := 0 } ∧
      r.returned = r.status ∧
      r.downstreamCalls = [] ∧
      r.devExt = d ∧
      r.Irp.Type3InputBuffer = irp.Type3InputBuffer) := by
  subst hr
  refine ⟨?_, ?_, ?_⟩
  · intro hkind hunset hlen
    rw [dispatch_status]
    unfold dispatchSwitch
    simp only
    rw [if_pos hkind, if_neg (not_not.mpr hunset), if_pos hlen]
  · intro hkind hlen
    have h1 : irp.IoControlCode ≠ IOCTL_INTERNAL_KEYBOARD_CONNECT := by
      rw [hkind]; decide
    have h2 : irp.IoControlCode ≠ IOCTL_INTERNAL_KEYBOARD_DISCONNECT := by
      rw [hkind]; decide
    rw [dispatch_status]
    unfold dispatchSwitch
    simp only
    rw [if_neg h1, if_neg h2, if_pos hkind, if_pos hlen]
  · intro hfail
    rw [dispatch_status] at hfail
    have hsw := dispatchSwitch_failure img DeviceObject devExtPtr d irp hfail
    unfold KbFilter_DispatchInternalDeviceControl
    simp only [hfail, Bool.not_false, if_true]
    exact ⟨trivial, trivial, trivial, trivial, hsw.1, hsw.2⟩

/-- C10, worked case: an undersized Connect (8 bytes) on a fresh device, and an
undersized Hook-install (40 bytes), are completed with the invalid-parameter
status and result length 0, are not forwarded, and change nothing. -/
theorem C10_precondition_failure_witness :
    (KbFilter_DispatchInternalDeviceControl image lowerSucceeds 1 50
      (KbFilter_AddDevice 1 2) (connectIrp 7 9 8)).status = STATUS_INVALID_PARAMETER ∧
    (KbFilter_DispatchInternalDeviceControl image lowerSucceeds 1 50
      (KbFilter_AddDevice 1 2) (hookIrp 40)).status = STATUS_INVALID_PARAMETER ∧
    (KbFilter_DispatchInternalDeviceControl image lowerSucceeds 1 50
      (KbFilter_AddDevice 1 2) (hookIrp 40)).downstreamCalls = [] ∧
    (KbFilter_DispatchInternalDeviceControl image lowerSucceeds 1 50
      (KbFilter_AddDevice 1 2) (hookIrp 40)).devExt = KbFilter_AddDevice 1 2 ∧
    (KbFilter_DispatchInternalDeviceControl image lowerSucceeds 1 50
      (KbFilter_AddDevice 1 2) (hookIrp 40)).Irp.IoStatus
      = { Status := STATUS_INVALID_PARAMETER, Information := 0 } := by
  have h1 := (C10_precondition_failure image lowerSucceeds 1 50 (KbFilter_AddDevice 1 2)
    (connectIrp 7 9 8) _ rfl).1 rfl rfl (by decide)
  have h2 := (C10_precondition_failure image lowerSucceeds 1 50 (KbFilter_AddDevice 1 2)
    (hookIrp 40) _ rfl).2.1 rfl (by decide)
  have h3 := (C10_precondition_failure image lowerSucceeds 1 50 (KbFilter_AddDevice 1 2)
    (hookIrp 40) _ rfl).2.2 (by decide)
  refine ⟨h1, h2, h3.2.2.2.1, h3.2.2.2.2.1, ?_⟩
  rw [h3.2.1, h2]

/-- C11: for every device state, connected or not, a Disconnect request yields
the not-implemented status, is completed by this layer with that status and
result length 0, is not forwarded downstream, and leaves the device extension
(every field of it) and the payload unchanged; in particular a stored upstream
callback stays set, so a later Connect (after any sequence of further
requests, batch deliveries and completions) is still rejected with the
sharing-violation status.  Here `r` is the outcome of the dispatch. -/
theorem C11_disconnect_unsupported (img : DriverImage) (IoCallDriver : PVOID → IRP → Int)
    (DeviceObject devExtPtr : PVOID) (d : DEVICE_EXTENSION) (irp : IRP) (r : DispatchResult)
    (hkind : irp.IoControlCode = IOCTL_INTERNAL_KEYBOARD_DISCONNECT)
    (hr : KbFilter_DispatchInternalDeviceControl img IoCallDriver DeviceObject devExtPtr
      d irp = r) :
    r.status = STATUS_NOT_IMPLEMENTED ∧
    r.returned = STATUS_NOT_IMPLEMENTED ∧
    r.completed = true ∧
    r.Irp.IoStatus = { Status := STATUS_NOT_IMPLEMENTED, Information := 0 } ∧
    r.downstreamCalls = [] ∧
    r.devExt = d ∧
    r.Irp.Type3InputBuffer = irp.Type3InputBuffer ∧
    (d.UpperConnectData.ClassService ≠ NULL →
      ∀ (service : PVOID → PVOID → List KEYBOARD_INPUT_DATA → Nat → Nat)
        (clock : Nat → Int) (tick0 : Nat) (later : List FilterEvent) (again : IRP),
        again.IoControlCode = IOCTL_INTERNAL_KEYBOARD_CONNECT →
        (KbFilter_DispatchInternalDeviceControl img IoCallDriver DeviceObject devExtPtr
          (runEvents img IoCallDriver service clock DeviceObject devExtPtr
            (r.devExt, tick0) later).1 again).status = STATUS_SHARING_VIOLATION ∧
        (KbFilter_DispatchInternalDeviceControl img IoCallDriver DeviceObject devExtPtr
          (runEvents img IoCallDriver service clock DeviceObject devExtPtr
            (r.devExt, tick0) later).1 again).devExt.UpperConnectData
          = d.UpperConnectData) := by
  subst hr
  have h1 : irp.IoControlCode ≠ IOCTL_INTERNAL_KEYBOARD_CONNECT := by
    rw [hkind]; decide
  have hsw : dispatchSwitch img DeviceObject devExtPtr d irp =
      { devExt := d, buffer := irp.Type3InputBuffer, status := STATUS_NOT_IMPLEMENTED,
        needCompletion := false } := by
    unfold dispatchSwitch
    simp only
    rw [if_neg h1, if_pos hkind]
  have hfail : NT_SUCCESS STATUS_NOT_IMPLEMENTED = false := by decide
  have hdev : (KbFilter_DispatchInternalDeviceControl img IoCallDriver DeviceObject devExtPtr
      d irp).devExt = d := by
    rw [dispatch_devExt, hsw]
  refine ⟨?_, ?_, ?_, ?_, ?_, hdev, ?_, ?_⟩
  · rw [dispatch_status, hsw]
  · unfold KbFilter_DispatchInternalDeviceControl
    simp only [hsw, hfail, Bool.not_false, if_true]
  · unfold KbFilter_DispatchInternalDeviceControl
    simp only [hsw, hfail, Bool.not_false, if_true]
  · unfold KbFilter_DispatchInternalDeviceControl
    simp only [hsw, hfail, Bool.not_false, if_true]
  · unfold KbFilter_DispatchInternalDeviceControl
    simp only [hsw, hfail, Bool.not_false, if_true]
  · rw [dispatch_buffer, hsw]
  · intro hset service clock tick0 later again hagain
    rw [hdev]
    have hup := runEvents_upstream img IoCallDriver service clock DeviceObject devExtPtr
      (d, tick0) later hset
    simp only at hup
    generalize (runEvents img IoCallDriver service clock DeviceObject devExtPtr
      (d, tick0) later).1 = d2 at hup ⊢
    have hset2 : d2.UpperConnectData.ClassService ≠ NULL := by rw [hup]; exact hset
    have hsw2 : dispatchSwitch img DeviceObject devExtPtr d2 again =
        { devExt := d2, buffer := again.Type3InputBuffer, status := STATUS_SHARING_VIOLATION,
          needCompletion := false } := by
      unfold dispatchSwitch
      simp only
      rw [if_pos hagain, if_pos hset2]
    rw [dispatch_status, dispatch_devExt, hsw2]
    exact ⟨rfl, hup⟩

/-- C11, worked case: a Disconnect on the connected device `connectedDevice`
is answered with the not-implemented status and changes nothing; the Connect
that follows is rejected. -/
theorem C11_disconnect_unsupported_witness :
    (KbFilter_DispatchInternalDeviceControl image lowerSucceeds 1 50
      connectedDevice disconnectIrp).status = STATUS_NOT_IMPLEMENTED ∧
    (KbFilter_DispatchInternalDeviceControl image lowerSucceeds 1 50
      connectedDevice disconnectIrp).devExt = connectedDevice ∧
    (KbFilter_DispatchInternalDeviceControl image lowerSucceeds 1 50
      (KbFilter_DispatchInternalDeviceControl image lowerSucceeds 1 50
        connectedDevice disconnectIrp).devExt (connectIrp 11 13 16)).status
      = STATUS_SHARING_VIOLATION := by
  have h := C11_disconnect_unsupported image lowerSucceeds 1 50 connectedDevice
    disconnectIrp _ rfl rfl
  exact ⟨h.1, h.2.2.2.2.2.1,
    (h.2.2.2.2.2.2.2 (by decide) consumeAll clockZero 0 [] (connectIrp 11 13 16) rfl).1⟩

/-- C12 (as amended): for every device state and every Hook-install request
with payload length at least `sizeof(INTERNAL_I8042_HOOK_KEYBOARD)`, after
dispatch `UpperContext` equals the context the payload carried on entry;
`UpperInitializationRoutine` and `UpperIsrHook` equal the initialization and
interrupt routine the payload carried when it carried one, and keep the value
recorded before when it carried none (so they are absent only if none was
recorded before); `IsrWritePort`, `QueueKeyboardPacket` and `CallContext` equal
the three handles of the payload; no other field of the device extension
changes; the context, initialization routine and interrupt routine of the
payload are replaced by the device extension of this layer,
`KbFilter_InitializationRoutine` and `KbFilter_IsrHook`, the handles of the
payload stay; and the request is forwarded once, with status success.  Here
`r` is the outcome of the dispatch. -/
theorem C12_hook_install (img : DriverImage) (IoCallDriver : PVOID → IRP → Int)
    (DeviceObject devExtPtr : PVOID) (d : DEVICE_EXTENSION) (irp : IRP) (r : DispatchResult)
    (hkind : irp.IoControlCode = IOCTL_INTERNAL_I8042_HOOK_KEYBOARD)
    (hlen : sizeof_INTERNAL_I8042_HOOK_KEYBOARD ≤ irp.InputBufferLength)
    (hr : KbFilter_DispatchInternalDeviceControl img IoCallDriver DeviceObject devExtPtr
      d irp = r) :
    r.devExt =
      { d with
        UpperContext := irp.Type3InputBuffer 0
        UpperInitializationRoutine :=
          if irp.Type3InputBuffer 1 ≠ NULL then irp.Type3InputBuffer 1
          else d.UpperInitializationRoutine
        UpperIsrHook :=
          if irp.Type3InputBuffer 2 ≠ NULL then irp.Type3InputBuffer 2
          else d.UpperIsrHook
        IsrWritePort := irp.Type3InputBuffer 3
        QueueKeyboardPacket := irp.Type3InputBuffer 4
        CallContext := irp.Type3InputBuffer 5 } ∧
    (irp.Type3InputBuffer 1 ≠ NULL ∨ d.UpperInitializationRoutine = NULL →
      r.devExt.UpperInitializationRoutine = irp.Type3InputBuffer 1) ∧
    (irp.Type3InputBuffer 2 ≠ NULL ∨ d.UpperIsrHook = NULL →
      r.devExt.UpperIsrHook = irp.Type3InputBuffer 2) ∧
    r.Irp.Type3InputBuffer 0 = devExtPtr ∧
    r.Irp.Type3InputBuffer 1 = img.KbFilter_InitializationRoutine ∧
    r.Irp.Type3InputBuffer 2 = img.KbFilter_IsrHook ∧
    (∀ i, 3 ≤ i → r.Irp.Type3InputBuffer i = irp.Type3InputBuffer i) ∧
    r.status = STATUS_SUCCESS ∧
    r.completed = false ∧
    r.downstreamCalls = [{ target := d.TargetDeviceObject, completion := none }] := by
  subst hr
  have h1 : irp.IoControlCode ≠ IOCTL_INTERNAL_KEYBOARD_CONNECT := by
    rw [hkind]; decide
  have h2 : irp.IoControlCode ≠ IOCTL_INTERNAL_KEYBOARD_DISCONNECT := by
    rw [hkind]; decide
  have hsw : dispatchSwitch img DeviceObject devExtPtr d irp =
      { devExt :=
          { d with
            UpperContext := irp.Type3InputBuffer 0
            UpperInitializationRoutine :=
              if irp.Type3InputBuffer 1 ≠ NULL then irp.Type3InputBuffer 1
              else d.UpperInitializationRoutine
            UpperIsrHook :=
              if irp.Type3InputBuffer 2 ≠ NULL then irp.Type3InputBuffer 2
              else d.UpperIsrHook
            IsrWritePort := irp.Type3InputBuffer 3
            QueueKeyboardPacket := irp.Type3InputBuffer 4
            CallContext := irp.Type3InputBuffer 5 },
        buffer :=
          Function.update
            (Function.update (Function.update irp.Type3InputBuffer 0 devExtPtr)
              1 img.KbFilter_InitializationRoutine)
            2 img.KbFilter_IsrHook,
        status := STATUS_SUCCESS, needCompletion := false } := by
    unfold dispatchSwitch
    simp only
    rw [if_neg h1, if_neg h2, if_pos hkind, if_neg (by omega)]
    rfl
  have hok : NT_SUCCESS STATUS_SUCCESS = true := by decide
  have hdev := dispatch_devExt img IoCallDriver DeviceObject devExtPtr d irp
  have hbuf := dispatch_buffer img IoCallDriver DeviceObject devExtPtr d irp
  rw [hsw] at hdev hbuf
  simp only at hdev hbuf
  refine ⟨hdev, ?_, ?_, ?_, ?_, ?_, ?_, ?_, ?_, ?_⟩
  · intro h
    rw [hdev]
    simp only
    rcases h with h | h
    · rw [if_pos h]
    · by_cases hp : irp.Type3InputBuffer 1 ≠ NULL
      · rw [if_pos hp]
      · rw [if_neg hp, h]
        exact (not_not.mp hp).symm
  · intro h
    rw [hdev]
    simp only
    rcases h with h | h
    · rw [if_pos h]
    · by_cases hp : irp.Type3InputBuffer 2 ≠ NULL
      · rw [if_pos hp]
      · rw [if_neg hp, h]
        exact (not_not.mp hp).symm
  · rw [hbuf]
    simp [Function.update]
  · rw [hbuf]
    simp [Function.update]
  · rw [hbuf]
    simp [Function.update]
  · intro i hi
    have i0 : i ≠ 0 := by omega
    have i1 : i ≠ 1 := by omega
    have i2 : i ≠ 2 := by omega
    rw [hbuf]
    simp [Function.update, i0, i1, i2]
  · rw [dispatch_status, hsw]
  · unfold KbFilter_DispatchInternalDeviceControl
    simp only [hsw, hok, Bool.not_true, Bool.false_eq_true, if_false]
  · unfold KbFilter_DispatchInternalDeviceControl
    simp only [hsw, hok, Bool.not_true, Bool.false_eq_true, if_false]

/-- C12, worked case: the first Hook-install on a fresh device, with the
payload (21, 22, 23, 24, 25, 26), records all six values and hands (device
extension 50, `KbFilter_InitializationRoutine`, `KbFilter_IsrHook`) down. -/
theorem C12_hook_install_witness :
    (KbFilter_DispatchInternalDeviceControl image lowerSucceeds 1 50
      (KbFilter_AddDevice 1 2) (hookIrp 48)).devExt =
      { KbFilter_AddDevice 1 2 with
        UpperContext := 21, UpperInitializationRoutine := 22, UpperIsrHook := 23,
        IsrWritePort := 24, QueueKeyboardPacket := 25, CallContext := 26 } ∧
    (KbFilter_DispatchInternalDeviceControl image lowerSucceeds 1 50
      (KbFilter_AddDevice 1 2) (hookIrp 48)).Irp.Type3InputBuffer 0 = 50 ∧
    (KbFilter_DispatchInternalDeviceControl image lowerSucceeds 1 50
      (KbFilter_AddDevice 1 2) (hookIrp 48)).Irp.Type3InputBuffer 1 = 101 ∧
    (KbFilter_DispatchInternalDeviceControl image lowerSucceeds 1 50
      (KbFilter_AddDevice 1 2) (hookIrp 48)).Irp.Type3InputBuffer 2 = 102 := by
  have h := C12_hook_install image lowerSucceeds 1 50 (KbFilter_AddDevice 1 2)
    (hookIrp 48) _ rfl (by decide) rfl
  exact ⟨h.1, h.2.2.2.1, h.2.2.2.2.1, h.2.2.2.2.2.1⟩

/-- C12, counterexample to the claim as stated: a fresh device records the
routines 22 and 23 with the context 21 by a first Hook-install; a second
Hook-install whose payload carries the context 31 and no routine then leaves
`UpperInitializationRoutine` = 22 and `UpperIsrHook` = 23 (not absent, and not
what the payload carried), next to the new context 31. -/
theorem C12_counterexample :
    (hookIrpWith 31 NULL NULL 48).Type3InputBuffer 1 = NULL ∧
    (hookIrpWith 31 NULL NULL 48).Type3InputBuffer 2 = NULL ∧
    (KbFilter_DispatchInternalDeviceControl image lowerSucceeds 1 50
      (KbFilter_DispatchInternalDeviceControl image lowerSucceeds 1 50
        (KbFilter_AddDevice 1 2) (hookIrp 48)).devExt
      (hookIrpWith 31 NULL NULL 48)).status = STATUS_SUCCESS ∧
    (KbFilter_DispatchInternalDeviceControl image lowerSucceeds 1 50
      (KbFilter_DispatchInternalDeviceControl image lowerSucceeds 1 50
        (KbFilter_AddDevice 1 2) (hookIrp 48)).devExt
      (hookIrpWith 31 NULL NULL 48)).devExt.UpperContext = 31 ∧
    (KbFilter_DispatchInternalDeviceControl image lowerSucceeds 1 50
      (KbFilter_DispatchInternalDeviceControl image lowerSucceeds 1 50
        (KbFilter_AddDevice 1 2) (hookIrp 48)).devExt
      (hookIrpWith 31 NULL NULL 48)).devExt.UpperInitializationRoutine = 22 ∧
    (KbFilter_DispatchInternalDeviceControl image lowerSucceeds 1 50
      (KbFilter_DispatchInternalDeviceControl image lowerSucceeds 1 50
        (KbFilter_AddDevice 1 2) (hookIrp 48)).devExt
      (hookIrpWith 31 NULL NULL 48)).devExt.UpperIsrHook = 23 := by
  decide

/-- A recorded prior interrupt hook that leaves `*ContinueProcessing` FALSE has
its return value and the memory it left passed through. -/
theorem isrHook_stop (callIsr : PVOID → PVOID → Nat → IsrFrame → Bool × IsrFrame)
    (d : DEVICE_EXTENSION) (StatusByte : Nat) (frame : IsrFrame)
    (hhook : d.UpperIsrHook ≠ NULL)
    (hstop : (callIsr d.UpperIsrHook d.UpperContext StatusByte frame).2.ContinueProcessing
      = false) :
    (KbFilter_IsrHook callIsr d StatusByte frame).retVal
      = (callIsr d.UpperIsrHook d.UpperContext StatusByte frame).1 ∧
    (KbFilter_IsrHook callIsr d StatusByte frame).frame
      = (callIsr d.UpperIsrHook d.UpperContext StatusByte frame).2 ∧
    (KbFilter_IsrHook callIsr d StatusByte frame).upperCalls =
      [{ routine := d.UpperIsrHook, context := d.UpperContext,
         StatusByte := StatusByte, frame := frame }] := by
  unfold KbFilter_IsrHook
  rw [if_pos hhook]
  simp only [hstop, Bool.not_false, Bool.or_true, if_true]
  exact ⟨trivial, trivial, trivial⟩

/-- C13: for every device state, `KbFilter_InitializationRoutine` calls the
recorded prior initialization hook, when one is present, exactly once, with the
recorded upper context and the port arguments it was given itself; if that call
returns a failure status, it returns that status and leaves `*TurnTranslationOn`
as the prior hook left it; if the call succeeds it sets `*TurnTranslationOn` to
TRUE and returns the status of the prior hook; and when no prior hook is
recorded it makes no call, sets `*TurnTranslationOn` to TRUE and returns
success.  Here `r` is the outcome of the routine and `t` the value found in
`*TurnTranslationOn`. -/
theorem C13_initialization_chaining
    (callInit : PVOID → PVOID → PVOID → PVOID → PVOID → Bool → Int × Bool)
    (d : DEVICE_EXTENSION) (synch read write : PVOID) (t : Bool) (r : InitResult)
    (hr : KbFilter_InitializationRoutine callInit d synch read write t = r) :
    (d.UpperInitializationRoutine ≠ NULL →
      r.upperCalls =
        [{ routine := d.UpperInitializationRoutine, context := d.UpperContext,
           SynchFuncContext := synch, ReadPort := read, WritePort := write }] ∧
      r.status = (callInit d.UpperInitializationRoutine d.UpperContext synch read write t).1 ∧
      (NT_SUCCESS
          (callInit d.UpperInitializationRoutine d.UpperContext synch read write t).1 = false →
        r.TurnTranslationOn =
          (callInit d.UpperInitializationRoutine d.UpperContext synch read write t).2) ∧
      (NT_SUCCESS
          (callInit d.UpperInitializationRoutine d.UpperContext synch read write t).1 = true →
        r.TurnTranslationOn = true)) ∧
    (d.UpperInitializationRoutine = NULL →
      r.upperCalls = [] ∧ r.status = STATUS_SUCCESS ∧ r.TurnTranslationOn = true) := by
  subst hr
  constructor
  · intro h
    unfold KbFilter_InitializationRoutine
    rw [if_pos h]
    simp only
    cases hs : NT_SUCCESS
      (callInit d.UpperInitializationRoutine d.UpperContext synch read write t).1
    · simp
    · simp
  · intro h
    unfold KbFilter_InitializationRoutine
    rw [if_neg (not_not.mpr h)]
    exact ⟨rfl, rfl, rfl⟩

/-- C13, worked cases on `hookedDevice` (prior routine 22, context 21): a
failing prior routine has its status returned and `*TurnTranslationOn` left at
FALSE; a succeeding one has `*TurnTranslationOn` set to TRUE after it cleared
it; on a fresh device no call is made. -/
theorem C13_initialization_chaining_witness :
    (KbFilter_InitializationRoutine initFails hookedDevice 5 6 7 false).upperCalls =
      [{ routine := 22, context := 21, SynchFuncContext := 5, ReadPort := 6,
         WritePort := 7 }] ∧
    (KbFilter_InitializationRoutine initFails hookedDevice 5 6 7 false).status
      = STATUS_INVALID_PARAMETER ∧
    (KbFilter_InitializationRoutine initFails hookedDevice 5 6 7 false).TurnTranslationOn
      = false ∧
    (KbFilter_InitializationRoutine initSucceeds hookedDevice 5 6 7 false).TurnTranslationOn
      = true ∧
    (KbFilter_InitializationRoutine initSucceeds (KbFilter_AddDevice 1 2) 5 6 7
      false).upperCalls = [] := by
  have h1 := (C13_initialization_chaining initFails hookedDevice 5 6 7 false _ rfl).1
    (by decide)
  have h2 := (C13_initialization_chaining initSucceeds hookedDevice 5 6 7 false _ rfl).1
    (by decide)
  have h3 := (C13_initialization_chaining initSucceeds (KbFilter_AddDevice 1 2) 5 6 7
    false _ rfl).2 rfl
  exact ⟨h1.1, h1.2.1, h1.2.2.1 (by decide), h2.2.2.2 (by decide), h3.1⟩

/-- C14: for every device state with a recorded prior interrupt hook,
`KbFilter_IsrHook` calls it exactly once, with the recorded upper context and
the arguments it was given itself; if it returns FALSE or leaves
`*ContinueProcessing` FALSE, `KbFilter_IsrHook` returns the same value and
leaves the memory behind its pointer arguments (`*ContinueProcessing` and the
data byte included) exactly as the prior hook left it; if the prior hook
returned TRUE with `*ContinueProcessing` TRUE, it returns TRUE with
`*ContinueProcessing` TRUE and the rest as the prior hook left it.  When no
prior hook is recorded it makes no call, sets `*ContinueProcessing` to TRUE,
returns TRUE and changes nothing else.  Here `r` is the outcome of the hook. -/
theorem C14_isr_chaining (callIsr : PVOID → PVOID → Nat → IsrFrame → Bool × IsrFrame)
    (d : DEVICE_EXTENSION) (StatusByte : Nat) (frame : IsrFrame) (r : IsrResult)
    (hr : KbFilter_IsrHook callIsr d StatusByte frame = r) :
    (d.UpperIsrHook ≠ NULL →
      r.upperCalls =
        [{ routine := d.UpperIsrHook, context := d.UpperContext,
           StatusByte := StatusByte, frame := frame }] ∧
      r.retVal = (callIsr d.UpperIsrHook d.UpperContext StatusByte frame).1 ∧
      ((callIsr d.UpperIsrHook d.UpperContext StatusByte frame).1 = false ∨
          (callIsr d.UpperIsrHook d.UpperContext StatusByte frame).2.ContinueProcessing
            = false →
        r.frame = (callIsr d.UpperIsrHook d.UpperContext StatusByte frame).2) ∧
      ((callIsr d.UpperIsrHook d.UpperContext StatusByte frame).1 = true ∧
          (callIsr d.UpperIsrHook d.UpperContext StatusByte frame).2.ContinueProcessing
            = true →
        r.retVal = true ∧ r.frame.ContinueProcessing = true ∧
        r.frame = (callIsr d.UpperIsrHook d.UpperContext StatusByte frame).2)) ∧
    (d.UpperIsrHook = NULL →
      r.upperCalls = [] ∧ r.retVal = true ∧
      r.frame = { frame with ContinueProcessing := true }) := by
  subst hr
  constructor
  · intro h
    unfold KbFilter_IsrHook
    rw [if_pos h]
    simp only
    generalize callIsr d.UpperIsrHook d.UpperContext StatusByte frame = u
    obtain ⟨rv, f⟩ := u
    cases rv <;> cases hc : f.ContinueProcessing <;> simp [hc]
    cases f
    simp_all
  · intro h
    unfold KbFilter_IsrHook
    rw [if_neg (not_not.mpr h)]
    exact ⟨rfl, rfl, rfl⟩

/-- C14, worked cases on `hookedDevice` (prior hook 23, context 21): a prior
hook that stops the processing has its result passed through untouched; one
that continues gets TRUE back with its data byte kept; on a fresh device
`*ContinueProcessing` is set and nothing else changes. -/
theorem C14_isr_chaining_witness :
    (KbFilter_IsrHook isrStops hookedDevice 0x15 frame0).upperCalls =
      [{ routine := 23, context := 21, StatusByte := 0x15, frame := frame0 }] ∧
    (KbFilter_IsrHook isrStops hookedDevice 0x15 frame0).retVal = true ∧
    (KbFilter_IsrHook isrStops hookedDevice 0x15 frame0).frame =
      { frame0 with DataByte := 0xFA, ContinueProcessing := false } ∧
    (KbFilter_IsrHook isrContinues hookedDevice 0x15 frame0).frame =
      { frame0 with DataByte := 0x30, ContinueProcessing := true } ∧
    (KbFilter_IsrHook isrStops (KbFilter_AddDevice 1 2) 0x15 frame0).frame = frame0 := by
  have h1 := (C14_isr_chaining isrStops hookedDevice 0x15 frame0 _ rfl).1 (by decide)
  have h2 := (C14_isr_chaining isrContinues hookedDevice 0x15 frame0 _ rfl).1 (by decide)
  have h3 := (C14_isr_chaining isrStops (KbFilter_AddDevice 1 2) 0x15 frame0 _ rfl).2 rfl
  exact ⟨h1.1, h1.2.1, h1.2.2.1 (Or.inr rfl), (h2.2.2.2 ⟨rfl, rfl⟩).2.2, h3.2.2⟩

/-- C15: for two filter layers where the recorded prior interrupt hook of the
first layer is `KbFilter_IsrHook` with the device extension of the second layer
as its context, and the recorded prior hook of the second layer is a routine
that leaves `*ContinueProcessing` FALSE (stop processing), invoking
`KbFilter_IsrHook` on the first layer makes one call, to the hook of the second
layer, returns exactly the return value of that routine, and leaves the memory
behind the pointer arguments exactly as that routine left it, with
`*ContinueProcessing` still FALSE: neither layer overwrites it. -/
theorem C15_hook_transparency (img : DriverImage)
    (callIsr : PVOID → PVOID → Nat → IsrFrame → Bool × IsrFrame)
    (d1 d2 : DEVICE_EXTENSION) (devExtPtr2 : PVOID) (StatusByte : Nat) (frame : IsrFrame)
    (himg : img.KbFilter_IsrHook ≠ NULL)
    (hhook1 : d1.UpperIsrHook = img.KbFilter_IsrHook)
    (hctx1 : d1.UpperContext = devExtPtr2)
    (hhook2 : d2.UpperIsrHook ≠ NULL)
    (hstop : (callIsr d2.UpperIsrHook d2.UpperContext StatusByte frame).2.ContinueProcessing
      = false) :
    (KbFilter_IsrHook (callIsrStacked img devExtPtr2 d2 callIsr) d1 StatusByte frame).retVal
      = (callIsr d2.UpperIsrHook d2.UpperContext StatusByte frame).1 ∧
    (KbFilter_IsrHook (callIsrStacked img devExtPtr2 d2 callIsr) d1 StatusByte frame).frame
      = (callIsr d2.UpperIsrHook d2.UpperContext StatusByte frame).2 ∧
    (KbFilter_IsrHook (callIsrStacked img devExtPtr2 d2 callIsr) d1 StatusByte
      frame).frame.ContinueProcessing = false ∧
    (KbFilter_IsrHook (callIsrStacked img devExtPtr2 d2 callIsr) d1 StatusByte
      frame).upperCalls =
      [{ routine := img.KbFilter_IsrHook, context := devExtPtr2,
         StatusByte := StatusByte, frame := frame }] ∧
    (KbFilter_IsrHook callIsr d2 StatusByte frame).upperCalls =
      [{ routine := d2.UpperIsrHook, context := d2.UpperContext,
         StatusByte := StatusByte, frame := frame }] := by
  -- the second layer passes the result of the routine through
  have h2 := (isrHook_stop callIsr d2 StatusByte frame hhook2 hstop)
  have hcall : callIsrStacked img devExtPtr2 d2 callIsr d1.UpperIsrHook d1.UpperContext
      StatusByte frame = callIsr d2.UpperIsrHook d2.UpperContext StatusByte frame := by
    unfold callIsrStacked
    rw [if_pos ⟨hhook1, hctx1⟩, h2.1, h2.2.1]
  have h1 := isrHook_stop (callIsrStacked img devExtPtr2 d2 callIsr) d1 StatusByte frame
    (by rw [hhook1]; exact himg) (by rw [hcall]; exact hstop)
  rw [hcall] at h1
  refine ⟨h1.1, h1.2.1, by rw [h1.2.1]; exact hstop, ?_, h2.2.2⟩
  rw [h1.2.2, hhook1, hctx1]

/-- C15, worked case: the stack is built by the Hook-install request itself,
which `upperLayer` rewrites and `lowerLayer` then records; the routine above
both (23, context 21) replaces the data byte, clears `*ContinueProcessing` and
returns TRUE; the hook of `lowerLayer` returns TRUE with the memory exactly as
that routine left it. -/
theorem C15_hook_transparency_witness :
    lowerLayer.UpperIsrHook = image.KbFilter_IsrHook ∧
    lowerLayer.UpperContext = 60 ∧
    upperLayer.UpperIsrHook = 23 ∧
    upperLayer.UpperContext = 21 ∧
    (KbFilter_IsrHook (callIsrStacked image 60 upperLayer isrStops) lowerLayer 0x15
      frame0).retVal = true ∧
    (KbFilter_IsrHook (callIsrStacked image 60 upperLayer isrStops) lowerLayer 0x15
      frame0).frame = { frame0 with DataByte := 0xFA, ContinueProcessing := false } := by
  have h := C15_hook_transparency image isrStops lowerLayer upperLayer 60 0x15 frame0
    (by decide) (by decide) (by decide) (by decide) rfl
  exact ⟨by decide, by decide, by decide, by decide, h.1, h.2.1⟩

/-- C16: for every device state and every completed request,
`KbFilterRequestCompletionRoutine` returns success; it overwrites
`KeyboardAttributes` with the first `sizeof(KEYBOARD_ATTRIBUTES)` bytes of the
response when the downstream status is a success status, the request is a
capability-attributes query and the returned length is at least
`sizeof(KEYBOARD_ATTRIBUTES)`; in every other case `KeyboardAttributes` is
unchanged; and no other field of the device extension changes in any case.
Here `r` is the outcome of the routine. -/
theorem C16_completion_capture (d : DEVICE_EXTENSION) (irp : IRP)
    (r : DEVICE_EXTENSION × Int)
    (hr : KbFilterRequestCompletionRoutine d irp = r) :
    r.2 = STATUS_SUCCESS ∧
    (NT_SUCCESS irp.IoStatus.Status = true →
      irp.IoControlCode = IOCTL_KEYBOARD_QUERY_ATTRIBUTES →
      sizeof_KEYBOARD_ATTRIBUTES ≤ irp.IoStatus.Information →
      r.1.KeyboardAttributes = irp.SystemBuffer.take sizeof_KEYBOARD_ATTRIBUTES) ∧
    (¬ (NT_SUCCESS irp.IoStatus.Status = true ∧
        irp.IoControlCode = IOCTL_KEYBOARD_QUERY_ATTRIBUTES ∧
        sizeof_KEYBOARD_ATTRIBUTES ≤ irp.IoStatus.Information) →
      r.1 = d) ∧
    r.1 = { d with KeyboardAttributes := r.1.KeyboardAttributes } := by
  subst hr
  unfold KbFilterRequestCompletionRoutine
  by_cases h1 : NT_SUCCESS irp.IoStatus.Status = true ∧
      irp.IoControlCode = IOCTL_KEYBOARD_QUERY_ATTRIBUTES
  · by_cases h2 : irp.IoStatus.Information ≥ sizeof_KEYBOARD_ATTRIBUTES
    · rw [if_pos h1, if_pos h2]
      exact ⟨rfl, fun _ _ _ => rfl, fun h => absurd ⟨h1.1, h1.2, h2⟩ h, rfl⟩
    · rw [if_pos h1, if_neg h2]
      exact ⟨rfl, fun _ _ h => absurd h h2, fun _ => rfl, rfl⟩
  · rw [if_neg h1]
    exact ⟨rfl, fun a b _ => absurd ⟨a, b⟩ h1, fun _ => rfl, rfl⟩

/-- C16, worked cases on a fresh device (28 zero bytes cached): a successful
attributes query that returned 28 bytes has the bytes 0..27 of its response
cached; one that returned 27 bytes, a failed one, and a successful request of
another kind leave the device extension as it was. -/
theorem C16_completion_capture_witness :
    (KbFilterRequestCompletionRoutine (KbFilter_AddDevice 1 2)
      (controlIrp IOCTL_KEYBOARD_QUERY_ATTRIBUTES STATUS_SUCCESS 28)).1.KeyboardAttributes
      = List.range 28 ∧
    (KbFilterRequestCompletionRoutine (KbFilter_AddDevice 1 2)
      (controlIrp IOCTL_KEYBOARD_QUERY_ATTRIBUTES STATUS_SUCCESS 27)).1
      = KbFilter_AddDevice 1 2 ∧
    (KbFilterRequestCompletionRoutine (KbFilter_AddDevice 1 2)
      (controlIrp IOCTL_KEYBOARD_QUERY_ATTRIBUTES STATUS_INVALID_PARAMETER 28)).1
      = KbFilter_AddDevice 1 2 ∧
    (KbFilterRequestCompletionRoutine (KbFilter_AddDevice 1 2)
      (controlIrp IOCTL_KEYBOARD_SET_INDICATORS STATUS_SUCCESS 28)).1
      = KbFilter_AddDevice 1 2 := by
  have h1 := (C16_completion_capture (KbFilter_AddDevice 1 2)
    (controlIrp IOCTL_KEYBOARD_QUERY_ATTRIBUTES STATUS_SUCCESS 28) _ rfl).2.1
    (by decide) rfl (by decide)
  have h2 := (C16_completion_capture (KbFilter_AddDevice 1 2)
    (controlIrp IOCTL_KEYBOARD_QUERY_ATTRIBUTES STATUS_SUCCESS 27) _ rfl).2.2.1 (by decide)
  have h3 := (C16_completion_capture (KbFilter_AddDevice 1 2)
    (controlIrp IOCTL_KEYBOARD_QUERY_ATTRIBUTES STATUS_INVALID_PARAMETER 28) _ rfl).2.2.1
    (by decide)
  have h4 := (C16_completion_capture (KbFilter_AddDevice 1 2)
    (controlIrp IOCTL_KEYBOARD_SET_INDICATORS STATUS_SUCCESS 28) _ rfl).2.2.1 (by decide)
  exact ⟨by rw [h1]; decide, h2, h3, h4⟩

/-- C17: for every device state and every internal control request whose kind
is not Connect, Disconnect or Hook-install (the indicator and typematic
queries and sets, the capability-attributes query, and every kind without a
case), `KbFilter_DispatchInternalDeviceControl` forwards the request
downstream exactly once, to the target device, without completing it and
without writing its status block; it leaves the device extension and the
request, payload included, unchanged; and it arms the completion routine (with
the device extension as context) if the kind is the capability-attributes
query and arms none otherwise.  Here `r` is the outcome of the dispatch. -/
theorem C17_pass_through (img : DriverImage) (IoCallDriver : PVOID → IRP → Int)
    (DeviceObject devExtPtr : PVOID) (d : DEVICE_EXTENSION) (irp : IRP) (r : DispatchResult)
    (h1 : irp.IoControlCode ≠ IOCTL_INTERNAL_KEYBOARD_CONNECT)
    (h2 : irp.IoControlCode ≠ IOCTL_INTERNAL_KEYBOARD_DISCONNECT)
    (h3 : irp.IoControlCode ≠ IOCTL_INTERNAL_I8042_HOOK_KEYBOARD)
    (hr : KbFilter_DispatchInternalDeviceControl img IoCallDriver DeviceObject devExtPtr
      d irp = r) :
    r.devExt = d ∧
    r.Irp = irp ∧
    r.Irp.Type3InputBuffer = irp.Type3InputBuffer ∧
    r.status = STATUS_SUCCESS ∧
    r.completed = false ∧
    r.downstreamCalls =
      [{ target := d.TargetDeviceObject,
         completion :=
           if irp.IoControlCode = IOCTL_KEYBOARD_QUERY_ATTRIBUTES then
             some (img.KbFilterRequestCompletionRoutine, devExtPtr)
           else none }] ∧
    r.returned = IoCallDriver d.TargetDeviceObject irp := by
  subst hr
  have hok : NT_SUCCESS STATUS_SUCCESS = true := by decide
  by_cases h4 : irp.IoControlCode = IOCTL_KEYBOARD_QUERY_ATTRIBUTES
  · have hsw : dispatchSwitch img DeviceObject devExtPtr d irp =
        { devExt := d, buffer := irp.Type3InputBuffer, status := STATUS_SUCCESS,
          needCompletion := true } := by
      unfold dispatchSwitch
      simp only
      rw [if_neg h1, if_neg h2, if_neg h3, if_pos h4]
    unfold KbFilter_DispatchInternalDeviceControl
    simp only [hsw, hok, Bool.not_true, Bool.false_eq_true, if_false, if_true]
    rw [if_pos h4]
    exact ⟨trivial, trivial, trivial, trivial, trivial, rfl, trivial⟩
  · have hsw : dispatchSwitch img DeviceObject devExtPtr d irp =
        { devExt := d, buffer := irp.Type3InputBuffer, status := STATUS_SUCCESS,
          needCompletion := false } := by
      unfold dispatchSwitch
      simp only
      rw [if_neg h1, if_neg h2, if_neg h3, if_neg h4]
    unfold KbFilter_DispatchInternalDeviceControl
    simp only [hsw, hok, Bool.not_true, Bool.false_eq_true, if_false]
    rw [if_neg h4]
    exact ⟨trivial, trivial, trivial, trivial, trivial, rfl, trivial⟩

/-- C17, worked cases on `hookedDevice`: an attributes query is forwarded with
the completion routine armed, a set-indicators request and a request of the
unknown kind 7 are forwarded without one; the device extension stays. -/
theorem C17_pass_through_witness :
    (KbFilter_DispatchInternalDeviceControl image lowerSucceeds 1 50 hookedDevice
      (controlIrp IOCTL_KEYBOARD_QUERY_ATTRIBUTES 0 0)).downstreamCalls
      = [{ target := 2, completion := some (103, 50) }] ∧
    (KbFilter_DispatchInternalDeviceControl image lowerSucceeds 1 50 hookedDevice
      (controlIrp IOCTL_KEYBOARD_SET_INDICATORS 0 0)).downstreamCalls
      = [{ target := 2, completion := none }] ∧
    (KbFilter_DispatchInternalDeviceControl image lowerSucceeds 1 50 hookedDevice
      (controlIrp 7 0 0)).downstreamCalls = [{ target := 2, completion := none }] ∧
    (KbFilter_DispatchInternalDeviceControl image lowerSucceeds 1 50 hookedDevice
      (controlIrp 7 0 0)).devExt = hookedDevice := by
  have h1 := C17_pass_through image lowerSucceeds 1 50 hookedDevice
    (controlIrp IOCTL_KEYBOARD_QUERY_ATTRIBUTES 0 0) _ (by decide) (by decide) (by decide) rfl
  have h2 := C17_pass_through image lowerSucceeds 1 50 hookedDevice
    (controlIrp IOCTL_KEYBOARD_SET_INDICATORS 0 0) _ (by decide) (by decide) (by decide) rfl
  have h3 := C17_pass_through image lowerSucceeds 1 50 hookedDevice
    (controlIrp 7 0 0) _ (by decide) (by decide) (by decide) rfl
  exact ⟨h1.2.2.2.2.2.1, h2.2.2.2.2.2.1, h3.2.2.2.2.2.1, h3.1⟩

/-- The write of `KbFilter_AddRecentKey` on a press event. -/
theorem addRecentKey_press (d : DEVICE_EXTENSION) (e : KEYBOARD_INPUT_DATA)
    (clock : Nat → Int) (tick : Nat) (hpress : e.Flags &&& KEY_BREAK = 0) :
    KbFilter_AddRecentKey d e clock tick =
      ({ d with
          RecentKeys := fun j =>
            if j.val = d.RecentKeyIndex then
              { MakeCode := e.MakeCode, Flags := e.Flags, Timestamp := clock tick }
            else d.RecentKeys j
          RecentKeyIndex := (d.RecentKeyIndex + 1) % MAX_RECENT_KEYS },
       tick + 1) := by
  unfold KbFilter_AddRecentKey
  rw [if_neg (not_not.mpr hpress)]
  rfl

/-- A property of the codes that holds in a slot, and for every event recorded,
still holds in that slot after the calls. -/
theorem addRecentKeys_slot_keeps (P : Nat → Prop) (clock : Nat → Int)
    (events : List KEYBOARD_INPUT_DATA) (st : DEVICE_EXTENSION × Nat)
    (j : Fin MAX_RECENT_KEYS)
    (hev : ∀ e ∈ events, P e.MakeCode)
    (hj : P (st.1.RecentKeys j).MakeCode) :
    P ((addRecentKeys clock st events).1.RecentKeys j).MakeCode := by
  induction events generalizing st with
  | nil => exact hj
  | cons e rest ih =>
    simp only [addRecentKeys]
    apply ih _ (fun x hx => hev x (List.mem_cons_of_mem _ hx))
    unfold KbFilter_AddRecentKey
    split
    · exact hj
    · simp only [KeQuerySystemTime]
      split
      · exact hev e (List.mem_cons_self _ _)
      · exact hj

/-- After the calls, on press events and from a cursor inside the ring, the
slot `k` places after the cursor holds a recorded code, for every `k` below
the number of calls. -/
theorem addRecentKeys_slot_written (P : Nat → Prop) (clock : Nat → Int)
    (events : List KEYBOARD_INPUT_DATA) (st : DEVICE_EXTENSION × Nat)
    (hin : st.1.RecentKeyIndex < MAX_RECENT_KEYS)
    (hpress : ∀ e ∈ events, e.Flags &&& KEY_BREAK = 0)
    (hev : ∀ e ∈ events, P e.MakeCode)
    (j : Fin MAX_RECENT_KEYS) (k : Nat) (hk : k < events.length)
    (hjk : j.val = (st.1.RecentKeyIndex + k) % MAX_RECENT_KEYS) :
    P ((addRecentKeys clock st events).1.RecentKeys j).MakeCode := by
  induction events generalizing st k with
  | nil => simp at hk
  | cons e rest ih =>
    have hp := hpress e (List.mem_cons_self _ _)
    have hrest : ∀ x ∈ rest, P x.MakeCode := fun x hx => hev x (List.mem_cons_of_mem _ hx)
    simp only [addRecentKeys]
    rw [addRecentKey_press _ _ _ _ hp]
    cases k with
    | zero =>
      apply addRecentKeys_slot_keeps P clock rest _ j hrest
      simp only
      rw [if_pos (by rw [hjk]; simp only [Nat.add_zero]; exact Nat.mod_eq_of_lt hin)]
      exact hev e (List.mem_cons_self _ _)
    | succ k =>
      apply ih _ (Nat.mod_lt _ (by decide)) (fun x hx => hpress x (List.mem_cons_of_mem _ hx))
        hrest k (by simpa using hk)
      simp only
      rw [hjk]
      show (st.1.RecentKeyIndex + (k + 1)) % 16 = ((st.1.RecentKeyIndex + 1) % 16 + k) % 16
      omega

/-- No slot holding the code of the event: the duplicate check answers FALSE. -/
theorem isRecentDuplicateKey_no_slot (d : DEVICE_EXTENSION) (e : KEYBOARD_INPUT_DATA)
    (clock : Nat → Int) (tick : Nat)
    (h : ∀ j : Fin MAX_RECENT_KEYS,
      (d.RecentKeys j).MakeCode ≠ 0 → (d.RecentKeys j).MakeCode ≠ e.MakeCode) :
    (KbFilter_IsRecentDuplicateKey d e clock tick).1 = false := by
  unfold KbFilter_IsRecentDuplicateKey
  split
  · rfl
  · simp only [KeQuerySystemTime]
    rw [← Bool.not_eq_true, dupLoop_eq_true_iff]
    rintro ⟨i, _, h0, h1, _⟩
    exact h i h0 h1

/-- From a cursor inside the ring, 16 consecutive `KbFilter_AddRecentKey` calls
on press events whose codes all differ from c leave no ring slot holding c,
and the duplicate check then answers FALSE for every event of code c at every
current time. -/
theorem addRecentKeys_evicts (clock : Nat → Int) (d : DEVICE_EXTENSION) (tick : Nat)
    (events : List KEYBOARD_INPUT_DATA) (c : Nat)
    (hcur : d.RecentKeyIndex < MAX_RECENT_KEYS)
    (hlen : events.length = MAX_RECENT_KEYS)
    (hpress : ∀ e ∈ events, e.Flags &&& KEY_BREAK = 0)
    (hcode : ∀ e ∈ events, e.MakeCode ≠ c) :
    (∀ j : Fin MAX_RECENT_KEYS,
      ((addRecentKeys clock (d, tick) events).1.RecentKeys j).MakeCode ≠ c) ∧
    ∀ (e : KEYBOARD_INPUT_DATA) (clock2 : Nat → Int) (tick2 : Nat), e.MakeCode = c →
      (KbFilter_IsRecentDuplicateKey (addRecentKeys clock (d, tick) events).1 e
        clock2 tick2).1 = false := by
  have hslots : ∀ j : Fin MAX_RECENT_KEYS,
      ((addRecentKeys clock (d, tick) events).1.RecentKeys j).MakeCode ≠ c := by
    intro j
    have hj := j.isLt
    apply addRecentKeys_slot_written (fun x => x ≠ c) clock events (d, tick) hcur hpress hcode j
      ((j.val + 16 - d.RecentKeyIndex) % 16)
    · rw [hlen]
      exact Nat.mod_lt _ (by decide)
    · show j.val = (d.RecentKeyIndex + (j.val + 16 - d.RecentKeyIndex) % 16) % 16
      have h1 : d.RecentKeyIndex < 16 := hcur
      have h2 : j.val < 16 := hj
      omega
  refine ⟨hslots, ?_⟩
  intro e clock2 tick2 hc
  apply isRecentDuplicateKey_no_slot
  intro j _
  rw [hc]
  exact hslots j

/-- No request changes the ring cursor. -/
theorem dispatchSwitch_cursor (img : DriverImage) (DeviceObject devExtPtr : PVOID)
    (d : DEVICE_EXTENSION) (irp : IRP) :
    (dispatchSwitch img DeviceObject devExtPtr d irp).devExt.RecentKeyIndex
      = d.RecentKeyIndex := by
  unfold dispatchSwitch
  simp only
  split
  · split
    · rfl
    · split <;> rfl
  · split
    · rfl
    · split
      · split <;> rfl
      · split <;> rfl

/-- One call of `KbFilter_AddRecentKey` keeps the cursor inside the ring. -/
theorem addRecentKey_cursor (d : DEVICE_EXTENSION) (e : KEYBOARD_INPUT_DATA)
    (clock : Nat → Int) (tick : Nat) (h : d.RecentKeyIndex < MAX_RECENT_KEYS) :
    (KbFilter_AddRecentKey d e clock tick).1.RecentKeyIndex < MAX_RECENT_KEYS := by
  unfold KbFilter_AddRecentKey
  split
  · exact h
  · exact Nat.mod_lt _ (by decide)

/-- The loop of the callback keeps the cursor inside the ring. -/
theorem serviceLoop_cursor (clock : Nat → Int) (s : LoopState)
    (xs : List KEYBOARD_INPUT_DATA) (h : s.devExt.RecentKeyIndex < MAX_RECENT_KEYS) :
    (serviceLoop clock s xs).devExt.RecentKeyIndex < MAX_RECENT_KEYS := by
  induction xs generalizing s with
  | nil => exact h
  | cons x xs ih =>
    simp only [serviceLoop]
    split
    · exact ih _ h
    · exact ih _ (addRecentKey_cursor _ _ _ _ h)

/-- Every event keeps the cursor inside the ring. -/
theorem stepEvent_cursor (img : DriverImage) (IoCallDriver : PVOID → IRP → Int)
    (service : PVOID → PVOID → List KEYBOARD_INPUT_DATA → Nat → Nat)
    (clock : Nat → Int) (DeviceObject devExtPtr : PVOID)
    (st : DEVICE_EXTENSION × Nat) (ev : FilterEvent)
    (h : st.1.RecentKeyIndex < MAX_RECENT_KEYS) :
    (stepEvent img IoCallDriver service clock DeviceObject devExtPtr st ev).1.RecentKeyIndex
      < MAX_RECENT_KEYS := by
  cases ev with
  | request irp =>
    simp only [stepEvent]
    rw [dispatch_devExt, dispatchSwitch_cursor]
    exact h
  | delivery allocated batch consumed =>
    simp only [stepEvent]
    cases allocated with
    | false => exact h
    | true =>
      have hc := serviceLoop_cursor clock ⟨st.1, st.2, [], 0⟩ batch h
      by_cases hp : 0 < (serviceLoop clock ⟨st.1, st.2, [], 0⟩ batch).filteredCount
      · rw [serviceCallback_forwarded service clock st.1 st.2 batch consumed hp]
        exact hc
      · rw [serviceCallback_nothing service clock st.1 st.2 batch consumed (by omega)]
        exact hc
  | completion irp =>
    simp only [stepEvent]
    unfold KbFilterRequestCompletionRoutine
    split
    · split <;> exact h
    · exact h

theorem runEvents_cursor (img : DriverImage) (IoCallDriver : PVOID → IRP → Int)
    (service : PVOID → PVOID → List KEYBOARD_INPUT_DATA → Nat → Nat)
    (clock : Nat → Int) (DeviceObject devExtPtr : PVOID)
    (st : DEVICE_EXTENSION × Nat) (evs : List FilterEvent)
    (h : st.1.RecentKeyIndex < MAX_RECENT_KEYS) :
    (runEvents img IoCallDriver service clock DeviceObject devExtPtr st evs).1.RecentKeyIndex
      < MAX_RECENT_KEYS := by
  induction evs generalizing st with
  | nil => exact h
  | cons ev rest ih =>
    simp only [runEvents]
    exact ih _ (stepEvent_cursor img IoCallDriver service clock DeviceObject devExtPtr st ev h)

/-- C18: for every device state, that is, every state the device is in after
any requests, batch deliveries and completions from the zero-initialised state
of `KbFilter_AddDevice`, and every code c, after 16 consecutive
`KbFilter_AddRecentKey` calls on press events whose codes all differ from c, no
ring slot holds code c, so `KbFilter_IsRecentDuplicateKey` returns FALSE for a
press of c at every current time (a press of the evicted code is treated as
new).  The lemma `addRecentKeys_evicts` gives the same from any state whose
cursor is inside the ring. -/
theorem C18_ring_wraparound (img : DriverImage) (IoCallDriver : PVOID → IRP → Int)
    (service : PVOID → PVOID → List KEYBOARD_INPUT_DATA → Nat → Nat)
    (clock0 : Nat → Int) (DeviceObject devExtPtr deviceObject targetDeviceObject : PVOID)
    (t0 : Nat) (evs : List FilterEvent)
    (clock : Nat → Int) (tick : Nat) (events : List KEYBOARD_INPUT_DATA) (c : Nat)
    (hlen : events.length = MAX_RECENT_KEYS)
    (hpress : ∀ e ∈ events, e.Flags &&& KEY_BREAK = 0)
    (hcode : ∀ e ∈ events, e.MakeCode ≠ c) :
    (∀ j : Fin MAX_RECENT_KEYS,
      ((addRecentKeys clock
        ((runEvents img IoCallDriver service clock0 DeviceObject devExtPtr
          (KbFilter_AddDevice deviceObject targetDeviceObject, t0) evs).1, tick)
        events).1.RecentKeys j).MakeCode ≠ c) ∧
    ∀ (e : KEYBOARD_INPUT_DATA) (clock2 : Nat → Int) (tick2 : Nat), e.MakeCode = c →
      (KbFilter_IsRecentDuplicateKey
        (addRecentKeys clock
          ((runEvents img IoCallDriver service clock0 DeviceObject devExtPtr
            (KbFilter_AddDevice deviceObject targetDeviceObject, t0) evs).1, tick)
          events).1 e clock2 tick2).1 = false :=
  addRecentKeys_evicts clock _ tick events c
    (runEvents_cursor img IoCallDriver service clock0 DeviceObject devExtPtr
      (KbFilter_AddDevice deviceObject targetDeviceObject, t0) evs
      (show (0 : Nat) < 16 by decide))
    hlen hpress hcode

/-- C18, worked case: a fresh device is connected to the consumer (7, 9) and a
press of 0x1E is delivered at time 0, which puts 0x1E into slot 0 and the
cursor at 1; after 16 presses of 0x30 no slot holds 0x1E, and a press of 0x1E
at the very time of its first recording is not a duplicate. -/
theorem C18_ring_wraparound_witness :
    ((runEvents image lowerSucceeds consumeAll clockZero 1 50 (KbFilter_AddDevice 1 2, 0)
      [FilterEvent.request (connectIrp 7 9 16),
        FilterEvent.delivery true [pressA] 0]).1.RecentKeys 0).MakeCode = 0x1E ∧
    (runEvents image lowerSucceeds consumeAll clockZero 1 50 (KbFilter_AddDevice 1 2, 0)
      [FilterEvent.request (connectIrp 7 9 16),
        FilterEvent.delivery true [pressA] 0]).1.RecentKeyIndex = 1 ∧
    ((addRecentKeys clockZero
      ((runEvents image lowerSucceeds consumeAll clockZero 1 50 (KbFilter_AddDevice 1 2, 0)
        [FilterEvent.request (connectIrp 7 9 16),
          FilterEvent.delivery true [pressA] 0]).1, 2)
      (List.replicate 16 pressB)).1.RecentKeys 0).MakeCode ≠ 0x1E ∧
    (KbFilter_IsRecentDuplicateKey
      (addRecentKeys clockZero
        ((runEvents image lowerSucceeds consumeAll clockZero 1 50 (KbFilter_AddDevice 1 2, 0)
          [FilterEvent.request (connectIrp 7 9 16),
            FilterEvent.delivery true [pressA] 0]).1, 2)
        (List.replicate 16 pressB)).1 pressA clockZero 18).1 = false := by
  have h := C18_ring_wraparound image lowerSucceeds consumeAll clockZero 1 50 1 2 0
    [FilterEvent.request (connectIrp 7 9 16), FilterEvent.delivery true [pressA] 0]
    clockZero 2 (List.replicate 16 pressB) 0x1E (by decide) (by decide) (by decide)
  exact ⟨by decide, by decide, h.1 0, h.2 pressA clockZero 18 rfl⟩

/-- C19: for every device state with cursor i < 16 and every press event,
`KbFilter_AddRecentKey` sets slot i to (the code of the event, its flags, the
current time), leaves the other 15 slots and every field outside the ring
unchanged, and sets the cursor to (i + 1) mod 16, which is below 16;
consequently the cursor is below 16 in every state reachable from the
zero-initialised state of `KbFilter_AddDevice` by requests, batch deliveries
and completions, so the index `KbFilter_AddRecentKey` uses is in bounds there
(the scan of `KbFilter_IsRecentDuplicateKey` runs over the 16 indices of the
ring by construction). -/
theorem C19_ring_record (d : DEVICE_EXTENSION) (e : KEYBOARD_INPUT_DATA)
    (clock : Nat → Int) (tick : Nat)
    (hcur : d.RecentKeyIndex < MAX_RECENT_KEYS)
    (hpress : e.Flags &&& KEY_BREAK = 0) :
    (∀ j : Fin MAX_RECENT_KEYS, j.val = d.RecentKeyIndex →
      (KbFilter_AddRecentKey d e clock tick).1.RecentKeys j =
        { MakeCode := e.MakeCode, Flags := e.Flags, Timestamp := clock tick }) ∧
    (KbFilter_AddRecentKey d e clock tick).1.RecentKeys ⟨d.RecentKeyIndex, hcur⟩ =
      { MakeCode := e.MakeCode, Flags := e.Flags, Timestamp := clock tick } ∧
    (∀ j : Fin MAX_RECENT_KEYS, j.val ≠ d.RecentKeyIndex →
      (KbFilter_AddRecentKey d e clock tick).1.RecentKeys j = d.RecentKeys j) ∧
    (KbFilter_AddRecentKey d e clock tick).1 =
      { d with
        RecentKeys := (KbFilter_AddRecentKey d e clock tick).1.RecentKeys
        RecentKeyIndex := (KbFilter_AddRecentKey d e clock tick).1.RecentKeyIndex } ∧
    (KbFilter_AddRecentKey d e clock tick).1.RecentKeyIndex =
      (d.RecentKeyIndex + 1) % 16 ∧
    (KbFilter_AddRecentKey d e clock tick).1.RecentKeyIndex < 16 ∧
    ∀ (img : DriverImage) (IoCallDriver : PVOID → IRP → Int)
      (service : PVOID → PVOID → List KEYBOARD_INPUT_DATA → Nat → Nat)
      (clock2 : Nat → Int) (DeviceObject devExtPtr targetDeviceObject : PVOID)
      (tick0 : Nat) (evs : List FilterEvent),
      (runEvents img IoCallDriver service clock2 DeviceObject devExtPtr
        (KbFilter_AddDevice DeviceObject targetDeviceObject, tick0) evs).1.RecentKeyIndex
        < 16 := by
  have hadd := addRecentKey_press d e clock tick hpress
  refine ⟨?_, ?_, ?_, addRecentKey_nonring d e clock tick, ?_, ?_, ?_⟩
  · intro j hj
    rw [hadd]
    simp only
    rw [if_pos hj]
  · rw [hadd]
    simp only
    exact if_pos trivial
  · intro j hj
    rw [hadd]
    simp only
    rw [if_neg hj]
  · rw [hadd]
  · rw [hadd]
    exact Nat.mod_lt _ (by decide)
  · intro img IoCallDriver service clock2 DeviceObject devExtPtr targetDeviceObject tick0 evs
    exact runEvents_cursor img IoCallDriver service clock2 DeviceObject devExtPtr
      (KbFilter_AddDevice DeviceObject targetDeviceObject, tick0) evs
      (show (0 : Nat) < 16 by decide)

/-- C19, worked case: on `deviceWithA` (cursor 1) a press of 0x30 read at
400 ms goes to slot 1, slot 0 keeps the press of 0x1E, and the cursor moves to
2; with the cursor at 15 it wraps to 0. -/
theorem C19_ring_record_witness :
    (KbFilter_AddRecentKey deviceWithA pressB clock400ms 0).1.RecentKeys 1 =
      { MakeCode := 0x30, Flags := 0, Timestamp := 4000000 } ∧
    (KbFilter_AddRecentKey deviceWithA pressB clock400ms 0).1.RecentKeys 0 =
      { MakeCode := 0x1E, Flags := 0, Timestamp := 0 } ∧
    (KbFilter_AddRecentKey deviceWithA pressB clock400ms 0).1.RecentKeyIndex = 2 ∧
    (KbFilter_AddRecentKey { deviceWithA with RecentKeyIndex := 15 } pressB clock400ms
      0).1.RecentKeyIndex = 0 := by
  have h := C19_ring_record deviceWithA pressB clock400ms 0 (by decide) (by decide)
  have h2 := C19_ring_record { deviceWithA with RecentKeyIndex := 15 } pressB clock400ms 0
    (by decide) (by decide)
  exact ⟨h.1 1 rfl, (h.2.2.1 0 (by decide)).trans (by decide), h.2.2.2.2.1, h2.2.2.2.2.1⟩

/-- C20: for every device state and every current time,
`KbFilter_IsRecentDuplicateKey` returns FALSE for an event whose code is 0,
whether the slots of the ring that hold code 0 were never written or were
written by recording a press of code 0; and on the zero-initialised ring of
`KbFilter_AddDevice` it returns FALSE for every event. -/
theorem C20_empty_slots_never_match (d : DEVICE_EXTENSION) (e : KEYBOARD_INPUT_DATA)
    (clock : Nat → Int) (tick : Nat) (hzero : e.MakeCode = 0) :
    (KbFilter_IsRecentDuplicateKey d e clock tick).1 = false ∧
    (∀ (e0 : KEYBOARD_INPUT_DATA) (clock0 : Nat → Int) (tick0 : Nat), e0.MakeCode = 0 →
      (KbFilter_IsRecentDuplicateKey (KbFilter_AddRecentKey d e0 clock0 tick0).1 e
        clock tick).1 = false) ∧
    ∀ (x : KEYBOARD_INPUT_DATA) (deviceObject targetDeviceObject : PVOID),
      (KbFilter_IsRecentDuplicateKey (KbFilter_AddDevice deviceObject targetDeviceObject) x
        clock tick).1 = false := by
  have hany : ∀ d2 : DEVICE_EXTENSION,
      (KbFilter_IsRecentDuplicateKey d2 e clock tick).1 = false := by
    intro d2
    apply isRecentDuplicateKey_no_slot
    intro j h0
    rw [hzero]
    exact h0
  refine ⟨hany d, fun e0 clock0 tick0 _ => hany _, ?_⟩
  intro x deviceObject targetDeviceObject
  apply isRecentDuplicateKey_no_slot
  intro j h0
  exact absurd rfl h0

/-- C20, worked case: after a press of code 0 is recorded on a fresh connected
device at time 0, a second press of code 0 at the same time is not a duplicate;
the callback forwards both. -/
theorem C20_empty_slots_never_match_witness :
    (KbFilter_IsRecentDuplicateKey (KbFilter_AddRecentKey connectedDevice pressZero
      clockZero 0).1 pressZero clockZero 1).1 = false ∧
    (KbFilter_ServiceCallback consumeAll clockZero true connectedDevice 0
      [pressZero, pressZero] 5).upstreamCalls
      = [{ routine := 9, context := 7, batch := [pressZero, pressZero] }] := by
  have h := C20_empty_slots_never_match connectedDevice pressZero clockZero 1 rfl
  exact ⟨h.2.1 pressZero clockZero 0 rfl, by decide⟩

/-- C21 (as amended): for every device state, in particular one on which a
Hook-install request has already succeeded, a further Hook-install request
with an undersized payload is rejected and changes nothing, and one with a
payload of at least `sizeof(INTERNAL_I8042_HOOK_KEYBOARD)` bytes records the
context of its payload as `UpperContext` and each routine its payload carries
as `UpperInitializationRoutine` and `UpperIsrHook`, keeping the recorded routine
where the payload carries none; so the three recorded values stay unchanged
exactly when the payload carries the recorded context and, for each routine,
the recorded one or none.  Here `r` is the outcome of the further request on
the state `d`. -/
theorem C21_hook_install_again (img : DriverImage) (IoCallDriver : PVOID → IRP → Int)
    (DeviceObject devExtPtr : PVOID) (d : DEVICE_EXTENSION) (again : IRP) (r : DispatchResult)
    (hagain : again.IoControlCode = IOCTL_INTERNAL_I8042_HOOK_KEYBOARD)
    (hr : KbFilter_DispatchInternalDeviceControl img IoCallDriver DeviceObject devExtPtr
      d again = r) :
    (again.InputBufferLength < sizeof_INTERNAL_I8042_HOOK_KEYBOARD →
      r.status = STATUS_INVALID_PARAMETER ∧ r.devExt = d) ∧
    (sizeof_INTERNAL_I8042_HOOK_KEYBOARD ≤ again.InputBufferLength →
      r.status = STATUS_SUCCESS ∧
      r.devExt.UpperContext = again.Type3InputBuffer 0 ∧
      r.devExt.UpperInitializationRoutine =
        (if again.Type3InputBuffer 1 ≠ NULL then again.Type3InputBuffer 1
         else d.UpperInitializationRoutine) ∧
      r.devExt.UpperIsrHook =
        (if again.Type3InputBuffer 2 ≠ NULL then again.Type3InputBuffer 2
         else d.UpperIsrHook) ∧
      ((r.devExt.UpperContext = d.UpperContext ∧
          r.devExt.UpperInitializationRoutine = d.UpperInitializationRoutine ∧
          r.devExt.UpperIsrHook = d.UpperIsrHook) ↔
        (again.Type3InputBuffer 0 = d.UpperContext ∧
          (again.Type3InputBuffer 1 = NULL ∨
            again.Type3InputBuffer 1 = d.UpperInitializationRoutine) ∧
          (again.Type3InputBuffer 2 = NULL ∨
            again.Type3InputBuffer 2 = d.UpperIsrHook)))) := by
  subst hr
  have h1 : again.IoControlCode ≠ IOCTL_INTERNAL_KEYBOARD_CONNECT := by
    rw [hagain]; decide
  have h2 : again.IoControlCode ≠ IOCTL_INTERNAL_KEYBOARD_DISCONNECT := by
    rw [hagain]; decide
  constructor
  · intro hshort
    have hsw : dispatchSwitch img DeviceObject devExtPtr d again =
        { devExt := d, buffer := again.Type3InputBuffer, status := STATUS_INVALID_PARAMETER,
          needCompletion := false } := by
      unfold dispatchSwitch
      simp only
      rw [if_neg h1, if_neg h2, if_pos hagain, if_pos hshort]
    rw [dispatch_status, dispatch_devExt, hsw]
    exact ⟨rfl, rfl⟩
  · intro hlen
    have hsw : dispatchSwitch img DeviceObject devExtPtr d again =
        { devExt :=
            { d with
              UpperContext := again.Type3InputBuffer 0
              UpperInitializationRoutine :=
                if again.Type3InputBuffer 1 ≠ NULL then again.Type3InputBuffer 1
                else d.UpperInitializationRoutine
              UpperIsrHook :=
                if again.Type3InputBuffer 2 ≠ NULL then again.Type3InputBuffer 2
                else d.UpperIsrHook
              IsrWritePort := again.Type3InputBuffer 3
              QueueKeyboardPacket := again.Type3InputBuffer 4
              CallContext := again.Type3InputBuffer 5 },
          buffer :=
            Function.update
              (Function.update (Function.update again.Type3InputBuffer 0 devExtPtr)
                1 img.KbFilter_InitializationRoutine)
              2 img.KbFilter_IsrHook,
          status := STATUS_SUCCESS, needCompletion := false } := by
      unfold dispatchSwitch
      simp only
      rw [if_neg h1, if_neg h2, if_pos hagain, if_neg (by omega)]
      rfl
    rw [dispatch_status, dispatch_devExt, hsw]
    refine ⟨rfl, rfl, rfl, rfl, ?_⟩
    simp only
    by_cases p1 : again.Type3InputBuffer 1 = NULL <;>
      by_cases p2 : again.Type3InputBuffer 2 = NULL
    · simp [p1, p2]
    · simp only [p1, p2, ne_eq, not_true_eq_false, not_false_eq_true, if_true, if_false,
        true_or, false_or, true_and]
    · simp only [p1, p2, ne_eq, not_true_eq_false, not_false_eq_true, if_true, if_false,
        true_or, false_or, and_true]
    · simp only [p1, p2, ne_eq, not_false_eq_true, if_true, false_or]

/-- C21, worked case: on `hookedDevice` (context 21, routines 22 and 23
recorded) an undersized further Hook-install changes nothing; one that carries
the recorded context and no routine leaves the three values as they are. -/
theorem C21_hook_install_again_witness :
    (KbFilter_DispatchInternalDeviceControl image lowerSucceeds 1 50 hookedDevice
      (hookIrpWith 31 32 33 40)).devExt = hookedDevice ∧
    (KbFilter_DispatchInternalDeviceControl image lowerSucceeds 1 50 hookedDevice
      (hookIrpWith 21 NULL NULL 48)).devExt.UpperContext = 21 ∧
    (KbFilter_DispatchInternalDeviceControl image lowerSucceeds 1 50 hookedDevice
      (hookIrpWith 21 NULL NULL 48)).devExt.UpperInitializationRoutine = 22 ∧
    (KbFilter_DispatchInternalDeviceControl image lowerSucceeds 1 50 hookedDevice
      (hookIrpWith 21 NULL NULL 48)).devExt.UpperIsrHook = 23 := by
  have h1 := (C21_hook_install_again image lowerSucceeds 1 50 hookedDevice
    (hookIrpWith 31 32 33 40) _ rfl rfl).1 (by decide)
  have h2 := (C21_hook_install_again image lowerSucceeds 1 50 hookedDevice
    (hookIrpWith 21 NULL NULL 48) _ rfl rfl).2 (by decide)
  have h3 := h2.2.2.2.2.mpr (by decide)
  exact ⟨h1.2, h3.1, h3.2.1, h3.2.2⟩

/-- C21, counterexample to the claim as stated: a first Hook-install on a fresh
device succeeds and records the context 21 with the routines 22 and 23; a
further Hook-install, whose payload carries the context 31, no initialization
routine and the interrupt routine 33, succeeds as well and leaves the context
31 recorded next to the initialization routine 22 of the first request and the
interrupt routine 33. -/
theorem C21_counterexample :
    (KbFilter_DispatchInternalDeviceControl image lowerSucceeds 1 50
      (KbFilter_AddDevice 1 2) (hookIrp 48)).status = STATUS_SUCCESS ∧
    (KbFilter_DispatchInternalDeviceControl image lowerSucceeds 1 50
      (KbFilter_AddDevice 1 2) (hookIrp 48)).devExt.UpperContext = 21 ∧
    (KbFilter_DispatchInternalDeviceControl image lowerSucceeds 1 50
      (KbFilter_AddDevice 1 2) (hookIrp 48)).devExt.UpperInitializationRoutine = 22 ∧
    (KbFilter_DispatchInternalDeviceControl image lowerSucceeds 1 50
      (KbFilter_AddDevice 1 2) (hookIrp 48)).devExt.UpperIsrHook = 23 ∧
    (KbFilter_DispatchInternalDeviceControl image lowerSucceeds 1 50
      (KbFilter_DispatchInternalDeviceControl image lowerSucceeds 1 50
        (KbFilter_AddDevice 1 2) (hookIrp 48)).devExt
      (hookIrpWith 31 NULL 33 48)).status = STATUS_SUCCESS ∧
    (KbFilter_DispatchInternalDeviceControl image lowerSucceeds 1 50
      (KbFilter_DispatchInternalDeviceControl image lowerSucceeds 1 50
        (KbFilter_AddDevice 1 2) (hookIrp 48)).devExt
      (hookIrpWith 31 NULL 33 48)).devExt.UpperContext = 31 ∧
    (KbFilter_DispatchInternalDeviceControl image lowerSucceeds 1 50
      (KbFilter_DispatchInternalDeviceControl image lowerSucceeds 1 50
        (KbFilter_AddDevice 1 2) (hookIrp 48)).devExt
      (hookIrpWith 31 NULL 33 48)).devExt.UpperInitializationRoutine = 22 ∧
    (KbFilter_DispatchInternalDeviceControl image lowerSucceeds 1 50
      (KbFilter_DispatchInternalDeviceControl image lowerSucceeds 1 50
        (KbFilter_AddDevice 1 2) (hookIrp 48)).devExt
      (hookIrpWith 31 NULL 33 48)).devExt.UpperIsrHook = 33 := by
  decide

/-- The loop step on an event that is reported as a duplicate. -/
theorem serviceLoop_skip (clock : Nat → Int) (s : LoopState) (e : KEYBOARD_INPUT_DATA)
    (post : List KEYBOARD_INPUT_DATA)
    (h : (KbFilter_IsRecentDuplicateKey s.devExt e clock s.tick).1 = true) :
    serviceLoop clock s (e :: post) =
      serviceLoop clock
        { s with tick := (KbFilter_IsRecentDuplicateKey s.devExt e clock s.tick).2 } post := by
  simp only [serviceLoop, h, if_true]

/-- C22: for every device state and every press event for which
`KbFilter_IsRecentDuplicateKey` returns TRUE, `KbFilter_ServiceCallback` leaves
the ring slots and the cursor unchanged for that event: the loop passes over
the event with the device extension, the output buffer and the counter as they
were, so the device extension after the event is the one before it, and a
batch of that event alone leaves the device extension unchanged whether or not
the temporary buffer was obtained.  The 300 ms window therefore stays measured
from the last kept press.  The state `s` is the one in which the loop examines
the event, after the events `pre`. -/
theorem C22_suppressed_press_no_refresh
    (service : PVOID → PVOID → List KEYBOARD_INPUT_DATA → Nat → Nat)
    (clock : Nat → Int) (d0 : DEVICE_EXTENSION) (tick0 : Nat)
    (pre post : List KEYBOARD_INPUT_DATA) (e : KEYBOARD_INPUT_DATA) (consumed : Nat)
    (s : LoopState)
    (hs : serviceLoop clock ⟨d0, tick0, [], 0⟩ pre = s)
    (hdup : (KbFilter_IsRecentDuplicateKey s.devExt e clock s.tick).1 = true) :
    serviceLoop clock ⟨d0, tick0, [], 0⟩ (pre ++ e :: post) =
      serviceLoop clock { s with tick := s.tick + 1 } post ∧
    (serviceLoop clock ⟨d0, tick0, [], 0⟩ (pre ++ [e])).devExt = s.devExt ∧
    (serviceLoop clock ⟨d0, tick0, [], 0⟩ (pre ++ [e])).devExt.RecentKeys
      = s.devExt.RecentKeys ∧
    (serviceLoop clock ⟨d0, tick0, [], 0⟩ (pre ++ [e])).devExt.RecentKeyIndex
      = s.devExt.RecentKeyIndex ∧
    (serviceLoop clock ⟨d0, tick0, [], 0⟩ (pre ++ [e])).output = s.output ∧
    ∀ allocated : Bool,
      (KbFilter_ServiceCallback service clock allocated s.devExt s.tick [e] consumed).devExt
        = s.devExt := by
  have htick : (KbFilter_IsRecentDuplicateKey s.devExt e clock s.tick).2 = s.tick + 1 := by
    unfold KbFilter_IsRecentDuplicateKey at hdup ⊢
    split
    · rename_i hb
      rw [if_pos hb] at hdup
      exact absurd hdup Bool.false_ne_true
    · rfl
  have hstep : ∀ rest, serviceLoop clock ⟨d0, tick0, [], 0⟩ (pre ++ e :: rest) =
      serviceLoop clock { s with tick := s.tick + 1 } rest := by
    intro rest
    rw [serviceLoop_append, hs, serviceLoop_skip clock s e rest hdup, htick]
  have hone := hstep []
  simp only [serviceLoop] at hone
  refine ⟨hstep post, by rw [hone], by rw [hone], by rw [hone], by rw [hone], ?_⟩
  intro allocated
  cases allocated with
  | false => rfl
  | true =>
    have h1 : serviceLoop clock ⟨s.devExt, s.tick, [], 0⟩ [e] =
        ⟨s.devExt, s.tick + 1, [], 0⟩ := by
      rw [serviceLoop_skip clock ⟨s.devExt, s.tick, [], 0⟩ e [] hdup, htick]
      rfl
    rw [serviceCallback_nothing service clock s.devExt s.tick [e] consumed (by rw [h1])]
    simp only
    rw [h1]

/-- C22, the worked case of the claim: from the zero-initialised ring of
`connectedDevice`, presses of code 0x1E read at 0 ms, 150 ms and 310 ms are
kept and recorded, dropped, and kept: the first goes to slot 0 with time 0,
the second is reported as a duplicate and leaves the ring as it was, the third
is no duplicate (310 ms after the last kept press, 160 ms after the dropped
one) and goes to slot 1; delivered as one batch, the first and the third are
forwarded. -/
theorem C22_suppressed_press_no_refresh_witness :
    KbFilter_IsRecentDuplicateKey connectedDevice pressA clockThreePresses 0 = (false, 1) ∧
    (KbFilter_AddRecentKey connectedDevice pressA clockThreePresses 1).1.RecentKeys 0 =
      { MakeCode := 0x1E, Flags := 0, Timestamp := 0 } ∧
    KbFilter_IsRecentDuplicateKey
      (KbFilter_AddRecentKey connectedDevice pressA clockThreePresses 1).1 pressA
      clockThreePresses 2 = (true, 3) ∧
    (serviceLoop clockThreePresses ⟨connectedDevice, 0, [], 0⟩ ([pressA] ++ [pressA])).devExt
      = (KbFilter_AddRecentKey connectedDevice pressA clockThreePresses 1).1 ∧
    KbFilter_IsRecentDuplicateKey
      (KbFilter_AddRecentKey connectedDevice pressA clockThreePresses 1).1 pressA
      clockThreePresses 3 = (false, 4) ∧
    (KbFilter_ServiceCallback consumeAll clockThreePresses true connectedDevice 0
      [pressA, pressA, pressA] 0).upstreamCalls
      = [{ routine := 9, context := 7, batch := [pressA, pressA] }] ∧
    (KbFilter_ServiceCallback consumeAll clockThreePresses true connectedDevice 0
      [pressA, pressA, pressA] 0).devExt.RecentKeys 0
      = { MakeCode := 0x1E, Flags := 0, Timestamp := 0 } ∧
    (KbFilter_ServiceCallback consumeAll clockThreePresses true connectedDevice 0
      [pressA, pressA, pressA] 0).devExt.RecentKeys 1
      = { MakeCode := 0x1E, Flags := 0, Timestamp := 3100000 } ∧
    (KbFilter_ServiceCallback consumeAll clockThreePresses true connectedDevice 0
      [pressA, pressA, pressA] 0).devExt.RecentKeyIndex = 2 := by
  have h := C22_suppressed_press_no_refresh consumeAll clockThreePresses connectedDevice 0
    [pressA] [pressA] pressA 0 _ rfl (by decide)
  exact ⟨by decide, by decide, by decide, h.2.1, by decide, by decide, by decide, by decide,
    by decide⟩

/-- C24: for every device state holding a non-empty slot of code c whose
timestamp is later than the current time by an amount whose millisecond value
fits in a signed 32-bit integer (below 2^31 ms, 21,474,836,480,000 units),
`KbFilter_IsRecentDuplicateKey` returns TRUE for a press of c: the millisecond
difference is the negated millisecond value of that amount, at most 0, and so
compares below 300; the loop of the callback passes over the press. -/
theorem C24_clock_moved_backwards (d : DEVICE_EXTENSION) (e : KEYBOARD_INPUT_DATA)
    (clock : Nat → Int) (tick : Nat) (i : Fin MAX_RECENT_KEYS)
    (hpress : e.Flags &&& KEY_BREAK = 0)
    (hslot : (d.RecentKeys i).MakeCode ≠ 0)
    (hcode : (d.RecentKeys i).MakeCode = e.MakeCode)
    (hlater : clock tick < (d.RecentKeys i).Timestamp)
    (hfit : (d.RecentKeys i).Timestamp - clock tick < 21474836480000) :
    timeDiffMs (clock tick) (d.RecentKeys i) =
      -(((d.RecentKeys i).Timestamp - clock tick) / 10000) ∧
    timeDiffMs (clock tick) (d.RecentKeys i) ≤ 0 ∧
    (KbFilter_IsRecentDuplicateKey d e clock tick).1 = true ∧
    ∀ (output : List KEYBOARD_INPUT_DATA) (filteredCount : Nat)
      (post : List KEYBOARD_INPUT_DATA),
      serviceLoop clock ⟨d, tick, output, filteredCount⟩ (e :: post) =
        serviceLoop clock ⟨d, tick + 1, output, filteredCount⟩ post := by
  have hms : timeDiffMs (clock tick) (d.RecentKeys i) =
      -(((d.RecentKeys i).Timestamp - clock tick) / 10000) := by
    unfold timeDiffMs
    simp only
    rw [toLONGLONG_eq_self (by omega) (by omega)]
    have hneg : clock tick - (d.RecentKeys i).Timestamp =
        -((d.RecentKeys i).Timestamp - clock tick) := by omega
    rw [hneg, Int.neg_tdiv, Int.tdiv_eq_ediv (by omega) (by decide),
      toLONG_eq_self (by omega) (by omega)]
  have hle : timeDiffMs (clock tick) (d.RecentKeys i) ≤ 0 := by
    rw [hms]
    omega
  have hdup : KbFilter_IsRecentDuplicateKey d e clock tick = (true, tick + 1) := by
    rw [isRecentDuplicateKey_press _ _ _ _ hpress]
    have : dupLoop d e (clock tick) (List.finRange MAX_RECENT_KEYS) = true := by
      rw [dupLoop_eq_true_iff]
      refine ⟨i, List.mem_finRange i, hslot, hcode, ?_⟩
      show _ < (300 : Int)
      omega
    rw [this]
  refine ⟨hms, hle, by rw [hdup], ?_⟩
  intro output filteredCount post
  rw [serviceLoop_skip clock ⟨d, tick, output, filteredCount⟩ e post (by rw [hdup]), hdup]

/-- C24, worked case: slot 0 of `deviceWithFutureA` holds a press of 0x1E
stamped 500 ms after the current time 0; the millisecond difference is -500
and a press of 0x1E is reported as a duplicate. -/
theorem C24_clock_moved_backwards_witness :
    timeDiffMs (clockZero 0) (deviceWithFutureA.RecentKeys 0) = -500 ∧
    (KbFilter_IsRecentDuplicateKey deviceWithFutureA pressA clockZero 0).1 = true := by
  have h := C24_clock_moved_backwards deviceWithFutureA pressA clockZero 0 0
    (by decide) (by decide) (by decide) (by decide) (by decide)
  exact ⟨by decide, h.2.2.1⟩

/-- The scan reads the code of the event, and the code and the timestamp of
each slot, nothing else. -/
theorem dupLoop_congr (d d2 : DEVICE_EXTENSION) (e e2 : KEYBOARD_INPUT_DATA) (now : Int)
    (l : List (Fin MAX_RECENT_KEYS)) (hcode : e.MakeCode = e2.MakeCode)
    (hslots : ∀ j : Fin MAX_RECENT_KEYS,
      (d2.RecentKeys j).MakeCode = (d.RecentKeys j).MakeCode ∧
      (d2.RecentKeys j).Timestamp = (d.RecentKeys j).Timestamp) :
    dupLoop d2 e2 now l = dupLoop d e now l := by
  induction l with
  | nil => rfl
  | cons i rest ih =>
    have ht : timeDiffMs now (d2.RecentKeys i) = timeDiffMs now (d.RecentKeys i) := by
      unfold timeDiffMs
      rw [(hslots i).2]
    simp only [dupLoop, ih, (hslots i).1, ht, hcode]

/-- C25: for every device state, every current time and every two events with
the same code whose flags agree on the break bit, in particular two press
events whose flags differ only outside the break bit (such as with and without
the extended-key bit), `KbFilter_IsRecentDuplicateKey` returns the same result
for both; and that result is the same on every device state whose ring slots
hold the same codes and timestamps, whatever the flags stored in the slots. -/
theorem C25_flags_ignored (d d2 : DEVICE_EXTENSION) (e1 e2 : KEYBOARD_INPUT_DATA)
    (clock : Nat → Int) (tick : Nat)
    (hcode : e1.MakeCode = e2.MakeCode)
    (hbreak : e1.Flags &&& KEY_BREAK = e2.Flags &&& KEY_BREAK)
    (hslots : ∀ j : Fin MAX_RECENT_KEYS,
      (d2.RecentKeys j).MakeCode = (d.RecentKeys j).MakeCode ∧
      (d2.RecentKeys j).Timestamp = (d.RecentKeys j).Timestamp) :
    KbFilter_IsRecentDuplicateKey d e1 clock tick =
      KbFilter_IsRecentDuplicateKey d e2 clock tick ∧
    KbFilter_IsRecentDuplicateKey d2 e1 clock tick =
      KbFilter_IsRecentDuplicateKey d e1 clock tick := by
  constructor
  · unfold KbFilter_IsRecentDuplicateKey
    rw [hbreak]
    split
    · rfl
    · simp only [KeQuerySystemTime]
      rw [dupLoop_congr d d e2 e1 (clock tick) _ hcode.symm (fun j => ⟨rfl, rfl⟩)]
  · unfold KbFilter_IsRecentDuplicateKey
    split
    · rfl
    · simp only [KeQuerySystemTime]
      rw [dupLoop_congr d d2 e1 e1 (clock tick) _ rfl hslots]

/-- C25, worked case: on `deviceWithA`, at time 0, a press of 0x1E and a press
of 0x1E with the extended-key flag are both reported as duplicates; and a ring
that stores the flags 2 instead of 0 in its slots gives the same answer. -/
theorem C25_flags_ignored_witness :
    KbFilter_IsRecentDuplicateKey deviceWithA pressA clockZero 0 = (true, 1) ∧
    KbFilter_IsRecentDuplicateKey deviceWithA pressAExtended clockZero 0 = (true, 1) ∧
    KbFilter_IsRecentDuplicateKey
      { deviceWithA with
        RecentKeys := fun j => { deviceWithA.RecentKeys j with Flags := 2 } }
      pressA clockZero 0 = (true, 1) := by
  have h := C25_flags_ignored deviceWithA
    { deviceWithA with
      RecentKeys := fun j => { deviceWithA.RecentKeys j with Flags := 2 } }
    pressA pressAExtended clockZero 0 rfl (by decide) (fun j => ⟨rfl, rfl⟩)
  have h0 : KbFilter_IsRecentDuplicateKey deviceWithA pressA clockZero 0 = (true, 1) := by
    decide
  exact ⟨h0, h.1 ▸ h0, h.2.trans h0⟩

/-- The loop examines the events of the batch, each once, in order. -/
theorem serviceTrace_events (clock : Nat → Int) (s : LoopState)
    (xs : List KEYBOARD_INPUT_DATA) :
    (serviceTrace clock s xs).map LoopStep.currentInput = xs := by
  induction xs generalizing s with
  | nil => rfl
  | cons x xs ih =>
    simp only [serviceTrace]
    split <;> simp [ih]

/-- The writes of the loop go to consecutive indices, from the number of
entries already written on. -/
theorem serviceTrace_writes (clock : Nat → Int) (s : LoopState)
    (xs : List KEYBOARD_INPUT_DATA) :
    (serviceTrace clock s xs).filterMap LoopStep.writeIndex =
      List.range' s.output.length
        ((serviceTrace clock s xs).filter (fun st => !st.duplicate)).length := by
  induction xs generalizing s with
  | nil => rfl
  | cons x xs ih =>
    simp only [serviceTrace]
    split
    · simp [ih]
    · simp [ih, List.range'_succ]

/-- The events written to the buffer are those for which the duplicate check
answered FALSE, and the counter counts them. -/
theorem serviceTrace_kept (clock : Nat → Int) (s : LoopState)
    (xs : List KEYBOARD_INPUT_DATA) :
    (serviceLoop clock s xs).output =
      s.output ++
        ((serviceTrace clock s xs).filter (fun st => !st.duplicate)).map
          LoopStep.currentInput ∧
    (serviceLoop clock s xs).filteredCount =
      s.filteredCount +
        ((serviceTrace clock s xs).filter (fun st => !st.duplicate)).length ∧
    (∀ st ∈ serviceTrace clock s xs, st.duplicate = true ↔ st.writeIndex = none) := by
  induction xs generalizing s with
  | nil => simp [serviceLoop, serviceTrace]
  | cons x xs ih =>
    simp only [serviceLoop, serviceTrace]
    split
    · have h := ih { s with tick := (KbFilter_IsRecentDuplicateKey s.devExt x clock s.tick).2 }
      refine ⟨?_, ?_, ?_⟩
      · rw [h.1]; simp
      · rw [h.2.1]; simp
      · intro st hst
        rcases List.mem_cons.mp hst with rfl | hmem
        · simp
        · exact h.2.2 st hmem
    · have h := ih
        { devExt := (KbFilter_AddRecentKey s.devExt x clock
            (KbFilter_IsRecentDuplicateKey s.devExt x clock s.tick).2).1,
          tick := (KbFilter_AddRecentKey s.devExt x clock
            (KbFilter_IsRecentDuplicateKey s.devExt x clock s.tick).2).2,
          output := s.output ++ [x], filteredCount := s.filteredCount + 1 }
      refine ⟨?_, ?_, ?_⟩
      · rw [h.1]; simp
      · rw [h.2.1]; simp; omega
      · intro st hst
        rcases List.mem_cons.mp hst with rfl | hmem
        · simp
        · exact h.2.2 st hmem

/-- C26: for every device state and every batch of K events for which the
temporary buffer of K entries is obtained, the loop of
`KbFilter_ServiceCallback` examines the K events of the batch, each exactly
once and in order; an iteration writes to the buffer exactly when
`KbFilter_IsRecentDuplicateKey` returned FALSE; the writes go to the indices
0, 1, ..., kept count - 1, each below K; the final kept count `filteredCount`
is at most K, equals the number of events for which
`KbFilter_IsRecentDuplicateKey` returned FALSE (K minus the number for which it
returned TRUE), and is the number of entries written. -/
theorem C26_output_writes_in_bounds (clock : Nat → Int) (d : DEVICE_EXTENSION) (tick : Nat)
    (batch : List KEYBOARD_INPUT_DATA) :
    (serviceTrace clock ⟨d, tick, [], 0⟩ batch).map LoopStep.currentInput = batch ∧
    (serviceTrace clock ⟨d, tick, [], 0⟩ batch).length = batch.length ∧
    (∀ st ∈ serviceTrace clock ⟨d, tick, [], 0⟩ batch,
      st.duplicate = false ↔ ∃ i, st.writeIndex = some i) ∧
    (serviceTrace clock ⟨d, tick, [], 0⟩ batch).filterMap LoopStep.writeIndex =
      List.range (serviceLoop clock ⟨d, tick, [], 0⟩ batch).filteredCount ∧
    (∀ st ∈ serviceTrace clock ⟨d, tick, [], 0⟩ batch, ∀ i, st.writeIndex = some i →
      i < batch.length) ∧
    (serviceLoop clock ⟨d, tick, [], 0⟩ batch).filteredCount ≤ batch.length ∧
    (serviceLoop clock ⟨d, tick, [], 0⟩ batch).filteredCount =
      ((serviceTrace clock ⟨d, tick, [], 0⟩ batch).filter (fun st => !st.duplicate)).length ∧
    (serviceLoop clock ⟨d, tick, [], 0⟩ batch).filteredCount =
      batch.length - suppressedCount clock ⟨d, tick, [], 0⟩ batch ∧
    (serviceLoop clock ⟨d, tick, [], 0⟩ batch).output.length =
      (serviceLoop clock ⟨d, tick, [], 0⟩ batch).filteredCount := by
  have hev := serviceTrace_events clock ⟨d, tick, [], 0⟩ batch
  have hwr := serviceTrace_writes clock ⟨d, tick, [], 0⟩ batch
  have hkept := serviceTrace_kept clock ⟨d, tick, [], 0⟩ batch
  have hcount := serviceLoop_count clock ⟨d, tick, [], 0⟩ batch
  have hlen := serviceLoop_length clock d tick batch
  simp only [List.length_nil, Nat.zero_add] at hwr hkept hcount
  have hfc := hkept.2.1
  have htl : (serviceTrace clock ⟨d, tick, [], 0⟩ batch).length = batch.length := by
    have := congrArg List.length hev
    simpa using this
  have hrange : (serviceTrace clock ⟨d, tick, [], 0⟩ batch).filterMap LoopStep.writeIndex =
      List.range (serviceLoop clock ⟨d, tick, [], 0⟩ batch).filteredCount := by
    rw [hwr, hfc, List.range_eq_range']
  have hle : (serviceLoop clock ⟨d, tick, [], 0⟩ batch).filteredCount ≤ batch.length := by
    omega
  refine ⟨hev, htl, ?_, hrange, ?_, hle, hfc, by omega, hlen⟩
  · intro st hst
    have h := hkept.2.2 st hst
    cases hd : st.duplicate <;> cases hw : st.writeIndex <;> simp_all
  · intro st hst i hi
    have hmem : i ∈ (serviceTrace clock ⟨d, tick, [], 0⟩ batch).filterMap
        LoopStep.writeIndex := List.mem_filterMap.mpr ⟨st, hst, hi⟩
    rw [hrange] at hmem
    have := List.mem_range.mp hmem
    omega

/-- Recording a press turns the recency order by one place: the slot at the
cursor becomes the most recent one and the oldest leaves the order. -/
theorem recencyOrder_rotate :
    ∀ idx, idx < MAX_RECENT_KEYS →
      recencyOrder ((idx + 1) % MAX_RECENT_KEYS) =
        ⟨idx % MAX_RECENT_KEYS, Nat.mod_lt _ (by decide)⟩ :: (recencyOrder idx).dropLast ∧
      (∀ j ∈ (recencyOrder idx).dropLast, j.val ≠ idx) ∧
      (∀ i : Fin MAX_RECENT_KEYS, i ∈ recencyOrder idx) := by
  decide

/-- The content of the ring in recency order after a press was recorded: the
new entry, then the old content without its oldest entry. -/
theorem ringByRecency_press (d : DEVICE_EXTENSION) (e : KEYBOARD_INPUT_DATA)
    (clock : Nat → Int) (tick : Nat) (hpress : e.Flags &&& KEY_BREAK = 0)
    (hin : d.RecentKeyIndex < MAX_RECENT_KEYS) :
    ringByRecency (KbFilter_AddRecentKey d e clock tick).1 =
      { MakeCode := e.MakeCode, Flags := e.Flags, Timestamp := clock tick } ::
        (ringByRecency d).dropLast := by
  obtain ⟨hrot, hne, _⟩ := recencyOrder_rotate d.RecentKeyIndex hin
  rw [addRecentKey_press _ _ _ _ hpress]
  unfold ringByRecency
  simp only
  rw [hrot, List.map_cons, ← List.map_dropLast]
  congr 1
  · exact if_pos (Nat.mod_eq_of_lt hin)
  · apply List.map_congr_left
    intro j hj
    exact if_neg (hne j hj)

/-- The first entry of a list that satisfies a test stands before every other
entry that satisfies it. -/
theorem find_first_of_pairwise {α : Type} (R : α → α → Prop) (p : α → Bool) (l : List α)
    (k : α) (hP : l.Pairwise R) (hf : l.find? p = some k) :
    ∀ x ∈ l, p x = true → x = k ∨ R k x := by
  induction l with
  | nil => simp at hf
  | cons a l ih =>
    rw [List.pairwise_cons] at hP
    intro x hx hpx
    by_cases hpa : p a = true
    · rw [List.find?_cons_of_pos _ hpa] at hf
      have hak : a = k := Option.some.inj hf
      subst hak
      rcases List.mem_cons.mp hx with rfl | hmem
      · exact Or.inl rfl
      · exact Or.inr (hP.1 x hmem)
    · rw [List.find?_cons_of_neg _ hpa] at hf
      rcases List.mem_cons.mp hx with rfl | hmem
      · exact absurd hpx hpa
      · exact ih hP.2 hf x hmem hpx

/-- With a non-decreasing clock, calls of `KbFilter_AddRecentKey` keep the
cursor inside the ring, the timestamps of the non-empty slots ordered along
the recency order (more recent, not earlier), and every such timestamp at or
before the next clock reading. -/
theorem addRecentKeys_ordered (clock : Nat → Int)
    (hmono : ∀ a b : Nat, a ≤ b → clock a ≤ clock b)
    (events : List KEYBOARD_INPUT_DATA) (st : DEVICE_EXTENSION × Nat)
    (hin : st.1.RecentKeyIndex < MAX_RECENT_KEYS)
    (hord : (ringByRecency st.1).Pairwise
      (fun a b => a.MakeCode ≠ 0 → b.MakeCode ≠ 0 → b.Timestamp ≤ a.Timestamp))
    (hbound : ∀ j, (st.1.RecentKeys j).MakeCode ≠ 0 →
      (st.1.RecentKeys j).Timestamp ≤ clock st.2) :
    (addRecentKeys clock st events).1.RecentKeyIndex < MAX_RECENT_KEYS ∧
    (ringByRecency (addRecentKeys clock st events).1).Pairwise
      (fun a b => a.MakeCode ≠ 0 → b.MakeCode ≠ 0 → b.Timestamp ≤ a.Timestamp) ∧
    (∀ j, ((addRecentKeys clock st events).1.RecentKeys j).MakeCode ≠ 0 →
      ((addRecentKeys clock st events).1.RecentKeys j).Timestamp ≤
        clock (addRecentKeys clock st events).2) := by
  induction events generalizing st with
  | nil => exact ⟨hin, hord, hbound⟩
  | cons e rest ih =>
    simp only [addRecentKeys]
    by_cases hpress : e.Flags &&& KEY_BREAK = 0
    · apply ih
      · rw [addRecentKey_press _ _ _ _ hpress]
        exact Nat.mod_lt _ (by decide)
      · rw [ringByRecency_press _ _ _ _ hpress hin, List.pairwise_cons]
        refine ⟨?_, hord.sublist (List.dropLast_sublist _)⟩
        intro b hb _ hb0
        have hb2 : b ∈ ringByRecency st.1 := (List.dropLast_sublist _).subset hb
        obtain ⟨j, _, rfl⟩ := List.mem_map.mp hb2
        exact hbound j hb0
      · rw [addRecentKey_press _ _ _ _ hpress]
        intro j hj
        simp only at hj ⊢
        by_cases hjc : j.val = st.1.RecentKeyIndex
        · rw [if_pos hjc]
          exact hmono _ _ (Nat.le_succ _)
        · rw [if_neg hjc] at hj ⊢
          exact le_trans (hbound j hj) (hmono _ _ (Nat.le_succ _))
    · rw [addRecentKey_release _ _ _ _ hpress]
      exact ih st hin hord hbound

/-- On every ring reached from the zero-initialised ring by calls of
`KbFilter_AddRecentKey` with a non-decreasing clock, and for every press of a
code c examined afterwards, `KbFilter_IsRecentDuplicateKey` agrees with the
lookup of the specification, provided every slot holding c was recorded less
than 2^31 ms (21,474,836,480,000 units) before the examination. -/
theorem lookup_agrees_in_range (clock : Nat → Int)
    (hmono : ∀ a b : Nat, a ≤ b → clock a ≤ clock b)
    (deviceObject targetDeviceObject : PVOID) (t0 : Nat)
    (events : List KEYBOARD_INPUT_DATA) (e : KEYBOARD_INPUT_DATA) (tick : Nat)
    (hpress : e.Flags &&& KEY_BREAK = 0)
    (htick : (addRecentKeys clock
      (KbFilter_AddDevice deviceObject targetDeviceObject, t0) events).2 ≤ tick)
    (hrange : ∀ j,
      ((addRecentKeys clock (KbFilter_AddDevice deviceObject targetDeviceObject, t0)
        events).1.RecentKeys j).MakeCode = e.MakeCode →
      clock tick - ((addRecentKeys clock
        (KbFilter_AddDevice deviceObject targetDeviceObject, t0)
          events).1.RecentKeys j).Timestamp < 21474836480000) :
    (KbFilter_IsRecentDuplicateKey
      (addRecentKeys clock (KbFilter_AddDevice deviceObject targetDeviceObject, t0) events).1
      e clock tick).1 =
    isDuplicateSpec
      (addRecentKeys clock (KbFilter_AddDevice deviceObject targetDeviceObject, t0) events).1
      e.MakeCode (clock tick) := by
  obtain ⟨hin, hord, hbound⟩ := addRecentKeys_ordered clock hmono events
    (KbFilter_AddDevice deviceObject targetDeviceObject, t0) (show (0 : Nat) < 16 by decide)
    (List.pairwise_of_forall_mem_list (by
      intro a ha b _ ha0
      obtain ⟨j, _, rfl⟩ := List.mem_map.mp ha
      exact absurd rfl ha0))
    (fun j hj => absurd rfl hj)
  generalize (addRecentKeys clock (KbFilter_AddDevice deviceObject targetDeviceObject, t0)
    events) = r at hin hord hbound htick hrange ⊢
  have hnow : ∀ j, (r.1.RecentKeys j).MakeCode ≠ 0 →
      (r.1.RecentKeys j).Timestamp ≤ clock tick :=
    fun j hj => le_trans (hbound j hj) (hmono _ _ htick)
  have hall : ∀ j : Fin MAX_RECENT_KEYS, r.1.RecentKeys j ∈ ringByRecency r.1 :=
    fun j => List.mem_map.mpr ⟨j, (recencyOrder_rotate _ hin).2.2 j, rfl⟩
  rw [isRecentDuplicateKey_press _ _ _ _ hpress, Bool.eq_iff_iff, dupLoop_eq_true_iff]
  unfold isDuplicateSpec lookupSpec mostRecentSlotSpec
  cases hf : (ringByRecency r.1).find?
      (fun k => decide (k.MakeCode ≠ 0) && decide (k.MakeCode = e.MakeCode)) with
  | none =>
    simp only [Option.map_none', Bool.false_eq_true, iff_false]
    rintro ⟨i, _, h0, h1, _⟩
    exact List.find?_eq_none.mp hf _ (hall i)
      (by simp only [Bool.and_eq_true, decide_eq_true_eq]; exact ⟨h0, h1⟩)
  | some k =>
    have hk := List.find?_some hf
    have hkmem := List.mem_of_find?_eq_some hf
    simp only [Bool.and_eq_true, decide_eq_true_eq] at hk
    obtain ⟨j, _, hjk⟩ := List.mem_map.mp hkmem
    simp only [Option.map_some', decide_eq_true_eq]
    show _ ↔ clock tick - k.Timestamp < 300 * 10000
    constructor
    · rintro ⟨i, _, h0, h1, h2⟩
      have hi0 := hnow i h0
      rw [timeDiffMs_of_small (by omega) (hrange i h1)] at h2
      have h2b : (clock tick - (r.1.RecentKeys i).Timestamp) / 10000 < 300 := h2
      have hle : (r.1.RecentKeys i).Timestamp ≤ k.Timestamp := by
        rcases find_first_of_pairwise _ _ _ _ hord hf _ (hall i)
          (by simp only [Bool.and_eq_true, decide_eq_true_eq]; exact ⟨h0, h1⟩) with heq | hR
        · rw [heq]
        · exact hR hk.1 h0
      omega
    · intro h
      refine ⟨j, List.mem_finRange j, ?_, ?_, ?_⟩
      · rw [hjk]; exact hk.1
      · rw [hjk]; exact hk.2
      · have hj0 := hnow j (by rw [hjk]; exact hk.1)
        rw [hjk] at hj0 ⊢
        rw [timeDiffMs_of_small (by omega) (by omega)]
        show (clock tick - k.Timestamp) / 10000 < 300
        omega

/-- The clock `clockLongIdle` never runs backwards. -/
theorem clockLongIdle_mono : ∀ a b : Nat, a ≤ b → clockLongIdle a ≤ clockLongIdle b := by
  intro a b h
  unfold clockLongIdle
  split_ifs <;> omega

/-- The agreement of `lookup_agrees_in_range` on a ring holding one press of
0x1E recorded at time 0, for a press of 0x1E examined 2^31 ms - 400 ms later:
the duplicate check and the lookup of the specification both answer FALSE. -/
theorem lookup_agrees_in_range_example :
    (KbFilter_IsRecentDuplicateKey
      (addRecentKeys clockLongIdle (KbFilter_AddDevice 1 2, 0) [pressA]).1
      pressA clockLongIdle 1).1 = false ∧
    isDuplicateSpec (addRecentKeys clockLongIdle (KbFilter_AddDevice 1 2, 0) [pressA]).1
      pressA.MakeCode (clockLongIdle 1) = false :=
  have h := lookup_agrees_in_range clockLongIdle clockLongIdle_mono 1 2 0 [pressA] pressA 1
    (by decide) (by decide) (by decide)
  ⟨by decide, h ▸ (by decide)⟩

/-- C23 (failing input): the lookup of `KbFilter_IsRecentDuplicateKey` does not
agree with the most recent match once a slot is 2^31 ms old.  The clock
`clockLongIdle` is non-decreasing; from the zero-initialised ring two calls of
`KbFilter_AddRecentKey` record a press of 0x1E at time 0 (slot 0) and at
2^31 ms - 400 ms (slot 1), leaving the cursor at 2 and the other slots empty;
a press of 0x1E is then examined at 2^31 ms, not before any timestamp.  The
most recently recorded slot with code 0x1E is slot 1, its elapsed time is
400 ms (4,000,000 units), not below 300 ms, so the lookup of the specification
answers FALSE; the scan of `KbFilter_IsRecentDuplicateKey` meets slot 0 first,
whose elapsed time of 2^31 ms becomes -2^31 after the cast to `LONG`, and the
function returns TRUE, so `KbFilter_ServiceCallback` forwards nothing. -/
theorem C23_lookup_disagrees_after_2p31ms :
    (∀ a b : Nat, a ≤ b → clockLongIdle a ≤ clockLongIdle b) ∧
    ringTwoPressesA.2 = 2 ∧
    ringTwoPressesA.1.RecentKeyIndex = 2 ∧
    ringTwoPressesA.1.RecentKeys 0 = { MakeCode := 0x1E, Flags := 0, Timestamp := 0 } ∧
    ringTwoPressesA.1.RecentKeys 1 =
      { MakeCode := 0x1E, Flags := 0, Timestamp := 21474832480000 } ∧
    (∀ j : Fin MAX_RECENT_KEYS, 2 ≤ j.val → (ringTwoPressesA.1.RecentKeys j).MakeCode = 0) ∧
    pressA.Flags &&& KEY_BREAK = 0 ∧ pressA.MakeCode = 0x1E ∧
    clockLongIdle 2 = 21474836480000 ∧
    (∀ j : Fin MAX_RECENT_KEYS, (ringTwoPressesA.1.RecentKeys j).Timestamp ≤ clockLongIdle 2) ∧
    mostRecentSlotSpec ringTwoPressesA.1 0x1E =
      some { MakeCode := 0x1E, Flags := 0, Timestamp := 21474832480000 } ∧
    lookupSpec ringTwoPressesA.1 0x1E (clockLongIdle 2) = some 4000000 ∧
    isDuplicateSpec ringTwoPressesA.1 pressA.MakeCode (clockLongIdle 2) = false ∧
    timeDiffMs (clockLongIdle 2) (ringTwoPressesA.1.RecentKeys 1) = 400 ∧
    timeDiffMs (clockLongIdle 2) (ringTwoPressesA.1.RecentKeys 0) = -2147483648 ∧
    (KbFilter_IsRecentDuplicateKey ringTwoPressesA.1 pressA clockLongIdle 2).1 = true ∧
    (KbFilter_ServiceCallback consumeAll clockLongIdle true ringTwoPressesA.1 2 [pressA]
      5).upstreamCalls = [] := by
  refine ⟨clockLongIdle_mono, ?_⟩
  decide

end KbFiltr
